import Mathlib

/-!
veecomm-api: cart pricing, coupon ledger and checkout.

A shallow embedding of the handlers of `controllers/cart_controller.go`,
`controllers/coupon_controller.go` and `controllers/order_controller.go`.

Conventions of the embedding:

* the entity store is a record of row lists; a query with `First` returns the
  first matching row, `UpdateOne` rewrites the rows carrying the id of the
  object it was given, and only the fields that were set (plus `updated_at`);
* `float64` amounts are exact rationals;
* Go `int` arithmetic is 64-bit two's complement (`wrapInt`);
* `time.Now()` is the parameter `now`, `uuid.New().String()` is a parameter;
* the caller identity read by `getUserIdFromContext` is the parameter `userId`,
  the admin flag is the parameter `isAdmin`, and the request body is the
  already parsed request record;
* the store does not fail for infrastructure reasons; a save is refused when a
  field validator of `ent/schema` rejects the row or when the `id` of a created
  row is already in use (`id` is the primary key of every entity).
-/

namespace Veecomm

/-! ## Machine integers -/

/-- The value of a Go `int` expression whose exact result is `x`. -/
def wrapInt (x : Int) : Int := (x + 2 ^ 63) % 2 ^ 64 - 2 ^ 63

/-- Largest Go `int`. -/
def maxInt : Int := 2 ^ 63 - 1

/-! ## Data model (`ent/schema`) -/

/-- Product, with the fields the handlers read (`prod.Name`, `prod.Price`, `prod.Image`). -/
structure Product where
  id : String
  name : String
  price : ℚ
  image : String
deriving DecidableEq, Repr

/-- Coupon row (`ent/schema/coupon.go`). -/
structure Coupon where
  id : String
  code : String
  discountType : String
  discountValue : ℚ
  minPurchase : ℚ
  expiresAt : Option Int
  isActive : Bool
  maxUses : Option Int
  timesUsed : Int
  createdAt : Int
  updatedAt : Int
deriving DecidableEq, Repr

/-- Cart row (`ent/schema/cart.go`); an unset optional field reads as its zero value. -/
structure Cart where
  id : String
  userId : String
  subtotal : ℚ
  shipping : ℚ
  discount : ℚ
  total : ℚ
  appliedCoupon : Bool
  couponCode : String
  createdAt : Int
  updatedAt : Int
deriving DecidableEq, Repr

/-- Cart line item row (`ent/schema/cart_item.go`). -/
structure CartItem where
  id : String
  cartId : String
  productId : String
  name : String
  price : ℚ
  image : String
  quantity : Int
  createdAt : Int
  updatedAt : Int
deriving DecidableEq, Repr

/-- Address row (`ent/schema/address.go`). -/
structure Address where
  id : String
  userId : String
  cep : String
  logradouro : String
  numero : String
  complemento : String
  bairro : String
  cidade : String
  estado : String
  isDefault : Bool
  createdAt : Int
  updatedAt : Int
deriving DecidableEq, Repr

/-- Order row (`ent/schema/order.go`); `none` is an optional column left unset. -/
structure Order where
  id : String
  userId : String
  date : Int
  total : ℚ
  shipping : ℚ
  discount : ℚ
  deliveryType : String
  status : String
  addressId : Option String
  paymentMethod : String
  paymentStatus : String
  couponCode : Option String
  createdAt : Int
  updatedAt : Int
deriving DecidableEq, Repr

/-- Order line item row (`ent/schema/order_item.go`). -/
structure OrderItem where
  id : String
  orderId : String
  productId : String
  name : String
  price : ℚ
  image : String
  quantity : Int
  createdAt : Int
  updatedAt : Int
deriving DecidableEq, Repr

/-- The entity store: one list of rows per entity. -/
structure Store where
  products : List Product
  coupons : List Coupon
  carts : List Cart
  cartItems : List CartItem
  addresses : List Address
  orders : List Order
  orderItems : List OrderItem
deriving DecidableEq, Repr

/-- The store with no rows. -/
def Store.empty : Store :=
  { products := [], coupons := [], carts := [], cartItems := [],
    addresses := [], orders := [], orderItems := [] }

/-! ## Requests and responses -/

/-- Body of the cart item endpoints (`CartItemRequest`). -/
structure CartItemRequest where
  productId : String
  quantity : Int
deriving DecidableEq, Repr

/-- Body of `POST /api/cart/coupon` (the `CouponRequest` of `cart_controller.go`). -/
structure CartCouponRequest where
  code : String
deriving DecidableEq, Repr

/-- Body of the coupon administration endpoints (the `CouponRequest` of `coupon_controller.go`). -/
structure CouponRequest where
  code : String
  discountType : String
  discountValue : ℚ
  minPurchase : ℚ
  expiresAt : Option Int
  isActive : Bool
  maxUses : Option Int
deriving DecidableEq, Repr

/-- Body of `POST /api/coupons/validate`. -/
structure ValidateRequest where
  code : String
  cartTotal : ℚ
deriving DecidableEq, Repr

/-- Body of `POST /api/orders` (`OrderRequest`). -/
structure OrderRequest where
  addressId : String
  deliveryType : String
  paymentMethod : String
  paymentStatus : String
deriving DecidableEq, Repr

/-- What a handler answers: the HTTP status, the `message` entry and the payload entries. -/
structure Response where
  status : Nat
  message : String
  cart : Option Cart := none
  item : Option CartItem := none
  order : Option Order := none
  coupon : Option Coupon := none
  address : Option Address := none
  product : Option Product := none
  valid : Option Bool := none
  discount : Option ℚ := none
  hasError : Bool := false
deriving DecidableEq, Repr

/-! ## Store primitives -/

/-- Store call `client.Cart.Query().Where(cart.UserID(userId)).First(ctx)`. -/
def findCartByUser (s : Store) (userId : String) : Option Cart :=
  s.carts.find? (fun c => decide (c.userId = userId))

/-- Store call `client.Cart.Get(ctx, cartId)`. -/
def getCart (s : Store) (cartId : String) : Option Cart :=
  s.carts.find? (fun c => decide (c.id = cartId))

/-- Store call `client.Product.Get(ctx, id)` and `Query().Where(product.ID(id)).First(ctx)`. -/
def getProduct (s : Store) (id : String) : Option Product :=
  s.products.find? (fun p => decide (p.id = id))

/-- Store call `client.CartItem.Query().Where(cart_item.CartID(cartId)).All(ctx)`. -/
def cartItemsOf (s : Store) (cartId : String) : List CartItem :=
  s.cartItems.filter (fun i => decide (i.cartId = cartId))

/-- Store call `client.Coupon.Query().Where(coupon.Code(code)).First(ctx)`. -/
def findCouponByCode (s : Store) (code : String) : Option Coupon :=
  s.coupons.find? (fun k => decide (k.code = code))

/-- Store call `client.Coupon.Query().Where(coupon.Code(code), coupon.IsActive(true)).First(ctx)`. -/
def findActiveCoupon (s : Store) (code : String) : Option Coupon :=
  s.coupons.find? (fun k => decide (k.code = code) && k.isActive)

/-- Store call `client.Cart.UpdateOne(obj)...Save(ctx)`: rewrite the rows with the id of `obj`. -/
def updateCartRows (s : Store) (cartId : String) (f : Cart → Cart) : Store :=
  { s with carts := s.carts.map (fun c => if c.id = cartId then f c else c) }

/-- Store call `client.Coupon.UpdateOne(obj)...Save(ctx)`: rewrite the rows with the id of `obj`. -/
def updateCouponRows (s : Store) (couponId : String) (f : Coupon → Coupon) : Store :=
  { s with coupons := s.coupons.map (fun k => if k.id = couponId then f k else k) }

/-- Store call `client.CartItem.UpdateOne(obj)...Save(ctx)`: rewrite the rows with the id of `obj`. -/
def updateCartItemRows (s : Store) (itemId : String) (f : CartItem → CartItem) : Store :=
  { s with cartItems := s.cartItems.map (fun i => if i.id = itemId then f i else i) }

/-- Store call `client.CartItem.Delete().Where(cart_item.CartID(cartId)).Exec(ctx)`. -/
def deleteCartItemsOf (s : Store) (cartId : String) : Store :=
  { s with cartItems := s.cartItems.filter (fun i => !decide (i.cartId = cartId)) }

/-- Store call `client.CartItem.DeleteOneID(itemId).Exec(ctx)`. -/
def deleteCartItem (s : Store) (itemId : String) : Store :=
  { s with cartItems := s.cartItems.filter (fun i => !decide (i.id = itemId)) }

/-! ## Pricing (`updateCartTotals`) -/

/-- The discount computation shared by `ApplyCoupon`, `updateCartTotals` and
`ValidateCoupon`: `base * (value / 100)` for `percentage`, otherwise the value
capped at the base. Amounts are exact rationals here; `couponDiscountWith roundF64` is
the same computation with the rounding of Go's `float64`. -/
def couponDiscount (k : Coupon) (base : ℚ) : ℚ :=
  if k.discountType = "percentage" then
    base * (k.discountValue / 100)
  else if k.discountValue > base then base else k.discountValue

/-- The subtotal loop of `updateCartTotals`: `subtotal += item.Price * float64(item.Quantity)`,
with amounts as exact rationals (`subtotalOfWith roundF64` rounds as Go's `float64`). -/
def subtotalOf (items : List CartItem) : ℚ :=
  items.foldl (fun acc i => acc + i.price * (i.quantity : ℚ)) 0

/-- The fields `updateCartTotals` computes for the cart object `cartObj`. -/
def recomputed (s : Store) (cartObj : Cart) (now : Int) : Cart → Cart :=
  let subtotal := subtotalOf (cartItemsOf s cartObj.id)
  let discount : ℚ :=
    if cartObj.appliedCoupon = true ∧ cartObj.couponCode ≠ "" then
      match findCouponByCode s cartObj.couponCode with
      | some couponObj => couponDiscount couponObj subtotal
      | none => 0
    else 0
  let total : ℚ :=
    if cartObj.shipping > 0 then subtotal - discount + cartObj.shipping else subtotal - discount
  fun r => { r with subtotal := subtotal, discount := discount, total := total, updatedAt := now }

/-- Helper `updateCartTotals`: `none` when the cart id is unknown, otherwise the
saved cart and the store after the save. -/
def updateCartTotals (s : Store) (cartId : String) (now : Int) : Option (Cart × Store) :=
  match getCart s cartId with
  | none => none
  | some cartObj =>
    some (recomputed s cartObj now cartObj, updateCartRows s cartObj.id (recomputed s cartObj now))

/-- Helper `getOrCreateCart`: the caller's cart, created with zero totals when
absent; `none` when the create is refused because the new id is in use. -/
def getOrCreateCart (s : Store) (userId newCartId : String) (now : Int) :
    Option (Cart × Store) :=
  match findCartByUser s userId with
  | some cartObj => some (cartObj, s)
  | none =>
    if s.carts.any (fun c => decide (c.id = newCartId)) = true then none
    else
      let c : Cart :=
        { id := newCartId, userId := userId, subtotal := 0, shipping := 0, discount := 0,
          total := 0, appliedCoupon := false, couponCode := "", createdAt := now,
          updatedAt := now }
      some (c, { s with carts := s.carts ++ [c] })

/-! ## Cart handlers (`controllers/cart_controller.go`) -/

/-- The `CartItem` field validators: `name` and `image` not empty, `price` and `quantity` positive. -/
def cartItemFieldsOk (name : String) (price : ℚ) (image : String) (quantity : Int) : Bool :=
  decide (name ≠ "") && decide (0 < price) && decide (image ≠ "") && decide (0 < quantity)

/-- The item write of `AddToCart`: the quantity of the existing row of this cart
and product is raised, or a new row is created from the product; `none` when the
save is refused (field validator, or new id in use). -/
def saveCartItem (s : Store) (cartObj : Cart) (prod : Product) (req : CartItemRequest)
    (newItemId : String) (now : Int) : Option (CartItem × Store) :=
  match s.cartItems.find?
      (fun i => decide (i.cartId = cartObj.id) && decide (i.productId = req.productId)) with
  | some existingItem =>
    let q := wrapInt (existingItem.quantity + req.quantity)
    if 0 < q then
      some ({ existingItem with quantity := q, updatedAt := now },
        updateCartItemRows s existingItem.id (fun r => { r with quantity := q, updatedAt := now }))
    else none
  | none =>
    if cartItemFieldsOk prod.name prod.price prod.image req.quantity = true ∧
        s.cartItems.any (fun i => decide (i.id = newItemId)) = false then
      let item : CartItem :=
        { id := newItemId, cartId := cartObj.id, productId := req.productId, name := prod.name,
          price := prod.price, image := prod.image, quantity := req.quantity,
          createdAt := now, updatedAt := now }
      some (item, { s with cartItems := s.cartItems ++ [item] })
    else none

/-- Handler `AddToCart` (`POST /api/cart/items`). -/
def AddToCart (s : Store) (userId : String) (req : CartItemRequest)
    (newCartId newItemId : String) (now : Int) : Response × Store :=
  if userId = "" then ({ status := 401, message := "Usuário não autenticado" }, s)
  else if req.quantity ≤ 0 then
    ({ status := 400, message := "A quantidade deve ser maior que zero" }, s)
  else
    match getProduct s req.productId with
    | none => ({ status := 404, message := "Produto não encontrado" }, s)
    | some prod =>
      match getOrCreateCart s userId newCartId now with
      | none => ({ status := 500, message := "Erro ao buscar carrinho", hasError := true }, s)
      | some (cartObj, s1) =>
        match saveCartItem s1 cartObj prod req newItemId now with
        | none =>
          ({ status := 500, message := "Erro ao adicionar item ao carrinho", hasError := true }, s1)
        | some (item, s2) =>
          match updateCartTotals s2 cartObj.id now with
          | none =>
            ({ status := 500,
               message := "Item adicionado com sucesso, mas houve erro ao atualizar totais do carrinho",
               hasError := true }, s2)
          | some (updatedCart, s3) =>
            ({ status := 201, message := "Item adicionado ao carrinho com sucesso",
               item := some item, cart := some updatedCart }, s3)

/-- Handler `UpdateCartItem` (`PUT /api/cart/items/:itemId`). -/
def UpdateCartItem (s : Store) (userId itemId : String) (req : CartItemRequest)
    (now : Int) : Response × Store :=
  if userId = "" then ({ status := 401, message := "Usuário não autenticado" }, s)
  else if req.quantity ≤ 0 then
    ({ status := 400, message := "A quantidade deve ser maior que zero" }, s)
  else
    match findCartByUser s userId with
    | none => ({ status := 404, message := "Carrinho não encontrado" }, s)
    | some cartObj =>
      match s.cartItems.find?
          (fun i => decide (i.id = itemId) && decide (i.cartId = cartObj.id)) with
      | none => ({ status := 404, message := "Item não encontrado no carrinho" }, s)
      | some item =>
        let s1 := updateCartItemRows s item.id
          (fun r => { r with quantity := req.quantity, updatedAt := now })
        match updateCartTotals s1 cartObj.id now with
        | none =>
          ({ status := 500,
             message := "Item atualizado com sucesso, mas houve erro ao atualizar totais do carrinho",
             hasError := true }, s1)
        | some (updatedCart, s2) =>
          ({ status := 200, message := "Item atualizado com sucesso",
             item := some { item with quantity := req.quantity, updatedAt := now },
             cart := some updatedCart }, s2)

/-- Handler `RemoveCartItem` (`DELETE /api/cart/items/:itemId`). -/
def RemoveCartItem (s : Store) (userId itemId : String) (now : Int) : Response × Store :=
  if userId = "" then ({ status := 401, message := "Usuário não autenticado" }, s)
  else
    match findCartByUser s userId with
    | none => ({ status := 404, message := "Carrinho não encontrado" }, s)
    | some cartObj =>
      if s.cartItems.any (fun i => decide (i.id = itemId) && decide (i.cartId = cartObj.id)) = false
      then ({ status := 404, message := "Item não encontrado no carrinho" }, s)
      else
        let s1 := deleteCartItem s itemId
        match updateCartTotals s1 cartObj.id now with
        | none =>
          ({ status := 500,
             message := "Item removido com sucesso, mas houve erro ao atualizar totais do carrinho",
             hasError := true }, s1)
        | some (updatedCart, s2) =>
          ({ status := 200, message := "Item removido com sucesso", cart := some updatedCart }, s2)

/-- The coupon fields `ApplyCoupon` writes on the cart, computed from the cart object it read. -/
def couponApplied (cartObj : Cart) (couponObj : Coupon) (code : String) (now : Int) :
    Cart → Cart :=
  let discount := couponDiscount couponObj cartObj.subtotal
  fun r => { r with appliedCoupon := true, couponCode := code, discount := discount,
                    total := cartObj.subtotal - discount + cartObj.shipping, updatedAt := now }

/-- Handler `ApplyCoupon` (`POST /api/cart/coupon`). -/
def ApplyCoupon (s : Store) (userId : String) (req : CartCouponRequest) (now : Int) :
    Response × Store :=
  if userId = "" then ({ status := 401, message := "Usuário não autenticado" }, s)
  else if req.code = "" then ({ status := 400, message := "Código do cupom é obrigatório" }, s)
  else
    match findActiveCoupon s req.code with
    | none => ({ status := 404, message := "Cupom não encontrado ou inativo" }, s)
    | some couponObj =>
      if couponObj.expiresAt.any (fun t => decide (t < now)) = true then
        ({ status := 400, message := "Cupom expirado" }, s)
      else if couponObj.maxUses.any (fun m => decide (m ≤ couponObj.timesUsed)) = true then
        ({ status := 400, message := "Limite de uso do cupom excedido" }, s)
      else
        match findCartByUser s userId with
        | none => ({ status := 404, message := "Carrinho não encontrado" }, s)
        | some cartObj =>
          if cartObj.subtotal < couponObj.minPurchase then
            ({ status := 400, message := "Valor mínimo para uso do cupom não atingido" }, s)
          else
            let s1 := updateCartRows s cartObj.id (couponApplied cartObj couponObj req.code now)
            let s2 := updateCouponRows s1 couponObj.id
              (fun r => { r with timesUsed := wrapInt (couponObj.timesUsed + 1), updatedAt := now })
            ({ status := 200, message := "Cupom aplicado com sucesso",
               cart := some (couponApplied cartObj couponObj req.code now cartObj) }, s2)

/-- The decrement step shared by `RemoveCoupon` and `ClearCart`: when the code is
not empty and a coupon with that code has `times_used > 0`, one use is released. -/
def releaseCoupon (s : Store) (couponCode : String) (now : Int) : Store :=
  if couponCode ≠ "" then
    match findCouponByCode s couponCode with
    | some couponObj =>
      if couponObj.timesUsed > 0 then
        updateCouponRows s couponObj.id
          (fun r => { r with timesUsed := wrapInt (couponObj.timesUsed - 1), updatedAt := now })
      else s
    | none => s
  else s

/-- The fields `RemoveCoupon` writes on the cart. -/
def couponRemoved (cartObj : Cart) (now : Int) : Cart → Cart :=
  fun r => { r with appliedCoupon := false, couponCode := "", discount := 0,
                    total := cartObj.subtotal + cartObj.shipping, updatedAt := now }

/-- Handler `RemoveCoupon` (`DELETE /api/cart/coupon`). -/
def RemoveCoupon (s : Store) (userId : String) (now : Int) : Response × Store :=
  if userId = "" then ({ status := 401, message := "Usuário não autenticado" }, s)
  else
    match findCartByUser s userId with
    | none => ({ status := 404, message := "Carrinho não encontrado" }, s)
    | some cartObj =>
      if cartObj.appliedCoupon = false then
        ({ status := 400, message := "Não há cupom aplicado ao carrinho" }, s)
      else
        let couponCode := cartObj.couponCode
        let s1 := updateCartRows s cartObj.id (couponRemoved cartObj now)
        ({ status := 200, message := "Cupom removido com sucesso",
           cart := some (couponRemoved cartObj now cartObj) }, releaseCoupon s1 couponCode now)

/-- The fields `ClearCart` writes on the cart. -/
def cartCleared (cartObj : Cart) (now : Int) : Cart → Cart :=
  fun r => { r with subtotal := 0, discount := 0, total := cartObj.shipping,
                    appliedCoupon := false, couponCode := "", updatedAt := now }

/-- Handler `ClearCart` (`DELETE /api/cart`). -/
def ClearCart (s : Store) (userId : String) (now : Int) : Response × Store :=
  if userId = "" then ({ status := 401, message := "Usuário não autenticado" }, s)
  else
    match findCartByUser s userId with
    | none => ({ status := 404, message := "Carrinho não encontrado" }, s)
    | some cartObj =>
      let s1 := deleteCartItemsOf s cartObj.id
      let couponCode := if cartObj.appliedCoupon = true then cartObj.couponCode else ""
      let s2 := updateCartRows s1 cartObj.id (cartCleared cartObj now)
      ({ status := 200, message := "Carrinho limpo com sucesso",
         cart := some (cartCleared cartObj now cartObj) }, releaseCoupon s2 couponCode now)

/-! ## Coupon handlers (`controllers/coupon_controller.go`) -/

/-- Handler `ValidateCoupon` (`POST /api/coupons/validate`); it writes nothing. -/
def ValidateCoupon (s : Store) (req : ValidateRequest) (now : Int) : Response :=
  if req.code = "" then { status := 400, message := "Código do cupom é obrigatório" }
  else
    match findActiveCoupon s req.code with
    | none => { status := 404, message := "Cupom não encontrado ou inativo", valid := some false }
    | some couponObj =>
      if couponObj.expiresAt.any (fun t => decide (t < now)) = true then
        { status := 200, message := "Cupom expirado", valid := some false }
      else if couponObj.maxUses.any (fun m => decide (couponObj.timesUsed ≥ m)) = true then
        { status := 200, message := "Cupom atingiu o limite máximo de usos", valid := some false }
      else if req.cartTotal < couponObj.minPurchase then
        { status := 200, message := "Valor mínimo para uso do cupom não atingido",
          valid := some false }
      else
        { status := 200, message := "Cupom válido", valid := some true,
          coupon := some couponObj, discount := some (couponDiscount couponObj req.cartTotal) }

/-- Handler `CreateCoupon` (`POST /api/coupons`). -/
def CreateCoupon (s : Store) (isAdmin : Bool) (req : CouponRequest) (newId : String)
    (now : Int) : Response × Store :=
  if isAdmin = false then
    ({ status := 403, message := "Apenas administradores podem criar cupons" }, s)
  else if req.code = "" then ({ status := 400, message := "Código do cupom é obrigatório" }, s)
  else if req.discountType ≠ "percentage" ∧ req.discountType ≠ "fixed" then
    ({ status := 400, message := "Tipo de desconto inválido. Use 'percentage' ou 'fixed'" }, s)
  else if req.discountValue ≤ 0 then
    ({ status := 400, message := "Valor do desconto deve ser maior que zero" }, s)
  else if req.minPurchase < 0 then
    ({ status := 400, message := "Valor mínimo de compra não pode ser negativo" }, s)
  else if s.coupons.any (fun k => decide (k.code = req.code)) = true then
    ({ status := 409, message := "Já existe um cupom com este código" }, s)
  else if s.coupons.any (fun k => decide (k.id = newId)) = true then
    ({ status := 500, message := "Erro ao criar cupom", hasError := true }, s)
  else
    let couponObj : Coupon :=
      { id := newId, code := req.code, discountType := req.discountType,
        discountValue := req.discountValue, minPurchase := req.minPurchase,
        expiresAt := req.expiresAt, isActive := req.isActive, maxUses := req.maxUses,
        timesUsed := 0, createdAt := now, updatedAt := now }
    ({ status := 201, message := "Cupom criado com sucesso", coupon := some couponObj },
      { s with coupons := s.coupons ++ [couponObj] })

/-- The fields `UpdateCoupon` sets: each one only when the request carries it. -/
def couponUpdated (req : CouponRequest) (now : Int) : Coupon → Coupon :=
  fun r =>
    { r with
      code := if req.code ≠ "" then req.code else r.code
      discountType := if req.discountType ≠ "" then req.discountType else r.discountType
      discountValue := if req.discountValue > 0 then req.discountValue else r.discountValue
      minPurchase := if req.minPurchase ≥ 0 then req.minPurchase else r.minPurchase
      isActive := req.isActive
      expiresAt := match req.expiresAt with
        | some t => some t
        | none => r.expiresAt
      maxUses := match req.maxUses with
        | some m => some m
        | none => r.maxUses
      updatedAt := now }

/-- Handler `UpdateCoupon` (`PUT /api/coupons/:id`). -/
def UpdateCoupon (s : Store) (isAdmin : Bool) (id : String) (req : CouponRequest)
    (now : Int) : Response × Store :=
  if isAdmin = false then
    ({ status := 403, message := "Apenas administradores podem atualizar cupons" }, s)
  else
    match s.coupons.find? (fun k => decide (k.id = id)) with
    | none => ({ status := 404, message := "Cupom não encontrado" }, s)
    | some couponObj =>
      if req.discountType ≠ "" ∧ req.discountType ≠ "percentage" ∧ req.discountType ≠ "fixed" then
        ({ status := 400, message := "Tipo de desconto inválido. Use 'percentage' ou 'fixed'" }, s)
      else if req.discountValue < 0 then
        ({ status := 400, message := "Valor do desconto não pode ser negativo" }, s)
      else if req.minPurchase < 0 then
        ({ status := 400, message := "Valor mínimo de compra não pode ser negativo" }, s)
      else if (req.code ≠ "" ∧ req.code ≠ couponObj.code) ∧
          s.coupons.any (fun k => decide (k.code = req.code) && !decide (k.id = id)) = true then
        ({ status := 409, message := "Já existe um cupom com este código" }, s)
      else
        ({ status := 200, message := "Cupom atualizado com sucesso",
           coupon := some (couponUpdated req now couponObj) },
          updateCouponRows s couponObj.id (couponUpdated req now))

/-! ## Checkout (`controllers/order_controller.go`) -/

/-- The fields an `OrderItem` create builder carries; `image` is `none` when
`SetImage` was not called on the builder. -/
structure OrderItemCreate where
  id : String
  orderId : String
  productId : String
  name : String
  quantity : Int
  price : ℚ
  image : Option String
deriving DecidableEq, Repr

/-- Saving an `OrderItem` create builder against `ent/schema/order_item.go`: the
required field `image` must have been set, `name` and `image` must not be empty,
`price` and `quantity` must be positive, and the id must be new. -/
def saveOrderItem (s : Store) (b : OrderItemCreate) (now : Int) : Option Store :=
  match b.image with
  | none => none
  | some image =>
    if b.name ≠ "" ∧ 0 < b.price ∧ image ≠ "" ∧ 0 < b.quantity ∧
        s.orderItems.any (fun i => decide (i.id = b.id)) = false then
      some { s with orderItems := s.orderItems ++
        [{ id := b.id, orderId := b.orderId, productId := b.productId, name := b.name,
           price := b.price, image := image, quantity := b.quantity,
           createdAt := now, updatedAt := now }] }
    else none

/-- The order item loop of `CreateOrder`, from the item at position `n`: the name is
the current product name when the product exists, the snapshot otherwise; a failed
save is skipped. -/
def createOrderItems (orderId : String) (itemId : Nat → String) (now : Int) :
    Store → Nat → List CartItem → Store
  | s, _, [] => s
  | s, n, item :: rest =>
    let prodName :=
      match getProduct s item.productId with
      | some prod => prod.name
      | none => item.name
    let b : OrderItemCreate :=
      { id := itemId n, orderId := orderId, productId := item.productId, name := prodName,
        quantity := item.quantity, price := item.price, image := none }
    match saveOrderItem s b now with
    | some s1 => createOrderItems orderId itemId now s1 (n + 1) rest
    | none => createOrderItems orderId itemId now s (n + 1) rest

/-- The fields the cart reset of `CreateOrder` writes. -/
def cartReset (now : Int) : Cart → Cart :=
  fun r => { r with subtotal := 0, discount := 0, total := 0,
                    appliedCoupon := false, couponCode := "", updatedAt := now }

/-- The order `CreateOrder` builds from the cart object and the request: the money
fields are copied from the cart, the address is set for a delivery, the coupon
code is set when the cart has one applied. -/
def orderOf (cartObj : Cart) (userId : String) (req : OrderRequest) (orderId : String)
    (now : Int) : Order :=
  { id := orderId, userId := userId, date := now, total := cartObj.total,
    shipping := cartObj.shipping, discount := cartObj.discount,
    deliveryType := req.deliveryType, status := "pending",
    addressId :=
      if req.deliveryType = "delivery" ∧ req.addressId ≠ "" then some req.addressId else none,
    paymentMethod := req.paymentMethod, paymentStatus := req.paymentStatus,
    couponCode :=
      if cartObj.appliedCoupon = true ∧ cartObj.couponCode ≠ "" then some cartObj.couponCode
      else none,
    createdAt := now, updatedAt := now }

/-- The smallest value the `Positive()` validator of an ent float field accepts: ent
declares it as `Min(1e-06)`, so a value passes when it is at least 0.000001. -/
def minPositive : ℚ := mkRat 1 1000000

/-- Saving the order: refused when the `total` validator of `ent/schema/order.go`
(`Positive`, that is `total ≥ 0.000001`) rejects it or when the id is in use. -/
def saveOrder (s : Store) (orderObj : Order) : Option Store :=
  if minPositive ≤ orderObj.total ∧
      s.orders.any (fun o => decide (o.id = orderObj.id)) = false then
    some { s with orders := s.orders ++ [orderObj] }
  else none

/-- The steps of `CreateOrder` after the order is saved: the order item loop, the
deletion of the cart's line items and the cart reset. -/
def finishCheckout (s1 : Store) (cartObj : Cart) (cartItems : List CartItem) (orderId : String)
    (itemId : Nat → String) (now : Int) : Store :=
  let s2 := createOrderItems orderId itemId now s1 0 cartItems
  let s3 := deleteCartItemsOf s2 cartObj.id
  updateCartRows s3 cartObj.id (cartReset now)

/-- Handler `CreateOrder` (`POST /api/orders`). -/
def CreateOrder (s : Store) (userId : String) (req : OrderRequest) (orderId : String)
    (itemId : Nat → String) (now : Int) : Response × Store :=
  if userId = "" then ({ status := 401, message := "Usuário não autenticado" }, s)
  else if req.deliveryType ≠ "pickup" ∧ req.deliveryType ≠ "delivery" then
    ({ status := 400, message := "Tipo de entrega inválido. Use 'pickup' ou 'delivery'" }, s)
  else if req.paymentMethod = "" then
    ({ status := 400, message := "Método de pagamento é obrigatório" }, s)
  else if req.paymentStatus = "" then
    ({ status := 400, message := "Status de pagamento é obrigatório" }, s)
  else if req.deliveryType = "delivery" ∧ req.addressId = "" then
    ({ status := 400, message := "Endereço de entrega é obrigatório para entregas" }, s)
  else if req.deliveryType = "delivery" ∧
      s.addresses.any (fun a => decide (a.id = req.addressId) && decide (a.userId = userId)) = false
  then ({ status := 404, message := "Endereço não encontrado" }, s)
  else
    match findCartByUser s userId with
    | none => ({ status := 404, message := "Carrinho não encontrado" }, s)
    | some cartObj =>
      let cartItems := cartItemsOf s cartObj.id
      if cartItems.length = 0 then
        ({ status := 400, message := "Não há itens no carrinho para criar o pedido" }, s)
      else
        let orderObj := orderOf cartObj userId req orderId now
        match saveOrder s orderObj with
        | none => ({ status := 500, message := "Erro ao criar pedido", hasError := true }, s)
        | some s1 =>
          ({ status := 201, message := "Pedido criado com sucesso", order := some orderObj },
            finishCheckout s1 cartObj cartItems orderId itemId now)

/-! ## Notions used to state the properties -/

/-- The sum of `price × quantity` over line items. -/
def lineSum (items : List CartItem) : ℚ :=
  (items.map (fun i => i.price * (i.quantity : ℚ))).sum

/-- The pricing rule for the total: shipping is added only when it is positive. -/
def TotalRule (c : Cart) : Prop :=
  c.total = if c.shipping > 0 then c.subtotal - c.discount + c.shipping
            else c.subtotal - c.discount

instance (c : Cart) : Decidable (TotalRule c) := by
  unfold TotalRule; infer_instance

/-- Cart ids are a primary key. -/
def CartIdsUnique (s : Store) : Prop := (s.carts.map (fun c => c.id)).Nodup

instance (s : Store) : Decidable (CartIdsUnique s) := by
  unfold CartIdsUnique; infer_instance

/-- A value a Go `int` can hold. -/
def IsGoInt (x : Int) : Prop := -(2 ^ 63) ≤ x ∧ x ≤ maxInt

instance (x : Int) : Decidable (IsGoInt x) := by
  unfold IsGoInt; infer_instance

/-! ## Sample data -/

/-- Line item: price 10, quantity 2, in cart `c1`. -/
def itemA : CartItem :=
  { id := "i1", cartId := "c1", productId := "p1", name := "A", price := 10,
    image := "a.png", quantity := 2, createdAt := 0, updatedAt := 0 }

/-- Line item: price 5, quantity 1, in cart `c1`. -/
def itemB : CartItem :=
  { id := "i2", cartId := "c1", productId := "p2", name := "B", price := 5,
    image := "b.png", quantity := 1, createdAt := 0, updatedAt := 0 }

/-- Product `p1`, price 10. -/
def prodA : Product := { id := "p1", name := "A", price := 10, image := "a.png" }

/-- Product `p2`, price 5. -/
def prodB : Product := { id := "p2", name := "B", price := 5, image := "b.png" }

/-- A 10 percent coupon, used once. -/
def couponTen : Coupon :=
  { id := "k1", code := "TEN", discountType := "percentage", discountValue := 10,
    minPurchase := 0, expiresAt := none, isActive := true, maxUses := none,
    timesUsed := 1, createdAt := 0, updatedAt := 0 }

/-- A fixed coupon of 100, unused. -/
def couponHundred : Coupon :=
  { id := "k2", code := "HUNDRED", discountType := "fixed", discountValue := 100,
    minPurchase := 0, expiresAt := none, isActive := true, maxUses := none,
    timesUsed := 0, createdAt := 0, updatedAt := 0 }

/-- The cart of user `u1` with the 10 percent coupon applied on a subtotal of 25. -/
def cartTen : Cart :=
  { id := "c1", userId := "u1", subtotal := 25, shipping := 0, discount := 5 / 2,
    total := 45 / 2, appliedCoupon := true, couponCode := "TEN", createdAt := 0,
    updatedAt := 0 }

/-- The cart of user `u1` with no coupon and a stale subtotal of 999. -/
def cartStale : Cart :=
  { id := "c1", userId := "u1", subtotal := 999, shipping := 0, discount := 0,
    total := 999, appliedCoupon := false, couponCode := "", createdAt := 0, updatedAt := 0 }

/-- Store: cart `c1` with items `[{10,2},{5,1}]` and the 10 percent coupon applied. -/
def storeTen : Store :=
  { products := [prodA, prodB], coupons := [couponTen, couponHundred], carts := [cartTen],
    cartItems := [itemA, itemB], addresses := [], orders := [], orderItems := [] }

/-- Store: cart `c1` with items `[{10,2},{5,1}]`, no coupon, stale stored subtotal. -/
def storeStale : Store :=
  { products := [prodA, prodB], coupons := [couponTen, couponHundred], carts := [cartStale],
    cartItems := [itemA, itemB], addresses := [], orders := [], orderItems := [] }

/-- A cart with a positive shipping value: subtotal 25, shipping 5, total 30. -/
def cartShipping : Cart :=
  { id := "c1", userId := "u1", subtotal := 25, shipping := 5, discount := 0,
    total := 30, appliedCoupon := false, couponCode := "", createdAt := 0, updatedAt := 0 }

/-- Store: cart `c1` with items `[{10,2},{5,1}]` and shipping 5. -/
def storeShipping : Store :=
  { products := [prodA, prodB], coupons := [couponTen, couponHundred], carts := [cartShipping],
    cartItems := [itemA, itemB], addresses := [], orders := [], orderItems := [] }

/-- A pickup checkout request. -/
def reqPickup : OrderRequest :=
  { addressId := "", deliveryType := "pickup", paymentMethod := "card", paymentStatus := "paid" }

/-- Ids handed to the order items of a checkout. -/
def sampleItemIds (n : Nat) : String := "oi" ++ toString n

/-- The cart of user `u1` with no coupon: subtotal 25, total 25. -/
def cartPlain : Cart :=
  { id := "c1", userId := "u1", subtotal := 25, shipping := 0, discount := 0,
    total := 25, appliedCoupon := false, couponCode := "", createdAt := 0, updatedAt := 0 }

/-- Store: cart `c1` with items `[{10,2},{5,1}]`, no coupon applied. -/
def storePlain : Store :=
  { products := [prodA, prodB], coupons := [couponTen, couponHundred], carts := [cartPlain],
    cartItems := [itemA, itemB], addresses := [], orders := [], orderItems := [] }

/-- A coupon creation request: 150 percent. -/
def reqBig : CouponRequest :=
  { code := "BIG", discountType := "percentage", discountValue := 150, minPurchase := 0,
    expiresAt := none, isActive := true, maxUses := none }

/-- The coupon `CreateCoupon` stores for `reqBig` with id `k9` at time 1. -/
def couponBig : Coupon :=
  { id := "k9", code := "BIG", discountType := "percentage", discountValue := 150,
    minPurchase := 0, expiresAt := none, isActive := true, maxUses := none,
    timesUsed := 0, createdAt := 1, updatedAt := 1 }

/-- The caller's stored cart has its subtotal equal to the sum over its line items
and its discount derived from that subtotal by the coupon `k`: `subtotal × value/100`
for `percentage`, `min value subtotal` for `fixed`. -/
def DiscountFollows (k : Coupon) (s : Store) (userId : String) : Prop :=
  ∃ c, findCartByUser s userId = some c ∧ c.subtotal = lineSum (cartItemsOf s c.id) ∧
    (k.discountType = "percentage" → c.discount = c.subtotal * k.discountValue / 100) ∧
    (k.discountType = "fixed" → c.discount = min k.discountValue c.subtotal)

/-- A request to one of the handlers that write coupons. -/
inductive CouponCall where
  | createCoupon (isAdmin : Bool) (req : CouponRequest) (newId : String) (now : Int)
  | updateCoupon (isAdmin : Bool) (id : String) (req : CouponRequest) (now : Int)
  | applyCoupon (userId : String) (req : CartCouponRequest) (now : Int)
  | removeCoupon (userId : String) (now : Int)
  | clearCart (userId : String) (now : Int)
deriving DecidableEq, Repr

/-- The store after one call. -/
def runCall (s : Store) : CouponCall → Store
  | .createCoupon isAdmin req newId now => (CreateCoupon s isAdmin req newId now).2
  | .updateCoupon isAdmin id req now => (UpdateCoupon s isAdmin id req now).2
  | .applyCoupon userId req now => (ApplyCoupon s userId req now).2
  | .removeCoupon userId now => (RemoveCoupon s userId now).2
  | .clearCart userId now => (ClearCart s userId now).2

/-- The store after a sequence of calls, executed one after the other. -/
def runCalls (s : Store) (calls : List CouponCall) : Store := calls.foldl runCall s

/-- Every coupon whose `max_uses` is set has `times_used ≤ max_uses`. -/
def CapRespected (s : Store) : Prop :=
  ∀ k ∈ s.coupons, ∀ m, k.maxUses = some m → k.timesUsed ≤ m

/-- A coupon whose counter is a Go `int` within its cap, the cap being a Go `int`. -/
def CouponOk (k : Coupon) : Prop :=
  IsGoInt k.timesUsed ∧ ∀ m, k.maxUses = some m → k.timesUsed ≤ m ∧ m ≤ maxInt

/-- Coupon ids are unique (primary key) and every coupon is within its cap. -/
def CapInv (s : Store) : Prop :=
  (s.coupons.map (fun k => k.id)).Nodup ∧ ∀ k ∈ s.coupons, CouponOk k

/-- The calls that keep the cap: a `CreateCoupon` whose `max_uses` is unset or a
non-negative Go `int`, an `UpdateCoupon` whose `max_uses` is unset or a Go `int` not
below the `times_used` of the coupon it targets; the cart handlers are unrestricted. -/
def CallGuarded (s : Store) : CouponCall → Prop
  | .createCoupon _ req _ _ => ∀ m, req.maxUses = some m → 0 ≤ m ∧ m ≤ maxInt
  | .updateCoupon _ id req _ =>
    ∀ m, req.maxUses = some m → m ≤ maxInt ∧ ∀ k ∈ s.coupons, k.id = id → k.timesUsed ≤ m
  | _ => True

/-- Every call of the sequence is guarded in the store it runs on. -/
def GuardedRun : Store → List CouponCall → Prop
  | _, [] => True
  | s, c :: cs => CallGuarded s c ∧ GuardedRun (runCall s c) cs

/-- A coupon creation request with a negative cap. -/
def reqNegativeCap : CouponRequest :=
  { code := "NEG", discountType := "fixed", discountValue := 5, minPurchase := 0,
    expiresAt := none, isActive := true, maxUses := some (-1) }

/-- A coupon creation request with a cap of one use. -/
def reqOnce : CouponRequest :=
  { code := "ONCE", discountType := "fixed", discountValue := 5, minPurchase := 0,
    expiresAt := none, isActive := true, maxUses := some 1 }

/-- A coupon update request that only sets the cap to zero (and keeps the coupon active). -/
def reqCapZero : CouponRequest :=
  { code := "", discountType := "", discountValue := 0, minPurchase := 0,
    expiresAt := none, isActive := true, maxUses := some 0 }

/-- Coupon codes are not empty and unique (`NotEmpty().Unique()` in `ent/schema/coupon.go`). -/
def CouponCodesOk (s : Store) : Prop :=
  (∀ k ∈ s.coupons, k.code ≠ "") ∧ (s.coupons.map (fun k => k.code)).Nodup

/-- The coupon has an expiry and it is before `now`. -/
def Expired (k : Coupon) (now : Int) : Prop := ∃ t, k.expiresAt = some t ∧ t < now

/-- The coupon has a cap and `times_used` has reached it. -/
def UsageExceeded (k : Coupon) : Prop := ∃ m, k.maxUses = some m ∧ m ≤ k.timesUsed

/-- The eligibility conditions of a coupon for a comparison base at a given time. -/
def Eligible (k : Coupon) (base : ℚ) (now : Int) : Prop :=
  k.isActive = true ∧ (∀ t, k.expiresAt = some t → ¬ t < now) ∧
    (∀ m, k.maxUses = some m → k.timesUsed < m) ∧ k.minPurchase ≤ base

/-- A coupon that expired at time 5. -/
def couponOld : Coupon :=
  { id := "k3", code := "OLD", discountType := "fixed", discountValue := 5,
    minPurchase := 1000, expiresAt := some 5, isActive := true, maxUses := some 0,
    timesUsed := 0, createdAt := 0, updatedAt := 0 }

/-- Store with the three sample coupons and no cart. -/
def storeCoupons : Store :=
  { products := [], coupons := [couponTen, couponHundred, couponOld], carts := [],
    cartItems := [], addresses := [], orders := [], orderItems := [] }

/-- At most one line item per (cart, product) pair. -/
def PairUnique (s : Store) : Prop :=
  (s.cartItems.map (fun i => (i.cartId, i.productId))).Nodup

instance (s : Store) : Decidable (PairUnique s) := by
  unfold PairUnique; infer_instance

/-- The id of the cart `AddToCart` works on: the caller's cart, or the new id when the
caller has none. -/
def callerCartId (s : Store) (userId newCartId : String) : String :=
  match findCartByUser s userId with
  | some c => c.id
  | none => newCartId

/-- The line item query of `AddToCart`: the first row of this cart and product. -/
def existingLine (s : Store) (cartId productId : String) : Option CartItem :=
  s.cartItems.find? (fun i => decide (i.cartId = cartId) && decide (i.productId = productId))

/-- No line item with this id belongs to the caller's cart: the id is unknown, or its
row is in another cart, or the caller has no cart. -/
def NotCallersItem (s : Store) (userId itemId : String) : Prop :=
  ∀ c, findCartByUser s userId = some c → ∀ i ∈ s.cartItems, i.id = itemId → i.cartId ≠ c.id

/-- The cart of user `u2`: subtotal 7, no coupon. -/
def cartOther : Cart :=
  { id := "c2", userId := "u2", subtotal := 7, shipping := 0, discount := 0,
    total := 7, appliedCoupon := false, couponCode := "", createdAt := 0, updatedAt := 0 }

/-- Line item: price 7, quantity 1, in cart `c2`. -/
def itemC : CartItem :=
  { id := "i3", cartId := "c2", productId := "p1", name := "A", price := 7,
    image := "a.png", quantity := 1, createdAt := 0, updatedAt := 0 }

/-- Store with the carts of two users: `c1` of `u1` (coupon `TEN` applied) and `c2` of `u2`. -/
def storeTwoUsers : Store :=
  { products := [prodA, prodB], coupons := [couponTen, couponHundred],
    carts := [cartTen, cartOther], cartItems := [itemA, itemB, itemC], addresses := [],
    orders := [], orderItems := [] }

/-- The request passes the checks `CreateOrder` makes before it reads the cart: a known
delivery type, a payment method, a payment status and, for a delivery, the id of an
address of the caller. -/
def RequestOk (s : Store) (userId : String) (req : OrderRequest) : Prop :=
  (req.deliveryType = "pickup" ∨ req.deliveryType = "delivery") ∧
  req.paymentMethod ≠ "" ∧ req.paymentStatus ≠ "" ∧
  (req.deliveryType = "delivery" →
    req.addressId ≠ "" ∧
    s.addresses.any (fun a => decide (a.id = req.addressId) && decide (a.userId = userId)) = true)

instance (s : Store) (userId : String) (req : OrderRequest) :
    Decidable (RequestOk s userId req) := by
  unfold RequestOk; infer_instance

/-- The cart of user `u3`, with no line item. -/
def cartEmpty : Cart :=
  { id := "c3", userId := "u3", subtotal := 0, shipping := 0, discount := 0,
    total := 0, appliedCoupon := false, couponCode := "", createdAt := 0, updatedAt := 0 }

/-- Store in which user `u3` has an empty cart and user `u1` the sample cart. -/
def storeEmptyCart : Store :=
  { products := [prodA, prodB], coupons := [couponTen, couponHundred],
    carts := [cartPlain, cartEmpty], cartItems := [itemA, itemB], addresses := [],
    orders := [], orderItems := [] }

/-- A pickup checkout request that also supplies an address id. -/
def reqPickupWithAddress : OrderRequest :=
  { addressId := "a1", deliveryType := "pickup", paymentMethod := "card",
    paymentStatus := "paid" }

/-- Store failures (errors other than not found) of the calls `CreateOrder` makes once
the order is saved: the product lookup and the order item save of the line at a given
position, the deletion of the cart's line items, the cart reset. -/
structure CheckoutFaults where
  productGet : Nat → Bool
  orderItemSave : Nat → Bool
  deleteItems : Bool
  resetCart : Bool

/-- No store failure. -/
def noFaults : CheckoutFaults :=
  { productGet := fun _ => false, orderItemSave := fun _ => false, deleteItems := false,
    resetCart := false }

/-- The order item loop of `CreateOrder` under store failures, from the item at position
`n`. A failed product lookup makes the handler return (`true`); a failed save is skipped. -/
def createOrderItemsF (f : CheckoutFaults) (orderId : String) (itemId : Nat → String)
    (now : Int) : Store → Nat → List CartItem → Bool × Store
  | s, _, [] => (false, s)
  | s, n, item :: rest =>
    if f.productGet n = true then (true, s)
    else
      let prodName :=
        match getProduct s item.productId with
        | some prod => prod.name
        | none => item.name
      let b : OrderItemCreate :=
        { id := itemId n, orderId := orderId, productId := item.productId, name := prodName,
          quantity := item.quantity, price := item.price, image := none }
      match (if f.orderItemSave n = true then none else saveOrderItem s b now) with
      | some s1 => createOrderItemsF f orderId itemId now s1 (n + 1) rest
      | none => createOrderItemsF f orderId itemId now s (n + 1) rest

/-- The steps of `CreateOrder` after the order is saved, under store failures, with the
response each exit gives. -/
def finishCheckoutF (f : CheckoutFaults) (s1 : Store) (cartObj : Cart)
    (cartItems : List CartItem) (orderObj : Order) (orderId : String)
    (itemId : Nat → String) (now : Int) : Response × Store :=
  match createOrderItemsF f orderId itemId now s1 0 cartItems with
  | (true, s2) => ({ status := 500, message := "Erro ao buscar produto", hasError := true }, s2)
  | (false, s2) =>
    if f.deleteItems = true then
      ({ status := 200,
         message := "Pedido criado com sucesso, mas houve erro ao limpar o carrinho",
         order := some orderObj, hasError := true }, s2)
    else
      let s3 := deleteCartItemsOf s2 cartObj.id
      if f.resetCart = true then
        ({ status := 200,
           message := "Pedido criado com sucesso, mas houve erro ao resetar o carrinho",
           order := some orderObj, hasError := true }, s3)
      else
        ({ status := 201, message := "Pedido criado com sucesso", order := some orderObj },
          updateCartRows s3 cartObj.id (cartReset now))

/-- Handler `CreateOrder` under store failures after the order save. -/
def CreateOrderF (f : CheckoutFaults) (s : Store) (userId : String) (req : OrderRequest)
    (orderId : String) (itemId : Nat → String) (now : Int) : Response × Store :=
  if userId = "" then ({ status := 401, message := "Usuário não autenticado" }, s)
  else if req.deliveryType ≠ "pickup" ∧ req.deliveryType ≠ "delivery" then
    ({ status := 400, message := "Tipo de entrega inválido. Use 'pickup' ou 'delivery'" }, s)
  else if req.paymentMethod = "" then
    ({ status := 400, message := "Método de pagamento é obrigatório" }, s)
  else if req.paymentStatus = "" then
    ({ status := 400, message := "Status de pagamento é obrigatório" }, s)
  else if req.deliveryType = "delivery" ∧ req.addressId = "" then
    ({ status := 400, message := "Endereço de entrega é obrigatório para entregas" }, s)
  else if req.deliveryType = "delivery" ∧
      s.addresses.any (fun a => decide (a.id = req.addressId) && decide (a.userId = userId)) = false
  then ({ status := 404, message := "Endereço não encontrado" }, s)
  else
    match findCartByUser s userId with
    | none => ({ status := 404, message := "Carrinho não encontrado" }, s)
    | some cartObj =>
      let cartItems := cartItemsOf s cartObj.id
      if cartItems.length = 0 then
        ({ status := 400, message := "Não há itens no carrinho para criar o pedido" }, s)
      else
        let orderObj := orderOf cartObj userId req orderId now
        match saveOrder s orderObj with
        | none => ({ status := 500, message := "Erro ao criar pedido", hasError := true }, s)
        | some s1 => finishCheckoutF f s1 cartObj cartItems orderObj orderId itemId now

/-- The product lookup of the first line fails; nothing else does. -/
def faultFirstLookup : CheckoutFaults :=
  { productGet := fun n => decide (n = 0), orderItemSave := fun _ => false,
    deleteItems := false, resetCart := false }

/-! ## Order status handlers (`controllers/order_controller.go`) -/

/-- Body of `PUT /api/orders/:id/status` (`OrderStatusUpdate`). -/
structure OrderStatusUpdate where
  status : String
deriving DecidableEq, Repr

/-- The `validStatus` map of `UpdateOrderStatus`. -/
def validStatus (status : String) : Bool :=
  decide (status = "pending") || decide (status = "processing") ||
  decide (status = "shipped") || decide (status = "delivered") ||
  decide (status = "cancelled")

/-- Store call `client.Order.UpdateOne(obj)...Save(ctx)` and `UpdateOneID(id)`: rewrite
the rows with that id. -/
def updateOrderRows (s : Store) (orderId : String) (f : Order → Order) : Store :=
  { s with orders := s.orders.map (fun o => if o.id = orderId then f o else o) }

/-- The fields a status update writes on an order. -/
def statusSet (status : String) (now : Int) : Order → Order :=
  fun r => { r with status := status, updatedAt := now }

/-- Handler `UpdateOrderStatus` (`PUT /api/orders/:id/status`). -/
def UpdateOrderStatus (s : Store) (isAdmin : Bool) (id : String) (req : OrderStatusUpdate)
    (now : Int) : Response × Store :=
  if isAdmin = false then
    ({ status := 403,
       message := "Apenas administradores podem atualizar o status de pedidos" }, s)
  else if validStatus req.status = false then
    ({ status := 400, message := "Status inválido" }, s)
  else
    match s.orders.find? (fun o => decide (o.id = id)) with
    | none => ({ status := 404, message := "Pedido não encontrado" }, s)
    | some orderObj =>
      ({ status := 200, message := "Status do pedido atualizado com sucesso",
         order := some (statusSet req.status now orderObj) },
        updateOrderRows s id (statusSet req.status now))

/-- Handler `CancelOrder` (`DELETE /api/orders/:id`). -/
def CancelOrder (s : Store) (userId id : String) (now : Int) : Response × Store :=
  if userId = "" then ({ status := 401, message := "Usuário não autenticado" }, s)
  else
    match s.orders.find? (fun o => decide (o.id = id) && decide (o.userId = userId)) with
    | none => ({ status := 404, message := "Pedido não encontrado" }, s)
    | some orderObj =>
      if orderObj.status = "delivered" ∨ orderObj.status = "cancelled" then
        ({ status := 400,
           message := "Não é possível cancelar um pedido entregue ou já cancelado" }, s)
      else
        ({ status := 200, message := "Pedido cancelado com sucesso",
           order := some (statusSet "cancelled" now orderObj) },
          updateOrderRows s orderObj.id (statusSet "cancelled" now))

/-! ## Product handlers (`controllers/product_controller.go`) -/

/-- Body of the product endpoints (`ProductRequest`), with the fields that reach the
product fields of this embedding and the category id. -/
structure ProductRequest where
  name : String
  price : ℚ
  image : String
  categoryId : String
deriving DecidableEq, Repr

/-- Handler `UpdateProduct` (`PUT /api/products/:id`). `categoryFound` is the outcome of
`client.Category.Get` for the requested category (categories are not part of the store
of this embedding). -/
def UpdateProduct (s : Store) (id : String) (req : ProductRequest) (categoryFound : Bool) :
    Response × Store :=
  if s.products.any (fun p => decide (p.id = id)) = false then
    ({ status := 404, message := "Produto não encontrado" }, s)
  else if req.price ≤ 0 then
    ({ status := 400, message := "O preço deve ser maior que zero" }, s)
  else if req.categoryId ≠ "" ∧ categoryFound = false then
    ({ status := 400, message := "Categoria não encontrada" }, s)
  else
    ({ status := 200, message := "Produto atualizado com sucesso",
       product := (s.products.find? (fun p => decide (p.id = id))).map (fun r =>
         { r with name := if req.name ≠ "" then req.name else r.name,
                  price := if req.price > 0 then req.price else r.price,
                  image := if req.image ≠ "" then req.image else r.image }) },
      { s with products := s.products.map (fun r => if r.id = id then
          { r with name := if req.name ≠ "" then req.name else r.name,
                   price := if req.price > 0 then req.price else r.price,
                   image := if req.image ≠ "" then req.image else r.image } else r) })

/-- Handler `DeleteProduct` (`DELETE /api/products/:id`): refused while a cart line item
or an order item refers to the product (`HasProductWith` joins the product row). -/
def DeleteProduct (s : Store) (id : String) : Response × Store :=
  if s.products.any (fun p => decide (p.id = id)) = true ∧
      s.cartItems.any (fun i => decide (i.productId = id)) = true then
    ({ status := 409,
       message := "Não é possível excluir o produto pois ele está em carrinhos de compra" }, s)
  else if s.products.any (fun p => decide (p.id = id)) = true ∧
      s.orderItems.any (fun i => decide (i.productId = id)) = true then
    ({ status := 409,
       message := "Não é possível excluir o produto pois ele está em pedidos" }, s)
  else if s.products.any (fun p => decide (p.id = id)) = false then
    ({ status := 404, message := "Produto não encontrado" }, s)
  else
    ({ status := 200, message := "Produto excluído com sucesso" },
      { s with products := s.products.filter (fun p => !decide (p.id = id)) })

/-! ## Address handlers (`controllers/address_controller.go`) -/

/-- Body of the address endpoints (`AddressRequest`). -/
structure AddressRequest where
  cep : String
  logradouro : String
  numero : String
  complemento : String
  bairro : String
  cidade : String
  estado : String
  isDefault : Bool
deriving DecidableEq, Repr

/-- Store call `client.Address.Update().Where(UserID(userId), IsDefault(true)).SetIsDefault(false)`:
every default address of the user is cleared. -/
def clearDefaults (s : Store) (userId : String) (now : Int) : Store :=
  { s with addresses := s.addresses.map (fun a =>
      if a.userId = userId ∧ a.isDefault = true then
        { a with isDefault := false, updatedAt := now } else a) }

/-- Store call `client.Address.Update().Where(UserID(userId), IsDefault(true), IDNEQ(id)).SetIsDefault(false)`:
every default address of the user other than `id` is cleared. -/
def clearOtherDefaults (s : Store) (userId id : String) (now : Int) : Store :=
  { s with addresses := s.addresses.map (fun a =>
      if a.userId = userId ∧ a.isDefault = true ∧ a.id ≠ id then
        { a with isDefault := false, updatedAt := now } else a) }

/-- Store call `client.Address.UpdateOneID(id)...Save(ctx)`: rewrite the rows with that id. -/
def updateAddressRows (s : Store) (id : String) (f : Address → Address) : Store :=
  { s with addresses := s.addresses.map (fun a => if a.id = id then f a else a) }

/-- Store call `client.Address.Query().Where(address.ID(id), address.UserID(userId)).Exist(ctx)`. -/
def addressOfUser (s : Store) (id userId : String) : Bool :=
  s.addresses.any (fun a => decide (a.id = id) && decide (a.userId = userId))

/-- Handler `CreateAddress` (`POST /api/addresses`). -/
def CreateAddress (s : Store) (userId : String) (req : AddressRequest) (newId : String)
    (now : Int) : Response × Store :=
  if userId = "" then ({ status := 401, message := "Usuário não autenticado" }, s)
  else if req.cep = "" ∨ req.logradouro = "" ∨ req.numero = "" ∨ req.bairro = "" ∨
      req.cidade = "" ∨ req.estado = "" then
    ({ status := 400, message := "Todos os campos são obrigatórios, exceto complemento" }, s)
  else
    let s1 := if req.isDefault = true then clearDefaults s userId now else s
    if s1.addresses.any (fun a => decide (a.id = newId)) = true then
      ({ status := 500, message := "Erro ao criar endereço", hasError := true }, s1)
    else
      let addr : Address :=
        { id := newId, userId := userId, cep := req.cep, logradouro := req.logradouro,
          numero := req.numero, complemento := req.complemento, bairro := req.bairro,
          cidade := req.cidade, estado := req.estado, isDefault := req.isDefault,
          createdAt := now, updatedAt := now }
      ({ status := 201, message := "Endereço criado com sucesso", address := some addr },
        { s1 with addresses := s1.addresses ++ [addr] })

/-- The fields `UpdateAddress` sets: the text fields only when the request carries them,
the default flag always. -/
def addressUpdated (req : AddressRequest) (now : Int) : Address → Address :=
  fun r =>
    { r with
      cep := if req.cep ≠ "" then req.cep else r.cep
      logradouro := if req.logradouro ≠ "" then req.logradouro else r.logradouro
      numero := if req.numero ≠ "" then req.numero else r.numero
      complemento := if req.complemento ≠ "" then req.complemento else r.complemento
      bairro := if req.bairro ≠ "" then req.bairro else r.bairro
      cidade := if req.cidade ≠ "" then req.cidade else r.cidade
      estado := if req.estado ≠ "" then req.estado else r.estado
      isDefault := req.isDefault
      updatedAt := now }

/-- Handler `UpdateAddress` (`PUT /api/addresses/:id`). -/
def UpdateAddress (s : Store) (userId id : String) (req : AddressRequest) (now : Int) :
    Response × Store :=
  if userId = "" then ({ status := 401, message := "Usuário não autenticado" }, s)
  else if addressOfUser s id userId = false then
    ({ status := 404, message := "Endereço não encontrado" }, s)
  else
    let s1 := if req.isDefault = true then clearOtherDefaults s userId id now else s
    ({ status := 200, message := "Endereço atualizado com sucesso",
       address := (s1.addresses.find? (fun a => decide (a.id = id))).map
         (addressUpdated req now) },
      updateAddressRows s1 id (addressUpdated req now))

/-- The fields `SetDefaultAddress` and the promotion of `DeleteAddress` write. -/
def madeDefault (now : Int) : Address → Address :=
  fun r => { r with isDefault := true, updatedAt := now }

/-- Handler `SetDefaultAddress` (`PUT /api/addresses/:id/default`). -/
def SetDefaultAddress (s : Store) (userId id : String) (now : Int) : Response × Store :=
  if userId = "" then ({ status := 401, message := "Usuário não autenticado" }, s)
  else if addressOfUser s id userId = false then
    ({ status := 404, message := "Endereço não encontrado" }, s)
  else
    let s1 := clearOtherDefaults s userId id now
    ({ status := 200, message := "Endereço definido como padrão com sucesso",
       address := (s1.addresses.find? (fun a => decide (a.id = id))).map (madeDefault now) },
      updateAddressRows s1 id (madeDefault now))

/-- Handler `DeleteAddress` (`DELETE /api/addresses/:id`). `cartExists` is the outcome of
the query for a cart using the address (`HasShippingAddressWith`), an edge the cart
schema of this repository does not declare. -/
def DeleteAddress (s : Store) (userId id : String) (cartExists : Bool) (now : Int) :
    Response × Store :=
  if userId = "" then ({ status := 401, message := "Usuário não autenticado" }, s)
  else if addressOfUser s id userId = false then
    ({ status := 404, message := "Endereço não encontrado" }, s)
  else
    let isDefault := s.addresses.any (fun a => decide (a.id = id) && a.isDefault)
    if cartExists = true then
      ({ status := 409,
         message := "Não é possível excluir o endereço pois ele está em uso em um carrinho" },
        s)
    else if s.orders.any (fun o => decide (o.addressId = some id)) = true then
      ({ status := 409,
         message := "Não é possível excluir o endereço pois ele está em uso em um pedido" }, s)
    else
      let s1 := { s with addresses := s.addresses.filter (fun a => !decide (a.id = id)) }
      if isDefault = true then
        match s1.addresses.find? (fun a => decide (a.userId = userId)) with
        | some otherAddr =>
          ({ status := 200, message := "Endereço excluído com sucesso" },
            updateAddressRows s1 otherAddr.id (madeDefault now))
        | none => ({ status := 200, message := "Endereço excluído com sucesso" }, s1)
      else ({ status := 200, message := "Endereço excluído com sucesso" }, s1)

/-! ## Notions and sample data for the order and address properties -/

/-- Order ids are a primary key. -/
def OrderIdsUnique (s : Store) : Prop := (s.orders.map (fun o => o.id)).Nodup

instance (s : Store) : Decidable (OrderIdsUnique s) := by
  unfold OrderIdsUnique; infer_instance

/-- A delivered order of user `u1`. -/
def orderDelivered : Order :=
  { id := "o1", userId := "u1", date := 0, total := 25, shipping := 0, discount := 0,
    deliveryType := "pickup", status := "delivered", addressId := none,
    paymentMethod := "card", paymentStatus := "paid", couponCode := none, createdAt := 0,
    updatedAt := 0 }

/-- A pending order of user `u1`. -/
def orderPending : Order :=
  { id := "o2", userId := "u1", date := 0, total := 10, shipping := 0, discount := 0,
    deliveryType := "pickup", status := "pending", addressId := none,
    paymentMethod := "card", paymentStatus := "paid", couponCode := none, createdAt := 0,
    updatedAt := 0 }

/-- A shipped order of user `u2`. -/
def orderShipped : Order :=
  { id := "o3", userId := "u2", date := 0, total := 7, shipping := 0, discount := 0,
    deliveryType := "pickup", status := "shipped", addressId := none,
    paymentMethod := "card", paymentStatus := "paid", couponCode := none, createdAt := 0,
    updatedAt := 0 }

/-- Store with three orders. -/
def storeOrders : Store :=
  { products := [prodA, prodB], coupons := [couponTen, couponHundred], carts := [cartPlain],
    cartItems := [itemA, itemB], addresses := [],
    orders := [orderDelivered, orderPending, orderShipped], orderItems := [] }

/-- The fixed set of order statuses. -/
def fixedStatuses : List String := ["pending", "processing", "shipped", "delivered", "cancelled"]

/-- Address ids are a primary key. -/
def AddressIdsUnique (s : Store) : Prop := (s.addresses.map (fun a => a.id)).Nodup

instance (s : Store) : Decidable (AddressIdsUnique s) := by
  unfold AddressIdsUnique; infer_instance

/-- In a list of addresses, two default addresses of one user are the same address. -/
def OneDefault (l : List Address) : Prop :=
  ∀ a ∈ l, ∀ b ∈ l, a.userId = b.userId → a.isDefault = true → b.isDefault = true →
    a.id = b.id

instance (l : List Address) : Decidable (OneDefault l) := by
  unfold OneDefault; infer_instance

/-- Every user has at most one address with `is_default = true`. -/
def AtMostOneDefault (s : Store) : Prop := OneDefault s.addresses

instance (s : Store) : Decidable (AtMostOneDefault s) := by
  unfold AtMostOneDefault; infer_instance

/-- The default address of user `u1`. -/
def addrHome : Address :=
  { id := "a1", userId := "u1", cep := "01000-000", logradouro := "Rua A", numero := "1",
    complemento := "", bairro := "Centro", cidade := "Sao Paulo", estado := "SP",
    isDefault := true, createdAt := 0, updatedAt := 0 }

/-- A second, non-default address of user `u1`. -/
def addrWork : Address :=
  { id := "a2", userId := "u1", cep := "02000-000", logradouro := "Rua B", numero := "2",
    complemento := "", bairro := "Norte", cidade := "Sao Paulo", estado := "SP",
    isDefault := false, createdAt := 0, updatedAt := 0 }

/-- The default address of user `u2`. -/
def addrOther : Address :=
  { id := "a3", userId := "u2", cep := "03000-000", logradouro := "Rua C", numero := "3",
    complemento := "", bairro := "Sul", cidade := "Sao Paulo", estado := "SP",
    isDefault := true, createdAt := 0, updatedAt := 0 }

/-- Store with the addresses of two users. -/
def storeAddresses : Store :=
  { products := [], coupons := [], carts := [], cartItems := [],
    addresses := [addrHome, addrWork, addrOther], orders := [], orderItems := [] }

/-- An address creation request marked as default. -/
def reqNewDefault : AddressRequest :=
  { cep := "04000-000", logradouro := "Rua D", numero := "4", complemento := "",
    bairro := "Leste", cidade := "Sao Paulo", estado := "SP", isDefault := true }

/-- A request to one of the handlers that write addresses. -/
inductive AddressCall where
  | createAddress (userId : String) (req : AddressRequest) (newId : String) (now : Int)
  | updateAddress (userId id : String) (req : AddressRequest) (now : Int)
  | setDefaultAddress (userId id : String) (now : Int)
  | deleteAddress (userId id : String) (cartExists : Bool) (now : Int)

/-- The store after one address call. -/
def runAddressCall (s : Store) : AddressCall → Store
  | .createAddress userId req newId now => (CreateAddress s userId req newId now).2
  | .updateAddress userId id req now => (UpdateAddress s userId id req now).2
  | .setDefaultAddress userId id now => (SetDefaultAddress s userId id now).2
  | .deleteAddress userId id cartExists now => (DeleteAddress s userId id cartExists now).2

/-- The store after a sequence of address calls, executed one after the other. -/
def runAddressCalls (s : Store) (calls : List AddressCall) : Store :=
  calls.foldl runAddressCall s

/-- The cart of user `u1` with the fixed coupon of 100 applied on a subtotal of 25: the
discount is capped at 25 and the stored total is 0. -/
def cartFree : Cart :=
  { id := "c1", userId := "u1", subtotal := 25, shipping := 0, discount := 25,
    total := 0, appliedCoupon := true, couponCode := "HUNDRED", createdAt := 0,
    updatedAt := 2 }

/-- Store: cart `c1` with items `[{10,2},{5,1}]` fully covered by the fixed coupon. -/
def storeFree : Store :=
  { products := [prodA, prodB],
    coupons := [couponTen, { couponHundred with timesUsed := 1, updatedAt := 2 }],
    carts := [cartFree], cartItems := [itemA, itemB], addresses := [], orders := [],
    orderItems := [] }

/-- A fixed coupon of 24.9999995, used once. -/
def couponAlmost : Coupon :=
  { id := "k4", code := "ALMOST", discountType := "fixed",
    discountValue := mkRat 49999999 2000000, minPurchase := 0, expiresAt := none,
    isActive := true, maxUses := none, timesUsed := 1, createdAt := 0, updatedAt := 2 }

/-- The cart of user `u1` with the coupon `ALMOST` applied on a subtotal of 25: the
stored total is 0.0000005. -/
def cartTiny : Cart :=
  { id := "c1", userId := "u1", subtotal := 25, shipping := 0,
    discount := mkRat 49999999 2000000, total := mkRat 1 2000000, appliedCoupon := true,
    couponCode := "ALMOST", createdAt := 0, updatedAt := 2 }

/-- Store: cart `c1` with items `[{10,2},{5,1}]` and a stored total of 0.0000005. -/
def storeTiny : Store :=
  { products := [prodA, prodB], coupons := [couponTen, couponAlmost], carts := [cartTiny],
    cartItems := [itemA, itemB], addresses := [], orders := [], orderItems := [] }

/-- Two coupon rows agree on the fields the discount is computed from: the code, the
discount type and the discount value. -/
def SamePricing (a b : Coupon) : Prop :=
  a.code = b.code ∧ a.discountType = b.discountType ∧ a.discountValue = b.discountValue

instance (a b : Coupon) : Decidable (SamePricing a b) := by
  unfold SamePricing; infer_instance

/-- The coupon `TEN` after it was deactivated, expired at time 1, given a minimum
purchase of 1000 and a cap of 0 uses, and used 7 times. -/
def couponTenOff : Coupon :=
  { id := "k1", code := "TEN", discountType := "percentage", discountValue := 10,
    minPurchase := 1000, expiresAt := some 1, isActive := false, maxUses := some 0,
    timesUsed := 7, createdAt := 0, updatedAt := 0 }

/-- The store `storeTen` with the coupon `TEN` replaced by `couponTenOff`. -/
def storeTenOff : Store := { storeTen with coupons := [couponTenOff, couponHundred] }

/-! ## Float64 arithmetic

The handlers above take amounts as exact rationals. The definitions below repeat the
arithmetic of `updateCartTotals`, `UpdateCartItem` and `ValidateCoupon` with every
arithmetic result passed through a rounding function `fl`; with `fl` the identity they
are the exact ones, with `fl := roundF64` they compute what Go computes on `float64`. -/

/-- Scaling step of the rounding: `n / d` is doubled (the exponent `e` going down, not
below -1074, the exponent of the smallest subnormal) or halved (the exponent going up)
until `2^52 ≤ n / d < 2^53`. -/
def f64Scale : Nat → Nat → Nat → Int → Nat × Nat × Int
  | 0, n, d, e => (n, d, e)
  | fuel + 1, n, d, e =>
    if n < 2 ^ 52 * d ∧ -1074 < e then f64Scale fuel (2 * n) d (e - 1)
    else if 2 ^ 53 * d ≤ n then f64Scale fuel n (2 * d) (e + 1)
    else (n, d, e)

/-- The integer nearest to `n / d`, ties going to the even one. -/
def f64Nearest (n d : Nat) : Nat :=
  let q := n / d
  let r := n % d
  if 2 * r < d then q else if d < 2 * r then q + 1 else if q % 2 = 0 then q else q + 1

/-- The `float64` nearest to the exact value `x` (IEEE 754 binary64, round to nearest,
ties to even), as Go rounds the result of `+`, `-`, `*` and `/`. Values beyond the
largest `float64`, which Go turns into an infinity, are outside this model. -/
def roundF64 (x : ℚ) : ℚ :=
  match f64Scale 2200 x.num.natAbs x.den 0 with
  | (n, d, e) => (if x < 0 then -1 else 1) * (f64Nearest n d : ℚ) * (2 : ℚ) ^ e

/-- The subtotal loop of `updateCartTotals`, `subtotal += item.Price * float64(item.Quantity)`,
with rounding `fl`. -/
def subtotalOfWith (fl : ℚ → ℚ) (items : List CartItem) : ℚ :=
  items.foldl (fun acc i => fl (acc + fl (i.price * fl (i.quantity : ℚ)))) 0

/-- The discount computation, `base * (value / 100)` for `percentage` and the value
capped at the base otherwise, with rounding `fl`. -/
def couponDiscountWith (fl : ℚ → ℚ) (k : Coupon) (base : ℚ) : ℚ :=
  if k.discountType = "percentage" then
    fl (base * fl (k.discountValue / 100))
  else if k.discountValue > base then base else k.discountValue

/-- The fields `updateCartTotals` computes for the cart object `cartObj`, with rounding
`fl`: `total := subtotal - discount`, then `total += cartObj.Shipping` when the shipping
is positive. -/
def recomputedWith (fl : ℚ → ℚ) (s : Store) (cartObj : Cart) (now : Int) : Cart → Cart :=
  let subtotal := subtotalOfWith fl (cartItemsOf s cartObj.id)
  let discount : ℚ :=
    if cartObj.appliedCoupon = true ∧ cartObj.couponCode ≠ "" then
      match findCouponByCode s cartObj.couponCode with
      | some couponObj => couponDiscountWith fl couponObj subtotal
      | none => 0
    else 0
  let total : ℚ :=
    if cartObj.shipping > 0 then fl (fl (subtotal - discount) + cartObj.shipping)
    else fl (subtotal - discount)
  fun r => { r with subtotal := subtotal, discount := discount, total := total, updatedAt := now }

/-- Helper `updateCartTotals` with rounding `fl`. -/
def updateCartTotalsWith (fl : ℚ → ℚ) (s : Store) (cartId : String) (now : Int) :
    Option (Cart × Store) :=
  match getCart s cartId with
  | none => none
  | some cartObj =>
    some (recomputedWith fl s cartObj now cartObj,
      updateCartRows s cartObj.id (recomputedWith fl s cartObj now))

/-- Handler `AddToCart` with rounding `fl` in the recomputation of the totals. -/
def AddToCartWith (fl : ℚ → ℚ) (s : Store) (userId : String) (req : CartItemRequest)
    (newCartId newItemId : String) (now : Int) : Response × Store :=
  if userId = "" then ({ status := 401, message := "Usuário não autenticado" }, s)
  else if req.quantity ≤ 0 then
    ({ status := 400, message := "A quantidade deve ser maior que zero" }, s)
  else
    match getProduct s req.productId with
    | none => ({ status := 404, message := "Produto não encontrado" }, s)
    | some prod =>
      match getOrCreateCart s userId newCartId now with
      | none => ({ status := 500, message := "Erro ao buscar carrinho", hasError := true }, s)
      | some (cartObj, s1) =>
        match saveCartItem s1 cartObj prod req newItemId now with
        | none =>
          ({ status := 500, message := "Erro ao adicionar item ao carrinho", hasError := true }, s1)
        | some (item, s2) =>
          match updateCartTotalsWith fl s2 cartObj.id now with
          | none =>
            ({ status := 500,
               message := "Item adicionado com sucesso, mas houve erro ao atualizar totais do carrinho",
               hasError := true }, s2)
          | some (updatedCart, s3) =>
            ({ status := 201, message := "Item adicionado ao carrinho com sucesso",
               item := some item, cart := some updatedCart }, s3)

/-- Handler `RemoveCartItem` with rounding `fl` in the recomputation of the totals. -/
def RemoveCartItemWith (fl : ℚ → ℚ) (s : Store) (userId itemId : String) (now : Int) :
    Response × Store :=
  if userId = "" then ({ status := 401, message := "Usuário não autenticado" }, s)
  else
    match findCartByUser s userId with
    | none => ({ status := 404, message := "Carrinho não encontrado" }, s)
    | some cartObj =>
      if s.cartItems.any (fun i => decide (i.id = itemId) && decide (i.cartId = cartObj.id)) = false
      then ({ status := 404, message := "Item não encontrado no carrinho" }, s)
      else
        let s1 := deleteCartItem s itemId
        match updateCartTotalsWith fl s1 cartObj.id now with
        | none =>
          ({ status := 500,
             message := "Item removido com sucesso, mas houve erro ao atualizar totais do carrinho",
             hasError := true }, s1)
        | some (updatedCart, s2) =>
          ({ status := 200, message := "Item removido com sucesso", cart := some updatedCart }, s2)

/-- Handler `UpdateCartItem` with rounding `fl` in the recomputation of the totals. -/
def UpdateCartItemWith (fl : ℚ → ℚ) (s : Store) (userId itemId : String)
    (req : CartItemRequest) (now : Int) : Response × Store :=
  if userId = "" then ({ status := 401, message := "Usuário não autenticado" }, s)
  else if req.quantity ≤ 0 then
    ({ status := 400, message := "A quantidade deve ser maior que zero" }, s)
  else
    match findCartByUser s userId with
    | none => ({ status := 404, message := "Carrinho não encontrado" }, s)
    | some cartObj =>
      match s.cartItems.find?
          (fun i => decide (i.id = itemId) && decide (i.cartId = cartObj.id)) with
      | none => ({ status := 404, message := "Item não encontrado no carrinho" }, s)
      | some item =>
        let s1 := updateCartItemRows s item.id
          (fun r => { r with quantity := req.quantity, updatedAt := now })
        match updateCartTotalsWith fl s1 cartObj.id now with
        | none =>
          ({ status := 500,
             message := "Item atualizado com sucesso, mas houve erro ao atualizar totais do carrinho",
             hasError := true }, s1)
        | some (updatedCart, s2) =>
          ({ status := 200, message := "Item atualizado com sucesso",
             item := some { item with quantity := req.quantity, updatedAt := now },
             cart := some updatedCart }, s2)

/-- Handler `ValidateCoupon` with rounding `fl` in the discount it returns. -/
def ValidateCouponWith (fl : ℚ → ℚ) (s : Store) (req : ValidateRequest) (now : Int) :
    Response :=
  if req.code = "" then { status := 400, message := "Código do cupom é obrigatório" }
  else
    match findActiveCoupon s req.code with
    | none => { status := 404, message := "Cupom não encontrado ou inativo", valid := some false }
    | some couponObj =>
      if couponObj.expiresAt.any (fun t => decide (t < now)) = true then
        { status := 200, message := "Cupom expirado", valid := some false }
      else if couponObj.maxUses.any (fun m => decide (couponObj.timesUsed ≥ m)) = true then
        { status := 200, message := "Cupom atingiu o limite máximo de usos", valid := some false }
      else if req.cartTotal < couponObj.minPurchase then
        { status := 200, message := "Valor mínimo para uso do cupom não atingido",
          valid := some false }
      else
        { status := 200, message := "Cupom válido", valid := some true,
          coupon := some couponObj,
          discount := some (couponDiscountWith fl couponObj req.cartTotal) }

/-- The caller's stored cart has its subtotal equal to the subtotal loop over its line
items and its discount equal to the coupon formula of `k` on that subtotal, both
computed with rounding `fl`. -/
def DiscountFollowsWith (fl : ℚ → ℚ) (k : Coupon) (s : Store) (userId : String) : Prop :=
  ∃ c, findCartByUser s userId = some c ∧
    c.subtotal = subtotalOfWith fl (cartItemsOf s c.id) ∧
    (k.discountType = "percentage" →
      c.discount = fl (c.subtotal * fl (k.discountValue / 100))) ∧
    (k.discountType = "fixed" → c.discount = min k.discountValue c.subtotal)

/-- Line item: price 3, quantity 2, in cart `c1`. -/
def itemThree : CartItem :=
  { id := "i4", cartId := "c1", productId := "p1", name := "A", price := 3,
    image := "a.png", quantity := 2, createdAt := 0, updatedAt := 0 }

/-- Store: cart `c1` with the single item `{3,2}` and the 10 percent coupon applied. -/
def storeThree : Store :=
  { products := [prodA, prodB], coupons := [couponTen, couponHundred], carts := [cartTen],
    cartItems := [itemThree], addresses := [], orders := [], orderItems := [] }

/-! ## Lemmas on the store primitives -/

theorem foldl_lineSum (items : List CartItem) (acc : ℚ) :
    items.foldl (fun a i => a + i.price * (i.quantity : ℚ)) acc = acc + lineSum items := by
  induction items generalizing acc with
  | nil => simp [lineSum]
  | cons i rest ih =>
    simp only [List.foldl_cons, ih]
    simp [lineSum, add_assoc]

theorem subtotalOf_eq_lineSum (items : List CartItem) : subtotalOf items = lineSum items := by
  simp [subtotalOf, foldl_lineSum]

theorem findCartByUser_some {s : Store} {u : String} {c : Cart}
    (h : findCartByUser s u = some c) : c ∈ s.carts ∧ c.userId = u := by
  unfold findCartByUser at h
  exact ⟨List.mem_of_find?_eq_some h, by simpa using List.find?_some h⟩

theorem getCart_some {s : Store} {cid : String} {c : Cart}
    (h : getCart s cid = some c) : c ∈ s.carts ∧ c.id = cid := by
  unfold getCart at h
  exact ⟨List.mem_of_find?_eq_some h, by simpa using List.find?_some h⟩

theorem getCart_of_mem {s : Store} {c : Cart} (h : c ∈ s.carts) :
    ∃ c0, getCart s c.id = some c0 := by
  unfold getCart
  cases hf : s.carts.find? (fun x => decide (x.id = c.id)) with
  | some c0 => exact ⟨c0, rfl⟩
  | none =>
    have := List.find?_eq_none.mp hf c h
    simp at this

theorem getCart_of_unique {s : Store} (hu : CartIdsUnique s) {c : Cart} (h : c ∈ s.carts) :
    getCart s c.id = some c := by
  obtain ⟨c0, h0⟩ := getCart_of_mem h
  obtain ⟨hm, hid⟩ := getCart_some h0
  have : c0 = c := List.inj_on_of_nodup_map hu hm h hid
  rw [h0, this]

theorem find_user_map_update (l : List Cart) (u cid : String) (f : Cart → Cart)
    (hf : ∀ r, (f r).userId = r.userId) (c0 : Cart)
    (h : l.find? (fun c => decide (c.userId = u)) = some c0) (hid : c0.id = cid) :
    (l.map (fun c => if c.id = cid then f c else c)).find? (fun c => decide (c.userId = u))
      = some (f c0) := by
  induction l with
  | nil => simp at h
  | cons a l ih =>
    rw [List.map_cons, List.find?_cons]
    rw [List.find?_cons] at h
    by_cases hau : a.userId = u
    · simp only [hau, decide_True] at h
      have hac : a = c0 := by simpa using h
      subst hac
      simp [hid, hf, hau]
    · simp only [hau, decide_False] at h
      have : (if a.id = cid then f a else a).userId ≠ u := by
        split <;> simp [hf, hau]
      simp only [this, decide_False]
      exact ih h

theorem findCartByUser_updateCartRows {s : Store} {u : String} {c0 : Cart} (f : Cart → Cart)
    (hf : ∀ r, (f r).userId = r.userId) (h : findCartByUser s u = some c0) :
    findCartByUser (updateCartRows s c0.id f) u = some (f c0) := by
  unfold findCartByUser updateCartRows
  exact find_user_map_update s.carts u c0.id f hf c0 h rfl

theorem updateCartTotals_found {s : Store} {u : String} {c0 : Cart} (now : Int)
    (h : findCartByUser s u = some c0) :
    ∃ cartObj, getCart s c0.id = some cartObj ∧ cartObj.id = c0.id ∧
      updateCartTotals s c0.id now =
        some (recomputed s cartObj now cartObj,
          updateCartRows s c0.id (recomputed s cartObj now)) := by
  obtain ⟨cartObj, hg⟩ := getCart_of_mem (findCartByUser_some h).1
  have hid := (getCart_some hg).2
  refine ⟨cartObj, hg, hid, ?_⟩
  simp [updateCartTotals, hg, hid]

theorem recomputed_userId (s : Store) (cartObj : Cart) (now : Int) (r : Cart) :
    (recomputed s cartObj now r).userId = r.userId := rfl

theorem recomputed_id (s : Store) (cartObj : Cart) (now : Int) (r : Cart) :
    (recomputed s cartObj now r).id = r.id := rfl

theorem recomputed_subtotal (s : Store) (cartObj : Cart) (now : Int) (r : Cart) :
    (recomputed s cartObj now r).subtotal = lineSum (cartItemsOf s cartObj.id) := by
  simp [recomputed, subtotalOf_eq_lineSum]

/-- What a successful `updateCartTotals` on the caller's cart leaves in the store. -/
theorem updateCartTotals_stored {s s' : Store} {u : String} {c0 c' : Cart} {now : Int}
    (h : findCartByUser s u = some c0)
    (ht : updateCartTotals s c0.id now = some (c', s')) :
    ∃ cartObj, getCart s c0.id = some cartObj ∧ cartObj.id = c0.id ∧
      c' = recomputed s cartObj now cartObj ∧
      s' = updateCartRows s c0.id (recomputed s cartObj now) ∧
      findCartByUser s' u = some (recomputed s cartObj now c0) := by
  obtain ⟨cartObj, hg, hid, heq⟩ := updateCartTotals_found now h
  rw [heq] at ht
  simp only [Option.some.injEq, Prod.mk.injEq] at ht
  obtain ⟨h1, h2⟩ := ht
  refine ⟨cartObj, hg, hid, h1.symm, h2.symm, ?_⟩
  rw [← h2]
  exact findCartByUser_updateCartRows _ (recomputed_userId s cartObj now) h

theorem getOrCreateCart_some {s s1 : Store} {u newCartId : String} {now : Int} {cartObj : Cart}
    (h : getOrCreateCart s u newCartId now = some (cartObj, s1)) :
    findCartByUser s1 u = some cartObj ∧ s1.cartItems = s.cartItems ∧
      s1.coupons = s.coupons ∧ s1.products = s.products ∧ s1.orders = s.orders ∧
      s1.orderItems = s.orderItems ∧ s1.addresses = s.addresses := by
  unfold getOrCreateCart at h
  split at h
  · rename_i c hc
    simp only [Option.some.injEq, Prod.mk.injEq] at h
    obtain ⟨rfl, rfl⟩ := h
    exact ⟨hc, rfl, rfl, rfl, rfl, rfl, rfl⟩
  · rename_i hc
    split_ifs at h
    simp only [Option.some.injEq, Prod.mk.injEq] at h
    obtain ⟨rfl, rfl⟩ := h
    refine ⟨?_, rfl, rfl, rfl, rfl, rfl, rfl⟩
    unfold findCartByUser at hc ⊢
    simp [List.find?_append, hc]

theorem saveCartItem_some {s s2 : Store} {cartObj : Cart} {prod : Product}
    {req : CartItemRequest} {newItemId : String} {now : Int} {item : CartItem}
    (h : saveCartItem s cartObj prod req newItemId now = some (item, s2)) :
    s2.carts = s.carts ∧ s2.coupons = s.coupons := by
  unfold saveCartItem at h
  split at h
  · dsimp only at h
    split_ifs at h
    simp only [Option.some.injEq, Prod.mk.injEq] at h
    obtain ⟨_, rfl⟩ := h
    exact ⟨rfl, rfl⟩
  · dsimp only at h
    split_ifs at h
    simp only [Option.some.injEq, Prod.mk.injEq] at h
    obtain ⟨_, rfl⟩ := h
    exact ⟨rfl, rfl⟩

theorem findCartByUser_congr {s t : Store} (h : t.carts = s.carts) (u : String) :
    findCartByUser t u = findCartByUser s u := by
  simp [findCartByUser, h]

theorem cartItemsOf_congr {s t : Store} (h : t.cartItems = s.cartItems) (cid : String) :
    cartItemsOf t cid = cartItemsOf s cid := by
  simp [cartItemsOf, h]

/-! ## What a successful handler did -/

theorem AddToCart_created {s s' : Store} {userId newCartId newItemId : String}
    {req : CartItemRequest} {now : Int} {r : Response}
    (h : AddToCart s userId req newCartId newItemId now = (r, s')) (hs : r.status = 201) :
    ∃ prod cartObj s1 item s2 c', getProduct s req.productId = some prod ∧
      getOrCreateCart s userId newCartId now = some (cartObj, s1) ∧
      saveCartItem s1 cartObj prod req newItemId now = some (item, s2) ∧
      updateCartTotals s2 cartObj.id now = some (c', s') ∧ r.cart = some c' := by
  unfold AddToCart at h
  split_ifs at h with h1 h2
  · cases h; simp at hs
  · cases h; simp at hs
  · split at h
    · cases h; simp at hs
    · rename_i prod hp
      split at h
      · cases h; simp at hs
      · rename_i cartObj s1 hc
        split at h
        · cases h; simp at hs
        · rename_i item s2 hi
          split at h
          · cases h; simp at hs
          · rename_i c' s3 hu
            cases h
            exact ⟨prod, cartObj, s1, item, s2, c', hp, hc, hi, hu, rfl⟩


theorem UpdateCartItem_ok {s s' : Store} {userId itemId : String}
    {req : CartItemRequest} {now : Int} {r : Response}
    (h : UpdateCartItem s userId itemId req now = (r, s')) (hs : r.status = 200) :
    ∃ cartObj item c', findCartByUser s userId = some cartObj ∧
      s.cartItems.find? (fun i => decide (i.id = itemId) && decide (i.cartId = cartObj.id))
        = some item ∧
      updateCartTotals (updateCartItemRows s item.id
        (fun r => { r with quantity := req.quantity, updatedAt := now })) cartObj.id now
        = some (c', s') ∧ r.cart = some c' := by
  unfold UpdateCartItem at h
  split_ifs at h with h1 h2
  · cases h; simp at hs
  · cases h; simp at hs
  · split at h
    · cases h; simp at hs
    · rename_i cartObj hc
      split at h
      · cases h; simp at hs
      · rename_i item hi
        dsimp only at h
        split at h
        · cases h; simp at hs
        · rename_i c' s2 hu
          cases h
          exact ⟨cartObj, item, c', hc, hi, hu, rfl⟩

theorem RemoveCartItem_ok {s s' : Store} {userId itemId : String} {now : Int} {r : Response}
    (h : RemoveCartItem s userId itemId now = (r, s')) (hs : r.status = 200) :
    ∃ cartObj c', findCartByUser s userId = some cartObj ∧
      s.cartItems.any (fun i => decide (i.id = itemId) && decide (i.cartId = cartObj.id)) = true ∧
      updateCartTotals (deleteCartItem s itemId) cartObj.id now = some (c', s') ∧
      r.cart = some c' := by
  unfold RemoveCartItem at h
  split_ifs at h with h1
  · cases h; simp at hs
  · split at h
    · cases h; simp at hs
    · rename_i cartObj hc
      split_ifs at h with h2
      · cases h; simp at hs
      · dsimp only at h
        split at h
        · cases h; simp at hs
        · rename_i c' s2 hu
          cases h
          exact ⟨cartObj, c', hc, by simpa using h2, hu, rfl⟩

theorem ApplyCoupon_ok {s s' : Store} {userId : String} {req : CartCouponRequest}
    {now : Int} {r : Response}
    (h : ApplyCoupon s userId req now = (r, s')) (hs : r.status = 200) :
    ∃ couponObj cartObj, req.code ≠ "" ∧ findActiveCoupon s req.code = some couponObj ∧
      couponObj.expiresAt.any (fun t => decide (t < now)) = false ∧
      couponObj.maxUses.any (fun m => decide (m ≤ couponObj.timesUsed)) = false ∧
      findCartByUser s userId = some cartObj ∧
      ¬ cartObj.subtotal < couponObj.minPurchase ∧
      s' = updateCouponRows
        (updateCartRows s cartObj.id (couponApplied cartObj couponObj req.code now))
        couponObj.id
        (fun r => { r with timesUsed := wrapInt (couponObj.timesUsed + 1), updatedAt := now }) ∧
      r.cart = some (couponApplied cartObj couponObj req.code now cartObj) := by
  unfold ApplyCoupon at h
  split_ifs at h with h1 h2
  · cases h; simp at hs
  · cases h; simp at hs
  · split at h
    · cases h; simp at hs
    · rename_i couponObj hk
      split_ifs at h with h3 h4
      · cases h; simp at hs
      · cases h; simp at hs
      · split at h
        · cases h; simp at hs
        · rename_i cartObj hc
          split_ifs at h with h5
          · cases h; simp at hs
          · cases h
            exact ⟨couponObj, cartObj, h2, hk, by simpa using h3, by simpa using h4, hc, h5,
              rfl, rfl⟩

theorem RemoveCoupon_ok {s s' : Store} {userId : String} {now : Int} {r : Response}
    (h : RemoveCoupon s userId now = (r, s')) (hs : r.status = 200) :
    ∃ cartObj, findCartByUser s userId = some cartObj ∧ cartObj.appliedCoupon = true ∧
      s' = releaseCoupon (updateCartRows s cartObj.id (couponRemoved cartObj now))
        cartObj.couponCode now ∧
      r.cart = some (couponRemoved cartObj now cartObj) := by
  unfold RemoveCoupon at h
  split_ifs at h with h1
  · cases h; simp at hs
  · split at h
    · cases h; simp at hs
    · rename_i cartObj hc
      split_ifs at h with h2
      · cases h; simp at hs
      · cases h
        exact ⟨cartObj, hc, by simpa using h2, rfl, rfl⟩

theorem ClearCart_ok {s s' : Store} {userId : String} {now : Int} {r : Response}
    (h : ClearCart s userId now = (r, s')) (hs : r.status = 200) :
    ∃ cartObj, findCartByUser s userId = some cartObj ∧
      s' = releaseCoupon
        (updateCartRows (deleteCartItemsOf s cartObj.id) cartObj.id (cartCleared cartObj now))
        (if cartObj.appliedCoupon = true then cartObj.couponCode else "") now ∧
      r.cart = some (cartCleared cartObj now cartObj) := by
  unfold ClearCart at h
  split_ifs at h with h1
  · cases h; simp at hs
  · split at h
    · cases h; simp at hs
    · rename_i cartObj hc
      cases h
      exact ⟨cartObj, hc, rfl, rfl⟩

theorem CreateOrder_created {s s' : Store} {userId orderId : String} {req : OrderRequest}
    {itemId : Nat → String} {now : Int} {r : Response}
    (h : CreateOrder s userId req orderId itemId now = (r, s')) (hs : r.status = 201) :
    ∃ cartObj s1, findCartByUser s userId = some cartObj ∧
      (cartItemsOf s cartObj.id).length ≠ 0 ∧
      saveOrder s (orderOf cartObj userId req orderId now) = some s1 ∧
      s' = finishCheckout s1 cartObj (cartItemsOf s cartObj.id) orderId itemId now ∧
      r.order = some (orderOf cartObj userId req orderId now) := by
  unfold CreateOrder at h
  split_ifs at h with h1 h2 h3 h4 h5 h6
  · cases h; simp at hs
  · cases h; simp at hs
  · cases h; simp at hs
  · cases h; simp at hs
  · cases h; simp at hs
  · cases h; simp at hs
  · split at h
    · cases h; simp at hs
    · rename_i cartObj hc
      dsimp only at h
      split_ifs at h with h7
      · cases h; simp at hs
      · split at h
        · cases h; simp at hs
        · rename_i s1 ho
          cases h
          exact ⟨cartObj, s1, hc, h7, ho, rfl, rfl⟩

theorem releaseCoupon_carts (s : Store) (code : String) (now : Int) :
    (releaseCoupon s code now).carts = s.carts := by
  unfold releaseCoupon
  split_ifs
  · split
    · split_ifs <;> rfl
    · rfl
  · rfl

theorem createOrderItems_carts (orderId : String) (itemId : Nat → String) (now : Int)
    (s : Store) (n : Nat) (items : List CartItem) :
    (createOrderItems orderId itemId now s n items).carts = s.carts := by
  induction items generalizing s n with
  | nil => rfl
  | cons item rest ih =>
    unfold createOrderItems
    dsimp only
    split
    · rename_i s1 h1
      rw [ih]
      unfold saveOrderItem at h1
      simp at h1
    · exact ih _ _

theorem getCart_congr {s t : Store} (h : t.carts = s.carts) (cid : String) :
    getCart t cid = getCart s cid := by
  simp [getCart, h]

theorem CartIdsUnique_congr {s t : Store} (h : t.carts = s.carts) (hu : CartIdsUnique s) :
    CartIdsUnique t := by
  unfold CartIdsUnique at hu ⊢
  rw [h]; exact hu

theorem getOrCreateCart_unique {s s1 : Store} {u newCartId : String} {now : Int}
    {cartObj : Cart} (hu : CartIdsUnique s)
    (h : getOrCreateCart s u newCartId now = some (cartObj, s1)) : CartIdsUnique s1 := by
  unfold getOrCreateCart at h
  split at h
  · simp only [Option.some.injEq, Prod.mk.injEq] at h
    obtain ⟨_, rfl⟩ := h
    exact hu
  · split_ifs at h with hx
    simp only [Option.some.injEq, Prod.mk.injEq] at h
    obtain ⟨_, rfl⟩ := h
    unfold CartIdsUnique at hu ⊢
    simp only [List.map_append, List.map_cons, List.map_nil]
    rw [List.nodup_append]
    refine ⟨hu, List.nodup_singleton _, ?_⟩
    intro a ha hb
    simp only [List.mem_singleton] at hb
    subst hb
    simp only [List.mem_map] at ha
    obtain ⟨c, hc, hid⟩ := ha
    apply hx
    simp only [List.any_eq_true, decide_eq_true_eq]
    exact ⟨c, hc, hid⟩

/-- With unique cart ids, `updateCartTotals` on the caller's cart rewrites that row. -/
theorem updateCartTotals_stored_unique {s s' : Store} {u : String} {c0 c' : Cart} {now : Int}
    (hu : CartIdsUnique s) (h : findCartByUser s u = some c0)
    (ht : updateCartTotals s c0.id now = some (c', s')) :
    c' = recomputed s c0 now c0 ∧ s' = updateCartRows s c0.id (recomputed s c0 now) ∧
      findCartByUser s' u = some (recomputed s c0 now c0) := by
  obtain ⟨co, hg, _, h1, h2, h3⟩ := updateCartTotals_stored h ht
  have : co = c0 := by
    have := getCart_of_unique hu (findCartByUser_some h).1
    rw [hg] at this
    exact Option.some.inj this
  subst this
  exact ⟨h1, h2, h3⟩

theorem TotalRule_recomputed (s : Store) (c : Cart) (now : Int) :
    TotalRule (recomputed s c now c) := by
  simp only [TotalRule, recomputed]

theorem finishCheckout_carts (s1 : Store) (cartObj : Cart) (cartItems : List CartItem)
    (orderId : String) (itemId : Nat → String) (now : Int) :
    (finishCheckout s1 cartObj cartItems orderId itemId now).carts =
      s1.carts.map (fun c => if c.id = cartObj.id then cartReset now c else c) := by
  simp [finishCheckout, updateCartRows, deleteCartItemsOf, createOrderItems_carts]

theorem saveOrder_carts {s s1 : Store} {o : Order} (h : saveOrder s o = some s1) :
    s1.carts = s.carts := by
  unfold saveOrder at h
  split_ifs at h
  simp only [Option.some.injEq] at h
  subst h
  rfl

theorem couponDiscount_nonneg (k : Coupon) (base : ℚ) (hv : 0 < k.discountValue)
    (hb : 0 ≤ base) : 0 ≤ couponDiscount k base := by
  unfold couponDiscount
  split_ifs
  · exact mul_nonneg hb (div_nonneg hv.le (by norm_num))
  · exact hb
  · exact hv.le

theorem couponDiscount_le (k : Coupon) (base : ℚ) (hb : 0 ≤ base)
    (h : k.discountType = "fixed" ∨ k.discountValue ≤ 100) : couponDiscount k base ≤ base := by
  unfold couponDiscount
  split_ifs with hp hgt
  · have hv : k.discountValue ≤ 100 := by
      rcases h with h | h
      · rw [hp] at h; exact absurd h (by decide)
      · exact h
    have : k.discountValue / 100 ≤ 1 := by
      rw [div_le_one (by norm_num)]; exact hv
    calc base * (k.discountValue / 100) ≤ base * 1 := mul_le_mul_of_nonneg_left this hb
      _ = base := mul_one base
  · exact le_refl base
  · exact not_lt.mp hgt

theorem couponDiscount_fixed (k : Coupon) (base : ℚ) (h : k.discountType = "fixed") :
    couponDiscount k base = min k.discountValue base := by
  unfold couponDiscount
  rw [if_neg (by rw [h]; decide)]
  split_ifs with hgt
  · exact (min_eq_right hgt.le).symm
  · exact (min_eq_left (not_lt.mp hgt)).symm

theorem couponDiscount_percentage (k : Coupon) (base : ℚ) (h : k.discountType = "percentage") :
    couponDiscount k base = base * k.discountValue / 100 := by
  unfold couponDiscount
  rw [if_pos h, mul_div_assoc]

theorem recomputed_discount {s : Store} {cartObj : Cart} {k : Coupon} (now : Int) (r : Cart)
    (ha : cartObj.appliedCoupon = true) (hcode : cartObj.couponCode ≠ "")
    (hk : findCouponByCode s cartObj.couponCode = some k) :
    (recomputed s cartObj now r).discount
      = couponDiscount k (lineSum (cartItemsOf s cartObj.id)) := by
  simp [recomputed, ha, hcode, hk, subtotalOf_eq_lineSum]

theorem mem_updateCartRows_of_mem {s : Store} {c : Cart} (f : Cart → Cart) (h : c ∈ s.carts) :
    f c ∈ (updateCartRows s c.id f).carts := by
  unfold updateCartRows
  simp only [List.mem_map]
  exact ⟨c, h, by simp⟩

theorem updateCartTotals_eq {s s' : Store} {cartId : String} {c' : Cart} {now : Int}
    (h : updateCartTotals s cartId now = some (c', s')) :
    ∃ cartObj, getCart s cartId = some cartObj ∧ c' = recomputed s cartObj now cartObj ∧
      s' = updateCartRows s cartObj.id (recomputed s cartObj now) ∧ c' ∈ s'.carts := by
  unfold updateCartTotals at h
  split at h
  · simp at h
  · rename_i cartObj hg
    simp only [Option.some.injEq, Prod.mk.injEq] at h
    obtain ⟨h1, h2⟩ := h
    refine ⟨cartObj, hg, h1.symm, h2.symm, ?_⟩
    rw [← h1, ← h2]
    exact mem_updateCartRows_of_mem _ (getCart_some hg).1

theorem getOrCreateCart_of_found {s : Store} {u : String} {c0 : Cart} (newCartId : String)
    (now : Int) (h : findCartByUser s u = some c0) :
    getOrCreateCart s u newCartId now = some (c0, s) := by
  simp [getOrCreateCart, h]

theorem findCouponByCode_congr {s t : Store} (h : t.coupons = s.coupons) (code : String) :
    findCouponByCode t code = findCouponByCode s code := by
  simp [findCouponByCode, h]

/-- After `updateCartTotals` on the caller's cart, which carries the coupon `k`, the
stored discount is the coupon's discount on the recomputed subtotal. -/
theorem recompute_with_coupon (s2 : Store) {s' : Store} {u : String} {c0 c' : Cart} {k : Coupon}
    {now : Int} (hu : CartIdsUnique s2) (hc : findCartByUser s2 u = some c0)
    (ha : c0.appliedCoupon = true) (hcode : c0.couponCode ≠ "")
    (hk : findCouponByCode s2 c0.couponCode = some k)
    (ht : updateCartTotals s2 c0.id now = some (c', s')) : DiscountFollows k s' u := by
  obtain ⟨_, hs', hfind⟩ := updateCartTotals_stored_unique hu hc ht
  have hd : (recomputed s2 c0 now c0).discount
      = couponDiscount k (recomputed s2 c0 now c0).subtotal := by
    rw [recomputed_discount now c0 ha hcode hk, recomputed_subtotal]
  refine ⟨_, hfind, ?_, ?_, ?_⟩
  · rw [recomputed_subtotal, recomputed_id]
    subst hs'
    rfl
  · intro hp
    rw [hd, couponDiscount_percentage _ _ hp]
  · intro hf
    rw [hd, couponDiscount_fixed _ _ hf]

theorem wrapInt_of_range {x : Int} (hlo : -(2 ^ 63) ≤ x) (hhi : x < 2 ^ 63) : wrapInt x = x := by
  unfold wrapInt
  norm_num at hlo hhi ⊢
  omega

theorem wrapInt_isGoInt (x : Int) : IsGoInt (wrapInt x) := by
  unfold IsGoInt wrapInt maxInt
  norm_num
  omega

/-- A `First` query keeps answering with the rewritten row when the rewrite does not
change what the query looks at. -/
theorem find_map_rewrite {α : Type} (l : List α) (p : α → Bool) (g : α → α)
    (hg : ∀ a, p (g a) = p a) (sel : α → Prop) [DecidablePred sel] (a0 : α)
    (h : l.find? p = some a0) (hsel : sel a0) :
    (l.map (fun a => if sel a then g a else a)).find? p = some (g a0) := by
  induction l with
  | nil => simp at h
  | cons a l ih =>
    rw [List.map_cons, List.find?_cons]
    rw [List.find?_cons] at h
    cases hpa : p a with
    | true =>
      rw [hpa] at h
      have hac : a = a0 := by simpa using h
      subst hac
      simp [hsel, hg, hpa]
    | false =>
      rw [hpa] at h
      have : p (if sel a then g a else a) = false := by
        split
        · rw [hg, hpa]
        · exact hpa
      rw [this]
      exact ih h

theorem findActiveCoupon_some {s : Store} {code : String} {k : Coupon}
    (h : findActiveCoupon s code = some k) : k ∈ s.coupons ∧ k.code = code ∧ k.isActive = true := by
  unfold findActiveCoupon at h
  have := List.find?_some h
  simp only [Bool.and_eq_true, decide_eq_true_eq] at this
  exact ⟨List.mem_of_find?_eq_some h, this.1, this.2⟩

theorem findCouponByCode_some {s : Store} {code : String} {k : Coupon}
    (h : findCouponByCode s code = some k) : k ∈ s.coupons ∧ k.code = code := by
  unfold findCouponByCode at h
  exact ⟨List.mem_of_find?_eq_some h, by simpa using List.find?_some h⟩

/-- What the decrement step leaves under the code it was given. -/
theorem releaseCoupon_find {s : Store} {code : String} {k : Coupon} (now : Int)
    (hcode : code ≠ "") (hk : findCouponByCode s code = some k) :
    ∃ k', findCouponByCode (releaseCoupon s code now) code = some k' ∧ k'.id = k.id ∧
      k'.timesUsed = if k.timesUsed > 0 then wrapInt (k.timesUsed - 1) else k.timesUsed := by
  unfold releaseCoupon
  rw [if_pos hcode, hk]
  dsimp only
  split_ifs with hpos
  · refine ⟨{ k with timesUsed := wrapInt (k.timesUsed - 1), updatedAt := now }, ?_, rfl, rfl⟩
    unfold findCouponByCode updateCouponRows
    exact find_map_rewrite s.coupons (fun r => decide (r.code = code))
      (fun r => { r with timesUsed := wrapInt (k.timesUsed - 1), updatedAt := now })
      (fun _ => rfl) (fun r => r.id = k.id) k hk rfl
  · exact ⟨k, hk, rfl, rfl⟩

theorem releaseCoupon_empty (s : Store) (now : Int) : releaseCoupon s "" now = s := by
  simp [releaseCoupon]

theorem CapInv_congr {s t : Store} (h : t.coupons = s.coupons) (hi : CapInv s) : CapInv t := by
  unfold CapInv at hi ⊢
  rw [h]; exact hi

/-- Rewriting the row of a stored coupon keeps the invariant when the rewrite keeps
the id and the rewritten row is within its cap. -/
theorem CapInv_updateCouponRows {s : Store} {k0 : Coupon} (f : Coupon → Coupon)
    (hi : CapInv s) (hk0 : k0 ∈ s.coupons) (hid : ∀ r, (f r).id = r.id)
    (hok : CouponOk (f k0)) : CapInv (updateCouponRows s k0.id f) := by
  obtain ⟨hnd, hall⟩ := hi
  constructor
  · unfold updateCouponRows
    simp only [List.map_map]
    have : ((fun k : Coupon => k.id) ∘ fun k => if k.id = k0.id then f k else k)
        = fun k => k.id := by
      funext k
      simp only [Function.comp]
      split
      · exact hid k
      · rfl
    rw [this]
    exact hnd
  · intro k' hk'
    unfold updateCouponRows at hk'
    simp only [List.mem_map] at hk'
    obtain ⟨k, hk, rfl⟩ := hk'
    split
    · rename_i heq
      have : k = k0 := List.inj_on_of_nodup_map hnd hk hk0 heq
      rw [this]; exact hok
    · exact hall k hk

theorem CapInv_releaseCoupon {s : Store} (code : String) (now : Int) (hi : CapInv s) :
    CapInv (releaseCoupon s code now) := by
  unfold releaseCoupon
  split_ifs with hcode
  · split
    · rename_i couponObj hk
      split_ifs with hpos
      · have hmem := (findCouponByCode_some hk).1
        apply CapInv_updateCouponRows
          (fun r => { r with timesUsed := wrapInt (couponObj.timesUsed - 1), updatedAt := now })
          hi hmem (fun _ => rfl)
        obtain ⟨⟨hlo, hhi⟩, hcap⟩ := hi.2 couponObj hmem
        have hw : wrapInt (couponObj.timesUsed - 1) = couponObj.timesUsed - 1 := by
          unfold maxInt at hhi
          exact wrapInt_of_range (by linarith) (by linarith)
        refine ⟨?_, ?_⟩
        · show IsGoInt (wrapInt (couponObj.timesUsed - 1))
          exact wrapInt_isGoInt _
        · intro m hm
          show wrapInt (couponObj.timesUsed - 1) ≤ m ∧ m ≤ maxInt
          rw [hw]
          have := hcap m hm
          exact ⟨by linarith [this.1], this.2⟩
      · exact hi
    · exact hi
  · exact hi

theorem CapInv_CreateCoupon {s : Store} (isAdmin : Bool) (req : CouponRequest) (newId : String)
    (now : Int) (hi : CapInv s) (hg : ∀ m, req.maxUses = some m → 0 ≤ m ∧ m ≤ maxInt) :
    CapInv (CreateCoupon s isAdmin req newId now).2 := by
  unfold CreateCoupon
  split_ifs with h1 h2 h3 h4 h5 h6 h7
  all_goals try exact hi
  obtain ⟨hnd, hall⟩ := hi
  constructor
  · simp only [List.map_append, List.map_cons, List.map_nil]
    rw [List.nodup_append]
    refine ⟨hnd, List.nodup_singleton _, ?_⟩
    intro a ha hb
    simp only [List.mem_singleton] at hb
    subst hb
    simp only [List.mem_map] at ha
    obtain ⟨c, hc, hid⟩ := ha
    apply h7
    simp only [List.any_eq_true, decide_eq_true_eq]
    exact ⟨c, hc, hid⟩
  · intro k hk
    simp only [List.mem_append, List.mem_singleton] at hk
    rcases hk with hk | rfl
    · exact hall k hk
    · refine ⟨?_, ?_⟩
      · show IsGoInt 0
        decide
      · intro m hm
        exact hg m hm

theorem CapInv_UpdateCoupon {s : Store} (isAdmin : Bool) (id : String) (req : CouponRequest)
    (now : Int) (hi : CapInv s)
    (hg : ∀ m, req.maxUses = some m →
      m ≤ maxInt ∧ ∀ k ∈ s.coupons, k.id = id → k.timesUsed ≤ m) :
    CapInv (UpdateCoupon s isAdmin id req now).2 := by
  unfold UpdateCoupon
  split
  · exact hi
  · split
    · exact hi
    · rename_i couponObj hk
      have hmem : couponObj ∈ s.coupons := List.mem_of_find?_eq_some hk
      have hid : couponObj.id = id := by simpa using List.find?_some hk
      split
      · exact hi
      split
      · exact hi
      split
      · exact hi
      split
      · exact hi
      apply CapInv_updateCouponRows (couponUpdated req now) hi hmem (fun _ => rfl)
      obtain ⟨hint, hcap⟩ := hi.2 couponObj hmem
      refine ⟨hint, ?_⟩
      intro m hm
      show couponObj.timesUsed ≤ m ∧ m ≤ maxInt
      cases hreq : req.maxUses with
      | none =>
        have : couponObj.maxUses = some m := by
          simpa [couponUpdated, hreq] using hm
        exact hcap m this
      | some m' =>
        have : m' = m := by
          simpa [couponUpdated, hreq] using hm
        subst this
        exact ⟨(hg m' hreq).2 couponObj hmem hid, (hg m' hreq).1⟩

theorem CapInv_ApplyCoupon {s : Store} (userId : String) (req : CartCouponRequest) (now : Int)
    (hi : CapInv s) : CapInv (ApplyCoupon s userId req now).2 := by
  unfold ApplyCoupon
  split_ifs with h1 h2
  · exact hi
  · exact hi
  · split
    · exact hi
    · rename_i couponObj hk
      split_ifs with h3 h4
      · exact hi
      · exact hi
      · split
        · exact hi
        · rename_i cartObj hc
          split_ifs with h5
          · exact hi
          · dsimp only
            have hmem := (findActiveCoupon_some hk).1
            have hi1 : CapInv (updateCartRows s cartObj.id
                (couponApplied cartObj couponObj req.code now)) := hi
            apply CapInv_updateCouponRows
              (fun r => { r with timesUsed := wrapInt (couponObj.timesUsed + 1),
                                 updatedAt := now })
              hi1 hmem (fun _ => rfl)
            obtain ⟨⟨hlo, hhi⟩, hcap⟩ := hi.2 couponObj hmem
            refine ⟨wrapInt_isGoInt _, ?_⟩
            intro m hm
            show wrapInt (couponObj.timesUsed + 1) ≤ m ∧ m ≤ maxInt
            have hm' : couponObj.maxUses = some m := hm
            have hlt : couponObj.timesUsed < m := by
              have : ¬ m ≤ couponObj.timesUsed := by
                intro hle
                apply h4
                simp [hm', hle]
              exact not_le.mp this
            have hmax := (hcap m hm').2
            unfold maxInt at hmax
            rw [wrapInt_of_range (by linarith) (by linarith)]
            exact ⟨by linarith, (hcap m hm').2⟩

theorem CapInv_RemoveCoupon {s : Store} (userId : String) (now : Int) (hi : CapInv s) :
    CapInv (RemoveCoupon s userId now).2 := by
  unfold RemoveCoupon
  split_ifs with h1
  · exact hi
  · split
    · exact hi
    · rename_i cartObj hc
      split_ifs
      · exact hi
      · exact CapInv_releaseCoupon _ _
          (CapInv_congr (s := s) (by rfl) hi)

theorem CapInv_ClearCart {s : Store} (userId : String) (now : Int) (hi : CapInv s) :
    CapInv (ClearCart s userId now).2 := by
  unfold ClearCart
  split_ifs with h1
  · exact hi
  · split
    · exact hi
    · exact CapInv_releaseCoupon _ _ (CapInv_congr (s := s) (by rfl) hi)

theorem CapInv_runCall {s : Store} (c : CouponCall) (hi : CapInv s) (hg : CallGuarded s c) :
    CapInv (runCall s c) := by
  cases c with
  | createCoupon isAdmin req newId now => exact CapInv_CreateCoupon isAdmin req newId now hi hg
  | updateCoupon isAdmin id req now => exact CapInv_UpdateCoupon isAdmin id req now hi hg
  | applyCoupon userId req now => exact CapInv_ApplyCoupon userId req now hi
  | removeCoupon userId now => exact CapInv_RemoveCoupon userId now hi
  | clearCart userId now => exact CapInv_ClearCart userId now hi

theorem CapInv_runCalls (calls : List CouponCall) :
    ∀ s : Store, CapInv s → GuardedRun s calls → CapInv (runCalls s calls) := by
  induction calls with
  | nil => intro s hi _; exact hi
  | cons c cs ih =>
    intro s hi hg
    exact ih (runCall s c) (CapInv_runCall c hi hg.1) hg.2

theorem CapInv_empty : CapInv Store.empty := by
  constructor
  · exact List.nodup_nil
  · intro k hk
    cases hk

theorem findActiveCoupon_of_mem {s : Store} (hs : CouponCodesOk s) {k : Coupon}
    (hk : k ∈ s.coupons) (ha : k.isActive = true) : findActiveCoupon s k.code = some k := by
  unfold findActiveCoupon
  cases hf : s.coupons.find? (fun r => decide (r.code = k.code) && r.isActive) with
  | none =>
    have := List.find?_eq_none.mp hf k hk
    simp [ha] at this
  | some k' =>
    have hp := List.find?_some hf
    simp only [Bool.and_eq_true, decide_eq_true_eq] at hp
    have : k' = k := List.inj_on_of_nodup_map hs.2 (List.mem_of_find?_eq_some hf) hk hp.1
    rw [this]

theorem expired_iff (k : Coupon) (now : Int) :
    k.expiresAt.any (fun t => decide (t < now)) = true ↔ Expired k now := by
  unfold Expired
  cases k.expiresAt <;> simp

theorem usageExceeded_iff (k : Coupon) :
    k.maxUses.any (fun m => decide (k.timesUsed ≥ m)) = true ↔ UsageExceeded k := by
  unfold UsageExceeded
  cases k.maxUses <;> simp

theorem not_expired_iff (k : Coupon) (now : Int) :
    ¬ Expired k now ↔ ∀ t, k.expiresAt = some t → ¬ t < now := by
  unfold Expired
  constructor
  · intro h t ht hlt
    exact h ⟨t, ht, hlt⟩
  · rintro h ⟨t, ht, hlt⟩
    exact h t ht hlt

theorem not_usageExceeded_iff (k : Coupon) :
    ¬ UsageExceeded k ↔ ∀ m, k.maxUses = some m → k.timesUsed < m := by
  unfold UsageExceeded
  constructor
  · intro h m hm
    by_contra hn
    exact h ⟨m, hm, not_lt.mp hn⟩
  · rintro h ⟨m, hm, hle⟩
    exact absurd (h m hm) (not_lt.mpr hle)

/-- The answer of `ValidateCoupon` once the active coupon of the requested code is known. -/
theorem ValidateCoupon_found {s : Store} {req : ValidateRequest} {k : Coupon} (now : Int)
    (hne : req.code ≠ "") (hk : findActiveCoupon s req.code = some k) :
    (Expired k now → ValidateCoupon s req now =
        { status := 200, message := "Cupom expirado", valid := some false }) ∧
    (¬ Expired k now → UsageExceeded k → ValidateCoupon s req now =
        { status := 200, message := "Cupom atingiu o limite máximo de usos",
          valid := some false }) ∧
    (¬ Expired k now → ¬ UsageExceeded k → req.cartTotal < k.minPurchase →
      ValidateCoupon s req now =
        { status := 200, message := "Valor mínimo para uso do cupom não atingido",
          valid := some false }) ∧
    (¬ Expired k now → ¬ UsageExceeded k → k.minPurchase ≤ req.cartTotal →
      ValidateCoupon s req now =
        { status := 200, message := "Cupom válido", valid := some true, coupon := some k,
          discount := some (couponDiscount k req.cartTotal) }) := by
  unfold ValidateCoupon
  rw [if_neg hne, hk]
  dsimp only
  refine ⟨?_, ?_, ?_, ?_⟩
  · intro he
    rw [if_pos ((expired_iff k now).mpr he)]
  · intro he hu
    rw [if_neg (fun h => he ((expired_iff k now).mp h)),
      if_pos ((usageExceeded_iff k).mpr hu)]
  · intro he hu hm
    rw [if_neg (fun h => he ((expired_iff k now).mp h)),
      if_neg (fun h => hu ((usageExceeded_iff k).mp h)), if_pos hm]
  · intro he hu hm
    rw [if_neg (fun h => he ((expired_iff k now).mp h)),
      if_neg (fun h => hu ((usageExceeded_iff k).mp h)), if_neg (not_lt.mpr hm)]

theorem wrapInt_add_pos {a b : Int} (ha : IsGoInt a) (hb : IsGoInt b) (hpos : 0 < b)
    (hq : 0 < wrapInt (a + b)) : wrapInt (a + b) = a + b := by
  unfold IsGoInt maxInt at ha hb
  unfold wrapInt at hq ⊢
  norm_num at ha hb hq ⊢
  omega

theorem PairUnique_congr {s t : Store} (h : t.cartItems = s.cartItems) (hp : PairUnique s) :
    PairUnique t := by
  unfold PairUnique at hp ⊢
  rw [h]; exact hp

theorem updateCartTotals_cartItems {s s' : Store} {cartId : String} {c' : Cart} {now : Int}
    (h : updateCartTotals s cartId now = some (c', s')) : s'.cartItems = s.cartItems := by
  obtain ⟨_, _, _, hs', _⟩ := updateCartTotals_eq h
  rw [hs']; rfl

theorem getOrCreateCart_id {s s1 : Store} {u newCartId : String} {now : Int} {cartObj : Cart}
    (h : getOrCreateCart s u newCartId now = some (cartObj, s1)) :
    cartObj.id = callerCartId s u newCartId := by
  unfold getOrCreateCart at h
  unfold callerCartId
  split at h
  · rename_i c hc
    simp only [Option.some.injEq, Prod.mk.injEq] at h
    rw [← h.1]
  · rename_i hc
    split_ifs at h
    simp only [Option.some.injEq, Prod.mk.injEq] at h
    rw [← h.1]

/-- The two ways the item write of `AddToCart` succeeds. -/
theorem saveCartItem_cases {s s2 : Store} {cartObj : Cart} {prod : Product}
    {req : CartItemRequest} {newItemId : String} {now : Int} {item : CartItem}
    (h : saveCartItem s cartObj prod req newItemId now = some (item, s2)) :
    (∃ e, existingLine s cartObj.id req.productId = some e ∧
      0 < wrapInt (e.quantity + req.quantity) ∧
      item = { e with quantity := wrapInt (e.quantity + req.quantity), updatedAt := now } ∧
      s2.cartItems = s.cartItems.map (fun i => if i.id = e.id then
        { i with quantity := wrapInt (e.quantity + req.quantity), updatedAt := now } else i)) ∨
    (existingLine s cartObj.id req.productId = none ∧
      item = { id := newItemId, cartId := cartObj.id, productId := req.productId,
               name := prod.name, price := prod.price, image := prod.image,
               quantity := req.quantity, createdAt := now, updatedAt := now } ∧
      s2.cartItems = s.cartItems ++ [item]) := by
  unfold saveCartItem at h
  unfold existingLine
  split at h
  · rename_i e he
    dsimp only at h
    split_ifs at h with hq
    simp only [Option.some.injEq, Prod.mk.injEq] at h
    obtain ⟨h1, h2⟩ := h
    left
    exact ⟨e, he, hq, h1.symm, by rw [← h2]; rfl⟩
  · rename_i he
    dsimp only at h
    split_ifs at h
    simp only [Option.some.injEq, Prod.mk.injEq] at h
    obtain ⟨h1, h2⟩ := h
    right
    refine ⟨he, h1.symm, ?_⟩
    rw [← h2, ← h1]

theorem saveCartItem_pairUnique {s s2 : Store} {cartObj : Cart} {prod : Product}
    {req : CartItemRequest} {newItemId : String} {now : Int} {item : CartItem}
    (hp : PairUnique s)
    (h : saveCartItem s cartObj prod req newItemId now = some (item, s2)) : PairUnique s2 := by
  rcases saveCartItem_cases h with ⟨e, _, _, _, hs2⟩ | ⟨hnone, hitem, hs2⟩
  · unfold PairUnique at hp ⊢
    rw [hs2, List.map_map]
    have : ((fun i : CartItem => (i.cartId, i.productId)) ∘ fun i => if i.id = e.id then
        { i with quantity := wrapInt (e.quantity + req.quantity), updatedAt := now } else i)
        = fun i => (i.cartId, i.productId) := by
      funext i
      simp only [Function.comp]
      split <;> rfl
    rw [this]
    exact hp
  · unfold PairUnique at hp ⊢
    rw [hs2, List.map_append, List.map_cons, List.map_nil, List.nodup_append]
    refine ⟨hp, List.nodup_singleton _, ?_⟩
    intro a ha hb
    simp only [List.mem_singleton] at hb
    subst hb
    simp only [List.mem_map] at ha
    obtain ⟨i, hi, hpair⟩ := ha
    unfold existingLine at hnone
    have := List.find?_eq_none.mp hnone i hi
    rw [hitem] at hpair
    simp only [Prod.mk.injEq] at hpair
    simp [hpair.1, hpair.2] at this

theorem releaseCoupon_cartItems (s : Store) (code : String) (now : Int) :
    (releaseCoupon s code now).cartItems = s.cartItems := by
  unfold releaseCoupon
  split_ifs
  · split
    · split_ifs <;> rfl
    · rfl
  · rfl

/-- The order item loop of `CreateOrder` stores nothing: the builder never carries the
required `image`, so every save is refused and skipped. -/
theorem createOrderItems_eq (orderId : String) (itemId : Nat → String) (now : Int)
    (s : Store) (n : Nat) (items : List CartItem) :
    createOrderItems orderId itemId now s n items = s := by
  induction items generalizing n with
  | nil => rfl
  | cons item rest ih =>
    unfold createOrderItems
    simp only [saveOrderItem]
    exact ih (n + 1)

theorem finishCheckout_eq (s1 : Store) (cartObj : Cart) (cartItems : List CartItem)
    (orderId : String) (itemId : Nat → String) (now : Int) :
    finishCheckout s1 cartObj cartItems orderId itemId now =
      updateCartRows (deleteCartItemsOf s1 cartObj.id) cartObj.id (cartReset now) := by
  simp only [finishCheckout, createOrderItems_eq]

theorem minPositive_eq : minPositive = 1 / 1000000 := by
  unfold minPositive
  rw [Rat.mkRat_eq_div]
  norm_num

theorem minPositive_pos : 0 < minPositive := by
  rw [minPositive_eq]
  norm_num

theorem saveOrder_some {s s1 : Store} {o : Order} (h : saveOrder s o = some s1) :
    s1 = { s with orders := s.orders ++ [o] } ∧ 0 < o.total := by
  unfold saveOrder at h
  split_ifs at h with hc
  simp only [Option.some.injEq] at h
  exact ⟨h.symm, lt_of_lt_of_le minPositive_pos hc.1⟩

/-- A checkout that answers 201 passed the request checks. -/
theorem CreateOrder_requestOk {s : Store} {userId orderId : String} {req : OrderRequest}
    {itemId : Nat → String} {now : Int}
    (hs : (CreateOrder s userId req orderId itemId now).1.status = 201) :
    userId ≠ "" ∧ RequestOk s userId req := by
  unfold CreateOrder at hs
  split_ifs at hs with h1 h2 h3 h4 h5 h6
  · simp at hs
  · simp at hs
  · simp at hs
  · simp at hs
  · simp at hs
  · simp at hs
  · refine ⟨h1, ?_, h3, h4, ?_⟩
    · by_contra hn
      push_neg at hn
      exact h2 hn
    · intro hd
      refine ⟨fun he => h5 ⟨hd, he⟩, ?_⟩
      by_contra hn
      apply h6
      refine ⟨hd, ?_⟩
      simpa using hn

/-- What a checkout that answers 201 leaves in the store. -/
theorem CreateOrder_store {s s' : Store} {userId orderId : String} {req : OrderRequest}
    {itemId : Nat → String} {now : Int} {r : Response}
    (h : CreateOrder s userId req orderId itemId now = (r, s')) (hs : r.status = 201) :
    ∃ c0, findCartByUser s userId = some c0 ∧ (cartItemsOf s c0.id).length ≠ 0 ∧
      0 < c0.total ∧ r.order = some (orderOf c0 userId req orderId now) ∧
      s' = updateCartRows (deleteCartItemsOf
        { s with orders := s.orders ++ [orderOf c0 userId req orderId now] } c0.id)
        c0.id (cartReset now) := by
  obtain ⟨c0, s1, hc, hne, ho, hs', hord⟩ := CreateOrder_created h hs
  obtain ⟨h1, hpos⟩ := saveOrder_some ho
  refine ⟨c0, hc, hne, hpos, hord, ?_⟩
  rw [hs', finishCheckout_eq, h1]

theorem createOrderItemsF_noFaults (orderId : String) (itemId : Nat → String) (now : Int)
    (s : Store) (n : Nat) (items : List CartItem) :
    createOrderItemsF noFaults orderId itemId now s n items
      = (false, createOrderItems orderId itemId now s n items) := by
  induction items generalizing s n with
  | nil => rfl
  | cons item rest ih =>
    unfold createOrderItemsF createOrderItems
    simp only [noFaults, Bool.false_eq_true, if_false, saveOrderItem]
    exact ih s (n + 1)

/-- Without store failures the handler under failures is the handler. -/
theorem CreateOrderF_noFaults (s : Store) (userId : String) (req : OrderRequest)
    (orderId : String) (itemId : Nat → String) (now : Int) :
    CreateOrderF noFaults s userId req orderId itemId now
      = CreateOrder s userId req orderId itemId now := by
  unfold CreateOrderF CreateOrder
  split_ifs <;> try rfl
  split
  · rfl
  · dsimp only
    split_ifs
    · rfl
    · split
      · rfl
      · rename_i s1 _
        unfold finishCheckoutF finishCheckout
        rw [createOrderItemsF_noFaults]
        simp [noFaults]

/-- `CreateOrder` stores no order item, whatever its outcome. -/
theorem CreateOrder_orderItems (s : Store) (userId : String) (req : OrderRequest)
    (orderId : String) (itemId : Nat → String) (now : Int) :
    (CreateOrder s userId req orderId itemId now).2.orderItems = s.orderItems := by
  unfold CreateOrder
  split_ifs <;> try rfl
  split
  · rfl
  · dsimp only
    split_ifs
    · rfl
    · split
      · rfl
      · rename_i s1 ho
        rw [finishCheckout_eq, (saveOrder_some ho).1]
        rfl

theorem createOrderItemsF_no_lookup_fault (f : CheckoutFaults)
    (hf : ∀ n, f.productGet n = false) (orderId : String) (itemId : Nat → String) (now : Int)
    (s : Store) (n : Nat) (items : List CartItem) :
    (createOrderItemsF f orderId itemId now s n items).1 = false := by
  induction items generalizing s n with
  | nil => rfl
  | cons item rest ih =>
    unfold createOrderItemsF
    simp only [hf n, Bool.false_eq_true, if_false]
    split
    · exact ih _ _
    · exact ih _ _

/-- When no product lookup fails, a checkout that changed the store reports the order:
the failures of the order item save, of the line item deletion and of the cart reset end
in a 200 or 201 that carries the order. -/
theorem CreateOrderF_reports_order (f : CheckoutFaults) (hf : ∀ n, f.productGet n = false)
    (s : Store) (userId : String) (req : OrderRequest) (orderId : String)
    (itemId : Nat → String) (now : Int) :
    (CreateOrderF f s userId req orderId itemId now).2 = s ∨
    (∃ o, (CreateOrderF f s userId req orderId itemId now).1.order = some o ∧
      ((CreateOrderF f s userId req orderId itemId now).1.status = 200 ∨
       (CreateOrderF f s userId req orderId itemId now).1.status = 201)) := by
  unfold CreateOrderF
  split_ifs <;> try exact Or.inl rfl
  split
  · exact Or.inl rfl
  · rename_i cartObj _
    dsimp only
    split_ifs
    · exact Or.inl rfl
    · split
      · exact Or.inl rfl
      · rename_i s1 _
        right
        unfold finishCheckoutF
        have h := createOrderItemsF_no_lookup_fault f hf orderId itemId now s1 0
          (cartItemsOf s cartObj.id)
        rcases hx : createOrderItemsF f orderId itemId now s1 0 (cartItemsOf s cartObj.id)
          with ⟨b, s2⟩
        rw [hx] at h
        simp only at h
        subst h
        dsimp only
        split_ifs
        · exact ⟨_, rfl, Or.inl rfl⟩
        · exact ⟨_, rfl, Or.inl rfl⟩
        · exact ⟨_, rfl, Or.inr rfl⟩

theorem find_order_of_mem {s : Store} (hu : OrderIdsUnique s) {o : Order} (ho : o ∈ s.orders)
    (p : Order → Bool) (hp : p o = true) (hid : ∀ r, p r = true → r.id = o.id) :
    s.orders.find? p = some o := by
  cases hf : s.orders.find? p with
  | none =>
    have := List.find?_eq_none.mp hf o ho
    simp [hp] at this
  | some r =>
    have hr := hid r (List.find?_some hf)
    have : r = o := List.inj_on_of_nodup_map hu (List.mem_of_find?_eq_some hf) ho hr
    rw [this]

theorem validStatus_iff (x : String) : validStatus x = true ↔ x ∈ fixedStatuses := by
  simp [validStatus, fixedStatuses, or_assoc]

theorem OneDefault_map {l : List Address} (h : Address → Address)
    (hid : ∀ a, (h a).id = a.id) (huser : ∀ a, (h a).userId = a.userId)
    (hkey : ∀ a ∈ l, ∀ b ∈ l, a.userId = b.userId → (h a).isDefault = true →
      (h b).isDefault = true → a.id = b.id) : OneDefault (l.map h) := by
  intro a' ha' b' hb' hu hda hdb
  simp only [List.mem_map] at ha' hb'
  obtain ⟨a, ha, rfl⟩ := ha'
  obtain ⟨b, hb, rfl⟩ := hb'
  rw [hid, hid]
  rw [huser, huser] at hu
  exact hkey a ha b hb hu hda hdb

/-- With unique ids, the address that passed the ownership check belongs to the caller. -/
theorem address_owner {s : Store} (hu : AddressIdsUnique s) {id userId : String}
    (hex : addressOfUser s id userId = true) :
    ∀ a ∈ s.addresses, a.id = id → a.userId = userId := by
  intro a ha hid
  unfold addressOfUser at hex
  simp only [List.any_eq_true, Bool.and_eq_true, decide_eq_true_eq] at hex
  obtain ⟨a0, ha0, hid0, hu0⟩ := hex
  have : a = a0 := List.inj_on_of_nodup_map hu ha ha0 (hid.trans hid0.symm)
  rw [this]; exact hu0

/-- The rows after "clear the other defaults of the user, then write the default flag
`d` on the rows of `id`" (the shape of `UpdateAddress` and `SetDefaultAddress`). -/
theorem OneDefault_set {s : Store} (hu : AddressIdsUnique s) (hd : AtMostOneDefault s)
    {id userId : String} (hex : addressOfUser s id userId = true) (clear : Bool)
    (g : Address → Address) (hgid : ∀ a, (g a).id = a.id)
    (hguser : ∀ a, (g a).userId = a.userId)
    (hgd : ∀ a, (g a).isDefault = true → clear = true) (now : Int) :
    OneDefault ((updateAddressRows
      (if clear = true then clearOtherDefaults s userId id now else s) id g).addresses) := by
  have hown := address_owner hu hex
  have hshape : (updateAddressRows
      (if clear = true then clearOtherDefaults s userId id now else s) id g).addresses
      = s.addresses.map (fun a => if a.id = id then g a else
          if clear = true ∧ a.userId = userId ∧ a.isDefault = true then
            { a with isDefault := false, updatedAt := now } else a) := by
    cases clear with
    | true =>
      simp only [updateAddressRows, clearOtherDefaults, if_true, List.map_map]
      apply List.map_congr_left
      intro a _
      simp only [Function.comp]
      have hcid : (if a.userId = userId ∧ a.isDefault = true ∧ a.id ≠ id then
          ({ a with isDefault := false, updatedAt := now } : Address) else a).id = a.id := by
        split <;> rfl
      by_cases hid : a.id = id
      · rw [if_pos (hcid.trans hid), if_pos hid]
        simp [hid]
      · rw [if_neg (fun h => hid (hcid.symm.trans h)), if_neg hid]
        simp [hid]
    | false =>
      simp [updateAddressRows]
  rw [hshape]
  apply OneDefault_map
  · intro a
    split
    · exact hgid a
    · split <;> rfl
  · intro a
    split
    · exact hguser a
    · split <;> rfl
  · intro a ha b hb hab hda hdb
    by_cases hia : a.id = id
    · by_cases hib : b.id = id
      · rw [hia, hib]
      · rw [if_pos hia] at hda
        have hc := hgd a hda
        rw [if_neg hib] at hdb
        have hbu : b.userId = userId := by rw [← hab]; exact hown a ha hia
        by_cases hbd : b.isDefault = true
        · rw [if_pos ⟨hc, hbu, hbd⟩] at hdb
          simp at hdb
        · rw [if_neg (fun h => hbd h.2.2)] at hdb
          exact absurd hdb hbd
    · by_cases hib : b.id = id
      · rw [if_pos hib] at hdb
        have hc := hgd b hdb
        rw [if_neg hia] at hda
        have hau : a.userId = userId := by rw [hab]; exact hown b hb hib
        by_cases had : a.isDefault = true
        · rw [if_pos ⟨hc, hau, had⟩] at hda
          simp at hda
        · rw [if_neg (fun h => had h.2.2)] at hda
          exact absurd hda had
      · rw [if_neg hia] at hda
        rw [if_neg hib] at hdb
        have had : a.isDefault = true := by
          split at hda
          · simp at hda
          · exact hda
        have hbd : b.isDefault = true := by
          split at hdb
          · simp at hdb
          · exact hdb
        exact hd a ha b hb hab had hbd
theorem ids_map_eq {l : List Address} (h : Address → Address) (hid : ∀ a, (h a).id = a.id) :
    (l.map h).map (fun a => a.id) = l.map (fun a => a.id) := by
  rw [List.map_map]
  apply List.map_congr_left
  intro a _
  exact hid a

theorem clearDefaults_ids (s : Store) (userId : String) (now : Int) :
    (clearDefaults s userId now).addresses.map (fun a => a.id)
      = s.addresses.map (fun a => a.id) := by
  unfold clearDefaults
  apply ids_map_eq
  intro a
  split <;> rfl

theorem clearOtherDefaults_ids (s : Store) (userId id : String) (now : Int) :
    (clearOtherDefaults s userId id now).addresses.map (fun a => a.id)
      = s.addresses.map (fun a => a.id) := by
  unfold clearOtherDefaults
  apply ids_map_eq
  intro a
  split <;> rfl

theorem updateAddressRows_ids (s : Store) (id : String) (g : Address → Address)
    (hg : ∀ a, (g a).id = a.id) :
    (updateAddressRows s id g).addresses.map (fun a => a.id)
      = s.addresses.map (fun a => a.id) := by
  unfold updateAddressRows
  apply ids_map_eq
  intro a
  split
  · exact hg a
  · rfl

theorem OneDefault_clearDefaults {s : Store} (hd : AtMostOneDefault s) (userId : String)
    (now : Int) :
    OneDefault (clearDefaults s userId now).addresses ∧
    ∀ a ∈ (clearDefaults s userId now).addresses, a.userId = userId → a.isDefault = false := by
  unfold clearDefaults
  constructor
  · apply OneDefault_map
    · intro a; split <;> rfl
    · intro a; split <;> rfl
    · intro a ha b hb hab hda hdb
      have had : a.isDefault = true := by
        split at hda
        · simp at hda
        · exact hda
      have hbd : b.isDefault = true := by
        split at hdb
        · simp at hdb
        · exact hdb
      exact hd a ha b hb hab had hbd
  · intro a' ha' hu'
    simp only [List.mem_map] at ha'
    obtain ⟨a, _, rfl⟩ := ha'
    split
    · rfl
    · rename_i hn
      split at hu'
      · rename_i hp; exact absurd hp hn
      · cases hda : a.isDefault with
        | false => rfl
        | true => exact absurd ⟨hu', hda⟩ hn

/-- `CreateAddress` keeps unique ids and at most one default address per user. -/
theorem CreateAddress_inv {s : Store} (hu : AddressIdsUnique s) (hd : AtMostOneDefault s)
    (userId : String) (req : AddressRequest) (newId : String) (now : Int) :
    AddressIdsUnique (CreateAddress s userId req newId now).2 ∧
    AtMostOneDefault (CreateAddress s userId req newId now).2 := by
  have h1 : AddressIdsUnique (if req.isDefault = true then clearDefaults s userId now else s) ∧
      OneDefault (if req.isDefault = true then clearDefaults s userId now else s).addresses ∧
      (req.isDefault = true →
        ∀ a ∈ (if req.isDefault = true then clearDefaults s userId now else s).addresses,
          a.userId = userId → a.isDefault = false) := by
    split_ifs with hq
    · refine ⟨?_, (OneDefault_clearDefaults hd userId now).1,
        fun _ => (OneDefault_clearDefaults hd userId now).2⟩
      unfold AddressIdsUnique
      rw [clearDefaults_ids]
      exact hu
    · exact ⟨hu, hd, fun h => absurd h hq⟩
  have key : ∀ s1 : Store, AddressIdsUnique s1 → OneDefault s1.addresses →
      (req.isDefault = true → ∀ a ∈ s1.addresses, a.userId = userId → a.isDefault = false) →
      ∀ addr : Address, addr.id = newId → addr.userId = userId →
        addr.isDefault = req.isDefault →
      AddressIdsUnique (if s1.addresses.any (fun a => decide (a.id = newId)) = true then
          (({ status := 500, message := "Erro ao criar endereço", hasError := true } : Response),
            s1)
        else
          (({ status := 201, message := "Endereço criado com sucesso",
              address := some addr } : Response),
            { s1 with addresses := s1.addresses ++ [addr] })).2 ∧
      AtMostOneDefault (if s1.addresses.any (fun a => decide (a.id = newId)) = true then
          (({ status := 500, message := "Erro ao criar endereço", hasError := true } : Response),
            s1)
        else
          (({ status := 201, message := "Endereço criado com sucesso",
              address := some addr } : Response),
            { s1 with addresses := s1.addresses ++ [addr] })).2 := by
    intro s1 hu1 hd1 hclr addr hid huid hdef
    split_ifs with h4
    · exact ⟨hu1, hd1⟩
    · constructor
      · unfold AddressIdsUnique at hu1 ⊢
        simp only [List.map_append, List.map_cons, List.map_nil]
        rw [List.nodup_append]
        refine ⟨hu1, List.nodup_singleton _, ?_⟩
        intro x hx hb
        simp only [List.mem_singleton] at hb
        subst hb
        simp only [List.mem_map] at hx
        obtain ⟨c, hc, hcid⟩ := hx
        apply h4
        simp only [List.any_eq_true, decide_eq_true_eq]
        exact ⟨c, hc, hcid.trans hid⟩
      · intro a ha b hb hab hda hdb
        simp only [List.mem_append, List.mem_singleton] at ha hb
        rcases ha with ha | rfl
        · rcases hb with hb | rfl
          · exact hd1 a ha b hb hab hda hdb
          · have := hclr (hdef ▸ hdb) a ha (hab.trans huid)
            rw [this] at hda
            cases hda
        · rcases hb with hb | rfl
          · have := hclr (hdef ▸ hda) b hb (hab.symm.trans huid)
            rw [this] at hdb
            cases hdb
          · rfl
  unfold CreateAddress
  by_cases h2 : userId = ""
  · rw [if_pos h2]; exact ⟨hu, hd⟩
  · rw [if_neg h2]
    by_cases h3 : req.cep = "" ∨ req.logradouro = "" ∨ req.numero = "" ∨ req.bairro = "" ∨
        req.cidade = "" ∨ req.estado = ""
    · rw [if_pos h3]; exact ⟨hu, hd⟩
    · rw [if_neg h3]
      exact key _ h1.1 h1.2.1 h1.2.2 _ rfl rfl rfl

/-- `UpdateAddress` keeps unique ids and at most one default address per user. -/
theorem UpdateAddress_inv {s : Store} (hu : AddressIdsUnique s) (hd : AtMostOneDefault s)
    (userId id : String) (req : AddressRequest) (now : Int) :
    AddressIdsUnique (UpdateAddress s userId id req now).2 ∧
    AtMostOneDefault (UpdateAddress s userId id req now).2 := by
  unfold UpdateAddress
  by_cases h1 : userId = ""
  · rw [if_pos h1]; exact ⟨hu, hd⟩
  · rw [if_neg h1]
    by_cases h2 : addressOfUser s id userId = false
    · rw [if_pos h2]; exact ⟨hu, hd⟩
    · rw [if_neg h2]
      have hex : addressOfUser s id userId = true := by
        cases h : addressOfUser s id userId with
        | true => rfl
        | false => exact absurd h h2
      constructor
      · show ((updateAddressRows (if req.isDefault = true then clearOtherDefaults s userId id now
            else s) id (addressUpdated req now)).addresses.map (fun a => a.id)).Nodup
        rw [updateAddressRows_ids _ _ (addressUpdated req now) (fun _ => rfl)]
        split_ifs
        · rw [clearOtherDefaults_ids]; exact hu
        · exact hu
      · exact OneDefault_set hu hd hex req.isDefault (addressUpdated req now) (fun _ => rfl)
          (fun _ => rfl) (fun a h => h) now

/-- `SetDefaultAddress` keeps unique ids and at most one default address per user. -/
theorem SetDefaultAddress_inv {s : Store} (hu : AddressIdsUnique s) (hd : AtMostOneDefault s)
    (userId id : String) (now : Int) :
    AddressIdsUnique (SetDefaultAddress s userId id now).2 ∧
    AtMostOneDefault (SetDefaultAddress s userId id now).2 := by
  unfold SetDefaultAddress
  by_cases h1 : userId = ""
  · rw [if_pos h1]; exact ⟨hu, hd⟩
  · rw [if_neg h1]
    by_cases h2 : addressOfUser s id userId = false
    · rw [if_pos h2]; exact ⟨hu, hd⟩
    · rw [if_neg h2]
      have hex : addressOfUser s id userId = true := by
        cases h : addressOfUser s id userId with
        | true => rfl
        | false => exact absurd h h2
      constructor
      · show ((updateAddressRows (clearOtherDefaults s userId id now) id
            (madeDefault now)).addresses.map (fun a => a.id)).Nodup
        rw [updateAddressRows_ids _ _ (madeDefault now) (fun _ => rfl), clearOtherDefaults_ids]
        exact hu
      · have := OneDefault_set hu hd hex true (madeDefault now) (fun _ => rfl)
          (fun _ => rfl) (fun _ _ => rfl) now
        simpa using this
/-- The rows left after deleting address `id`. -/
theorem delete_rows {s : Store} (hu : AddressIdsUnique s) (hd : AtMostOneDefault s)
    {id userId : String} (hex : addressOfUser s id userId = true) :
    ((s.addresses.filter (fun a => !decide (a.id = id))).map (fun a => a.id)).Nodup ∧
    OneDefault (s.addresses.filter (fun a => !decide (a.id = id))) ∧
    (s.addresses.any (fun a => decide (a.id = id) && a.isDefault) = true →
      ∀ c ∈ s.addresses.filter (fun a => !decide (a.id = id)),
        c.userId = userId → c.isDefault = false) := by
  refine ⟨?_, ?_, ?_⟩
  · exact List.Nodup.sublist (List.Sublist.map _ (List.filter_sublist _)) hu
  · intro a ha b hb hab hda hdb
    exact hd a (List.mem_of_mem_filter ha) b (List.mem_of_mem_filter hb) hab hda hdb
  · intro hdef c hc hcu
    simp only [List.any_eq_true, Bool.and_eq_true, decide_eq_true_eq] at hdef
    obtain ⟨a0, ha0, hid0, hdef0⟩ := hdef
    have hown := address_owner hu hex a0 ha0 hid0
    simp only [List.mem_filter, Bool.not_eq_true', decide_eq_false_iff_not] at hc
    cases hcd : c.isDefault with
    | false => rfl
    | true =>
      have := hd c hc.1 a0 ha0 (hcu.trans hown.symm) hcd hdef0
      exact absurd (this.trans hid0) hc.2

/-- Promoting one address of a user who has no default address keeps the invariant. -/
theorem promote_rows {l : List Address} (hn : (l.map (fun a => a.id)).Nodup)
    (hd : OneDefault l) {userId : String}
    (hnone : ∀ c ∈ l, c.userId = userId → c.isDefault = false)
    {other : Address} (hmem : other ∈ l) (hou : other.userId = userId) (now : Int) :
    OneDefault (l.map (fun a => if a.id = other.id then madeDefault now a else a)) := by
  apply OneDefault_map
  · intro a; split <;> rfl
  · intro a; split <;> rfl
  · intro a ha b hb hab hda hdb
    by_cases h1 : a.id = other.id
    · by_cases h2 : b.id = other.id
      · exact h1.trans h2.symm
      · rw [if_neg h2] at hdb
        have hao : a = other := List.inj_on_of_nodup_map hn ha hmem h1
        have := hnone b hb (hab.symm.trans (hao ▸ hou))
        rw [this] at hdb
        cases hdb
    · rw [if_neg h1] at hda
      by_cases h2 : b.id = other.id
      · have hbo : b = other := List.inj_on_of_nodup_map hn hb hmem h2
        have := hnone a ha (hab.trans (hbo ▸ hou))
        rw [this] at hda
        cases hda
      · rw [if_neg h2] at hdb
        exact hd a ha b hb hab hda hdb

/-- The store after a `DeleteAddress` that passes every check. -/
theorem DeleteAddress_ok (s : Store) (userId id : String) (now : Int)
    (hauth : userId ≠ "") (hex : addressOfUser s id userId = true)
    (hno : s.orders.any (fun o => decide (o.addressId = some id)) = false) :
    (DeleteAddress s userId id false now).1.status = 200 ∧
    (DeleteAddress s userId id false now).2.addresses =
      if s.addresses.any (fun a => decide (a.id = id) && a.isDefault) = true then
        match (s.addresses.filter (fun a => !decide (a.id = id))).find?
            (fun a => decide (a.userId = userId)) with
        | some otherAddr => (s.addresses.filter (fun a => !decide (a.id = id))).map
            (fun a => if a.id = otherAddr.id then madeDefault now a else a)
        | none => s.addresses.filter (fun a => !decide (a.id = id))
      else s.addresses.filter (fun a => !decide (a.id = id)) := by
  unfold DeleteAddress
  rw [if_neg hauth, if_neg (by rw [hex]; decide)]
  dsimp only
  rw [if_neg (by decide), if_neg (by rw [hno]; decide)]
  split_ifs with h
  · cases hf : (s.addresses.filter (fun a => !decide (a.id = id))).find?
        (fun a => decide (a.userId = userId)) <;> exact ⟨rfl, rfl⟩
  · exact ⟨rfl, rfl⟩

/-- `DeleteAddress` keeps unique ids and at most one default address per user. -/
theorem DeleteAddress_inv {s : Store} (hu : AddressIdsUnique s) (hd : AtMostOneDefault s)
    (userId id : String) (cartExists : Bool) (now : Int) :
    AddressIdsUnique (DeleteAddress s userId id cartExists now).2 ∧
    AtMostOneDefault (DeleteAddress s userId id cartExists now).2 := by
  unfold DeleteAddress
  by_cases h1 : userId = ""
  · rw [if_pos h1]; exact ⟨hu, hd⟩
  · rw [if_neg h1]
    by_cases h2 : addressOfUser s id userId = false
    · rw [if_pos h2]; exact ⟨hu, hd⟩
    · rw [if_neg h2]
      have hex : addressOfUser s id userId = true := by
        cases h : addressOfUser s id userId with
        | true => rfl
        | false => exact absurd h h2
      obtain ⟨hn1, hd1, hnone⟩ := delete_rows hu hd hex
      dsimp only
      by_cases h3 : cartExists = true
      · rw [if_pos h3]; exact ⟨hu, hd⟩
      · rw [if_neg h3]
        by_cases h4 : s.orders.any (fun o => decide (o.addressId = some id)) = true
        · rw [if_pos h4]; exact ⟨hu, hd⟩
        · rw [if_neg h4]
          by_cases h5 : s.addresses.any (fun a => decide (a.id = id) && a.isDefault) = true
          · rw [if_pos h5]
            split
            · rename_i otherAddr hfind
              have hmem := List.mem_of_find?_eq_some hfind
              have hou : otherAddr.userId = userId := by
                simpa using List.find?_some hfind
              constructor
              · show ((updateAddressRows _ otherAddr.id (madeDefault now)).addresses.map
                  (fun a => a.id)).Nodup
                rw [updateAddressRows_ids _ _ (madeDefault now) (fun _ => rfl)]
                exact hn1
              · exact promote_rows hn1 hd1 (hnone h5) hmem hou now
            · exact ⟨hn1, hd1⟩
          · rw [if_neg h5]
            exact ⟨hn1, hd1⟩
/-- Every address call keeps unique ids and at most one default address per user. -/
theorem runAddressCall_inv {s : Store} (hu : AddressIdsUnique s) (hd : AtMostOneDefault s)
    (c : AddressCall) :
    AddressIdsUnique (runAddressCall s c) ∧ AtMostOneDefault (runAddressCall s c) := by
  cases c with
  | createAddress userId req newId now => exact CreateAddress_inv hu hd userId req newId now
  | updateAddress userId id req now => exact UpdateAddress_inv hu hd userId id req now
  | setDefaultAddress userId id now => exact SetDefaultAddress_inv hu hd userId id now
  | deleteAddress userId id cartExists now =>
    exact DeleteAddress_inv hu hd userId id cartExists now

theorem runAddressCalls_inv (calls : List AddressCall) :
    ∀ s : Store, AddressIdsUnique s → AtMostOneDefault s →
      AddressIdsUnique (runAddressCalls s calls) ∧ AtMostOneDefault (runAddressCalls s calls) := by
  induction calls with
  | nil => intro s hu hd; exact ⟨hu, hd⟩
  | cons c cs ih =>
    intro s hu hd
    have h := runAddressCall_inv hu hd c
    exact ih (runAddressCall s c) h.1 h.2

/-- The rows `SetDefaultAddress` leaves when it succeeds. -/
theorem SetDefaultAddress_ok {s : Store} {userId id : String} {now : Int}
    (h : (SetDefaultAddress s userId id now).1.status = 200) :
    userId ≠ "" ∧ addressOfUser s id userId = true ∧
    (SetDefaultAddress s userId id now).2.addresses = s.addresses.map (fun a =>
      if a.id = id then madeDefault now a
      else if a.userId = userId ∧ a.isDefault = true then
        { a with isDefault := false, updatedAt := now } else a) := by
  unfold SetDefaultAddress at h ⊢
  by_cases h1 : userId = ""
  · rw [if_pos h1] at h; simp at h
  · rw [if_neg h1] at h ⊢
    by_cases h2 : addressOfUser s id userId = false
    · rw [if_pos h2] at h; simp at h
    · rw [if_neg h2]
      refine ⟨h1, by simpa using h2, ?_⟩
      show (updateAddressRows (clearOtherDefaults s userId id now) id
        (madeDefault now)).addresses = _
      unfold updateAddressRows clearOtherDefaults
      simp only [List.map_map]
      apply List.map_congr_left
      intro a _
      simp only [Function.comp]
      by_cases hid : a.id = id
      · have hc : ¬ (a.userId = userId ∧ a.isDefault = true ∧ a.id ≠ id) :=
          fun h3 => h3.2.2 hid
        rw [if_neg hc, if_pos hid, if_pos hid]
      · by_cases hc : a.userId = userId ∧ a.isDefault = true
        · rw [if_pos (show a.userId = userId ∧ a.isDefault = true ∧ a.id ≠ id from
            ⟨hc.1, hc.2, hid⟩), if_neg hid, if_pos hc]
          exact (if_neg hid).symm
        · rw [if_neg (show ¬ (a.userId = userId ∧ a.isDefault = true ∧ a.id ≠ id) from
            fun h3 => hc ⟨h3.1, h3.2.1⟩), if_neg hid, if_neg hid, if_neg hc]

/-- `CreateOrder` once the caller, the request, the cart and its line items passed the
checks: the outcome is decided by the save of the order. -/
theorem CreateOrder_past_checks {s : Store} {userId : String} {req : OrderRequest}
    (orderId : String) (itemId : Nat → String) (now : Int) {c : Cart}
    (hauth : userId ≠ "") (hreq : RequestOk s userId req)
    (hc : findCartByUser s userId = some c) (hne : cartItemsOf s c.id ≠ []) :
    CreateOrder s userId req orderId itemId now =
      match saveOrder s (orderOf c userId req orderId now) with
      | none => ({ status := 500, message := "Erro ao criar pedido", hasError := true }, s)
      | some s1 =>
        ({ status := 201, message := "Pedido criado com sucesso",
           order := some (orderOf c userId req orderId now) },
          finishCheckout s1 c (cartItemsOf s c.id) orderId itemId now) := by
  obtain ⟨h1, h2, h3, h4⟩ := hreq
  unfold CreateOrder
  rw [if_neg hauth, if_neg (fun h => h1.elim h.1 h.2), if_neg (fun h => h2 h),
    if_neg (fun h => h3 h), if_neg (fun h => (h4 h.1).1 h.2),
    if_neg (fun h => by rw [(h4 h.1).2] at h; exact absurd h.2 (by decide))]
  simp only [hc]
  rw [if_neg (fun h => hne (List.length_eq_zero.mp h))]

/-- The checks of `CreateOrder` answer 400 or 404 exactly when the request, the cart or
its line items are missing what the checkout needs. -/
theorem CreateOrder_rejects_iff (s : Store) (userId : String) (req : OrderRequest)
    (orderId : String) (itemId : Nat → String) (now : Int) (hauth : userId ≠ "") :
    ((CreateOrder s userId req orderId itemId now).1.status = 400 ∨
      (CreateOrder s userId req orderId itemId now).1.status = 404) ↔
    (¬ RequestOk s userId req ∨ findCartByUser s userId = none ∨
      ∃ c, findCartByUser s userId = some c ∧ cartItemsOf s c.id = []) := by
  by_cases hreq : RequestOk s userId req
  · cases hc : findCartByUser s userId with
    | none =>
      have : (CreateOrder s userId req orderId itemId now).1.status = 404 := by
        obtain ⟨h1, h2, h3, h4⟩ := hreq
        unfold CreateOrder
        rw [if_neg hauth, if_neg (fun h => h1.elim h.1 h.2), if_neg (fun h => h2 h),
          if_neg (fun h => h3 h), if_neg (fun h => (h4 h.1).1 h.2),
          if_neg (fun h => by rw [(h4 h.1).2] at h; exact absurd h.2 (by decide))]
        simp only [hc]
      exact ⟨fun _ => Or.inr (Or.inl rfl), fun _ => Or.inr this⟩
    | some c =>
      by_cases hne : cartItemsOf s c.id = []
      · have : (CreateOrder s userId req orderId itemId now).1.status = 400 := by
          obtain ⟨h1, h2, h3, h4⟩ := hreq
          unfold CreateOrder
          rw [if_neg hauth, if_neg (fun h => h1.elim h.1 h.2), if_neg (fun h => h2 h),
            if_neg (fun h => h3 h), if_neg (fun h => (h4 h.1).1 h.2),
            if_neg (fun h => by rw [(h4 h.1).2] at h; exact absurd h.2 (by decide))]
          simp only [hc]
          rw [if_pos (by rw [hne]; rfl)]
        exact ⟨fun _ => Or.inr (Or.inr ⟨c, rfl, hne⟩), fun _ => Or.inl this⟩
      · rw [CreateOrder_past_checks orderId itemId now hauth hreq hc hne]
        constructor
        · intro h
          cases hsv : saveOrder s (orderOf c userId req orderId now) with
          | none => rw [hsv] at h; simp at h
          | some s1 => rw [hsv] at h; simp at h
        · rintro (h | h | ⟨c2, h2, h3⟩)
          · exact absurd hreq h
          · cases h
          · cases h2; exact absurd h3 hne
  · have : (CreateOrder s userId req orderId itemId now).1.status = 400 ∨
        (CreateOrder s userId req orderId itemId now).1.status = 404 := by
      unfold CreateOrder
      rw [if_neg hauth]
      split_ifs with h2 h3 h4 h5 h6
      · exact Or.inl rfl
      · exact Or.inl rfl
      · exact Or.inl rfl
      · exact Or.inl rfl
      · exact Or.inr rfl
      · exfalso
        apply hreq
        refine ⟨?_, h3, h4, ?_⟩
        · by_contra hn
          push_neg at hn
          exact h2 hn
        · intro hd
          refine ⟨fun he => h5 ⟨hd, he⟩, ?_⟩
          cases hany : s.addresses.any
              (fun a => decide (a.id = req.addressId) && decide (a.userId = userId)) with
          | true => rfl
          | false => exact absurd ⟨hd, hany⟩ h6
    exact ⟨fun _ => Or.inl hreq, fun _ => this⟩
/-- `ApplyCoupon` when every check passes: the answer and the store it leaves. -/
theorem ApplyCoupon_accepts {s : Store} {userId : String} {req : CartCouponRequest}
    (now : Int) {k : Coupon} {c : Cart} (hauth : userId ≠ "") (hcode : req.code ≠ "")
    (hk : findActiveCoupon s req.code = some k)
    (hexp : k.expiresAt.any (fun t => decide (t < now)) = false)
    (hmax : k.maxUses.any (fun m => decide (m ≤ k.timesUsed)) = false)
    (hc : findCartByUser s userId = some c) (hmin : ¬ c.subtotal < k.minPurchase) :
    ApplyCoupon s userId req now =
      ({ status := 200, message := "Cupom aplicado com sucesso",
         cart := some (couponApplied c k req.code now c) },
        updateCouponRows (updateCartRows s c.id (couponApplied c k req.code now)) k.id
          (fun r => { r with timesUsed := wrapInt (k.timesUsed + 1), updatedAt := now })) := by
  unfold ApplyCoupon
  rw [if_neg hauth, if_neg hcode]
  simp only [hk]
  rw [if_neg (by rw [hexp]; decide), if_neg (by rw [hmax]; decide)]
  simp only [hc]
  rw [if_neg hmin]

/-- A row that is found and is not selected for the rewrite is still the row found. -/
theorem find_map_keep {α : Type} (l : List α) (p : α → Bool) (g : α → α)
    (hg : ∀ a, p (g a) = p a) (sel : α → Prop) [DecidablePred sel] (a0 : α)
    (h : l.find? p = some a0) (hsel : ¬ sel a0) :
    (l.map (fun a => if sel a then g a else a)).find? p = some a0 := by
  have h1 := find_map_rewrite l p (fun a => if sel a then g a else a)
    (fun a => by dsimp only; split; exact hg a; rfl) (fun _ => True) a0 h trivial
  simp only [if_true, if_neg hsel] at h1
  exact h1

/-- `ApplyCoupon` either leaves the store as it was or answers 200. -/
theorem ApplyCoupon_same_or_ok (s : Store) (userId : String) (req : CartCouponRequest)
    (now : Int) :
    (ApplyCoupon s userId req now).2 = s ∨ (ApplyCoupon s userId req now).1.status = 200 := by
  unfold ApplyCoupon
  split
  · exact Or.inl rfl
  · split
    · exact Or.inl rfl
    · split
      · exact Or.inl rfl
      · split
        · exact Or.inl rfl
        · split
          · exact Or.inl rfl
          · split
            · exact Or.inl rfl
            · split
              · exact Or.inl rfl
              · exact Or.inr rfl

theorem couponDiscount_samePricing {a b : Coupon} (h : SamePricing a b) (base : ℚ) :
    couponDiscount a base = couponDiscount b base := by
  unfold couponDiscount
  rw [h.2.1, h.2.2]

/-- The lookup by code on two coupon lists that agree row by row on the pricing fields. -/
theorem find_code_samePricing {l1 l2 : List Coupon} (h : List.Forall₂ SamePricing l1 l2)
    (code : String) :
    (l1.find? (fun k => decide (k.code = code)) = none ∧
      l2.find? (fun k => decide (k.code = code)) = none) ∨
    ∃ a b, l1.find? (fun k => decide (k.code = code)) = some a ∧
      l2.find? (fun k => decide (k.code = code)) = some b ∧ SamePricing a b := by
  induction h with
  | nil => exact Or.inl ⟨rfl, rfl⟩
  | @cons a b l1 l2 hab _ ih =>
    by_cases hc : a.code = code
    · right
      have hcb : b.code = code := hab.1.symm.trans hc
      exact ⟨a, b, by simp [List.find?_cons, hc], by simp [List.find?_cons, hcb], hab⟩
    · have hcb : ¬ b.code = code := fun h2 => hc (hab.1.trans h2)
      rw [List.find?_cons_of_neg _ (by simpa using hc),
        List.find?_cons_of_neg _ (by simpa using hcb)]
      exact ih

/-- The fields `updateCartTotals` computes are the same on two stores with the same
line items whose coupons agree on the pricing fields. -/
theorem recomputed_samePricing {s t : Store} (hitems : t.cartItems = s.cartItems)
    (hcoupons : List.Forall₂ SamePricing s.coupons t.coupons) (c : Cart) (now : Int) :
    recomputed t c now = recomputed s c now := by
  have hco : cartItemsOf t c.id = cartItemsOf s c.id := by
    unfold cartItemsOf
    rw [hitems]
  unfold recomputed findCouponByCode
  rw [hco]
  rcases find_code_samePricing hcoupons c.couponCode with ⟨h1, h2⟩ | ⟨a, b, h1, h2, hab⟩
  · simp only [h1, h2]
  · simp only [h1, h2, couponDiscount_samePricing hab]

/-- What `ValidateCoupon` checked when it reports the coupon as valid. -/
theorem ValidateCoupon_valid {s : Store} {req : ValidateRequest} {now : Int}
    (h : (ValidateCoupon s req now).valid = some true) :
    req.code ≠ "" ∧ ∃ k, findActiveCoupon s req.code = some k ∧
      k.expiresAt.any (fun t => decide (t < now)) = false ∧
      k.maxUses.any (fun m => decide (m ≤ k.timesUsed)) = false ∧
      ¬ req.cartTotal < k.minPurchase ∧
      (ValidateCoupon s req now).discount = some (couponDiscount k req.cartTotal) := by
  unfold ValidateCoupon at h ⊢
  by_cases h1 : req.code = ""
  · rw [if_pos h1] at h
    simp at h
  · rw [if_neg h1] at h ⊢
    refine ⟨h1, ?_⟩
    cases hk : findActiveCoupon s req.code with
    | none =>
      rw [hk] at h
      simp at h
    | some k =>
      rw [hk] at h
      simp only at h ⊢
      by_cases h2 : k.expiresAt.any (fun t => decide (t < now)) = true
      · rw [if_pos h2] at h
        simp at h
      · rw [if_neg h2] at h ⊢
        by_cases h3 : k.maxUses.any (fun m => decide (k.timesUsed ≥ m)) = true
        · rw [if_pos h3] at h
          simp at h
        · rw [if_neg h3] at h ⊢
          by_cases h4 : req.cartTotal < k.minPurchase
          · rw [if_pos h4] at h
            simp at h
          · rw [if_neg h4]
            refine ⟨k, rfl, ?_, ?_, h4, rfl⟩
            · simpa using h2
            · simpa using h3

/-- Evaluation of `roundF64` on a non-negative value from its scaled numerator and
denominator. -/
theorem roundF64_eq (x : ℚ) (a b n d m : ℕ) (e : ℤ) (hx : ¬ x < 0)
    (ha : x.num.natAbs = a) (hb : x.den = b) (hs : f64Scale 2200 a b 0 = (n, d, e))
    (hm : f64Nearest n d = m) : roundF64 x = (m : ℚ) * (2 : ℚ) ^ e := by
  unfold roundF64
  rw [ha, hb, hs]
  simp only [hx, if_false, hm, one_mul]

theorem roundF64_one : roundF64 1 = 1 := by
  rw [roundF64_eq 1 1 1 4503599627370496 1 4503599627370496 (-52) (by norm_num)
    (by norm_num) (by norm_num) (by decide) (by decide)]
  norm_num

theorem roundF64_three : roundF64 3 = 3 := by
  rw [roundF64_eq 3 3 1 6755399441055744 1 6755399441055744 (-51) (by norm_num)
    (by norm_num) (by norm_num) (by decide) (by decide)]
  norm_num

/-- The `float64` nearest to `10 / 100` is `3602879701896397 / 2^55`. -/
theorem roundF64_tenth : roundF64 (10 / 100) = 3602879701896397 / 36028797018963968 := by
  rw [roundF64_eq (10 / 100) 1 10 72057594037927936 10 7205759403792794 (-56) (by norm_num)
    (by norm_num) (by norm_num) (by decide) (by decide)]
  norm_num

/-- The product `3 * 0.1` lies halfway between two `float64` values and is rounded to
the even one, `1351079888211149 / 2^52`, printed `0.30000000000000004`. -/
theorem roundF64_three_tenths :
    roundF64 (3 * (3602879701896397 / 36028797018963968))
      = 1351079888211149 / 4503599627370496 := by
  rw [roundF64_eq _ 10808639105689191 36028797018963968 194711132195056046878532718034944
    36028797018963968 5404319552844596 (-54) (by norm_num) (by norm_num) (by norm_num)
    (by decide) (by decide)]
  norm_num

/-- The `float64` discount of the 10 percent coupon on a base of 3. -/
theorem couponDiscountWith_ten_three :
    couponDiscountWith roundF64 couponTen 3 = 1351079888211149 / 4503599627370496 := by
  unfold couponDiscountWith
  rw [if_pos (by decide)]
  show roundF64 (3 * roundF64 (10 / 100)) = _
  rw [roundF64_tenth, roundF64_three_tenths]

theorem subtotalOfWith_id (items : List CartItem) :
    subtotalOfWith (fun x => x) items = subtotalOf items := rfl

theorem couponDiscountWith_id (k : Coupon) (base : ℚ) :
    couponDiscountWith (fun x => x) k base = couponDiscount k base := rfl

theorem recomputedWith_id (s : Store) (cartObj : Cart) (now : Int) :
    recomputedWith (fun x => x) s cartObj now = recomputed s cartObj now := rfl

theorem updateCartTotalsWith_id (s : Store) (cartId : String) (now : Int) :
    updateCartTotalsWith (fun x => x) s cartId now = updateCartTotals s cartId now := rfl

/-- With exact arithmetic `UpdateCartItemWith` is `UpdateCartItem`. -/
theorem UpdateCartItemWith_id (s : Store) (userId itemId : String) (req : CartItemRequest)
    (now : Int) :
    UpdateCartItemWith (fun x => x) s userId itemId req now
      = UpdateCartItem s userId itemId req now := rfl

/-- With exact arithmetic `ValidateCouponWith` is `ValidateCoupon`. -/
theorem ValidateCouponWith_id (s : Store) (req : ValidateRequest) (now : Int) :
    ValidateCouponWith (fun x => x) s req now = ValidateCoupon s req now := rfl
/-- With exact arithmetic `AddToCartWith` is `AddToCart`. -/
theorem AddToCartWith_id (s : Store) (userId : String) (req : CartItemRequest)
    (newCartId newItemId : String) (now : Int) :
    AddToCartWith (fun x => x) s userId req newCartId newItemId now
      = AddToCart s userId req newCartId newItemId now := rfl

/-- With exact arithmetic `RemoveCartItemWith` is `RemoveCartItem`. -/
theorem RemoveCartItemWith_id (s : Store) (userId itemId : String) (now : Int) :
    RemoveCartItemWith (fun x => x) s userId itemId now = RemoveCartItem s userId itemId now :=
  rfl

theorem AddToCartWith_created {fl : ℚ → ℚ} {s s' : Store} {userId newCartId newItemId : String}
    {req : CartItemRequest} {now : Int} {r : Response}
    (h : AddToCartWith fl s userId req newCartId newItemId now = (r, s'))
    (hs : r.status = 201) :
    ∃ prod cartObj s1 item s2 c', getProduct s req.productId = some prod ∧
      getOrCreateCart s userId newCartId now = some (cartObj, s1) ∧
      saveCartItem s1 cartObj prod req newItemId now = some (item, s2) ∧
      updateCartTotalsWith fl s2 cartObj.id now = some (c', s') ∧ r.cart = some c' := by
  unfold AddToCartWith at h
  split_ifs at h with h1 h2
  · cases h; simp at hs
  · cases h; simp at hs
  · split at h
    · cases h; simp at hs
    · rename_i prod hp
      split at h
      · cases h; simp at hs
      · rename_i cartObj s1 hc
        split at h
        · cases h; simp at hs
        · rename_i item s2 hi
          split at h
          · cases h; simp at hs
          · rename_i c' s3 hu
            cases h
            exact ⟨prod, cartObj, s1, item, s2, c', hp, hc, hi, hu, rfl⟩

theorem UpdateCartItemWith_ok {fl : ℚ → ℚ} {s s' : Store} {userId itemId : String}
    {req : CartItemRequest} {now : Int} {r : Response}
    (h : UpdateCartItemWith fl s userId itemId req now = (r, s')) (hs : r.status = 200) :
    ∃ cartObj item c', findCartByUser s userId = some cartObj ∧
      s.cartItems.find? (fun i => decide (i.id = itemId) && decide (i.cartId = cartObj.id))
        = some item ∧
      updateCartTotalsWith fl (updateCartItemRows s item.id
        (fun r => { r with quantity := req.quantity, updatedAt := now })) cartObj.id now
        = some (c', s') ∧ r.cart = some c' := by
  unfold UpdateCartItemWith at h
  split_ifs at h with h1 h2
  · cases h; simp at hs
  · cases h; simp at hs
  · split at h
    · cases h; simp at hs
    · rename_i cartObj hc
      split at h
      · cases h; simp at hs
      · rename_i item hi
        dsimp only at h
        split at h
        · cases h; simp at hs
        · rename_i c' s2 hu
          cases h
          exact ⟨cartObj, item, c', hc, hi, hu, rfl⟩

theorem RemoveCartItemWith_ok {fl : ℚ → ℚ} {s s' : Store} {userId itemId : String} {now : Int}
    {r : Response}
    (h : RemoveCartItemWith fl s userId itemId now = (r, s')) (hs : r.status = 200) :
    ∃ cartObj c', findCartByUser s userId = some cartObj ∧
      s.cartItems.any (fun i => decide (i.id = itemId) && decide (i.cartId = cartObj.id)) = true ∧
      updateCartTotalsWith fl (deleteCartItem s itemId) cartObj.id now = some (c', s') ∧
      r.cart = some c' := by
  unfold RemoveCartItemWith at h
  split_ifs at h with h1
  · cases h; simp at hs
  · split at h
    · cases h; simp at hs
    · rename_i cartObj hc
      split_ifs at h with h2
      · cases h; simp at hs
      · dsimp only at h
        split at h
        · cases h; simp at hs
        · rename_i c' s2 hu
          cases h
          exact ⟨cartObj, c', hc, by simpa using h2, hu, rfl⟩

/-- After `updateCartTotals` with rounding `fl` on the caller's cart, which carries the
coupon `k`, the stored subtotal and discount are the rounded subtotal loop and the
rounded coupon formula. -/
theorem recompute_with_coupon_fl (fl : ℚ → ℚ) (s2 : Store) {s' : Store} {u : String}
    {c0 c' : Cart} {k : Coupon} {now : Int} (hu : CartIdsUnique s2)
    (hc : findCartByUser s2 u = some c0) (ha : c0.appliedCoupon = true)
    (hcode : c0.couponCode ≠ "") (hk : findCouponByCode s2 c0.couponCode = some k)
    (ht : updateCartTotalsWith fl s2 c0.id now = some (c', s')) :
    DiscountFollowsWith fl k s' u := by
  have hg : getCart s2 c0.id = some c0 := getCart_of_unique hu (findCartByUser_some hc).1
  unfold updateCartTotalsWith at ht
  rw [hg] at ht
  simp only [Option.some.injEq, Prod.mk.injEq] at ht
  obtain ⟨_, hs'⟩ := ht
  have hfind : findCartByUser s' u = some (recomputedWith fl s2 c0 now c0) := by
    rw [← hs']
    exact findCartByUser_updateCartRows _ (fun _ => rfl) hc
  have hsub : (recomputedWith fl s2 c0 now c0).subtotal
      = subtotalOfWith fl (cartItemsOf s2 c0.id) := rfl
  have hd : (recomputedWith fl s2 c0 now c0).discount
      = couponDiscountWith fl k (subtotalOfWith fl (cartItemsOf s2 c0.id)) := by
    simp [recomputedWith, ha, hcode, hk]
  refine ⟨_, hfind, ?_, ?_, ?_⟩
  · rw [hsub]
    subst hs'
    rfl
  · intro hp
    rw [hd, hsub]
    unfold couponDiscountWith
    rw [if_pos hp]
  · intro hf
    rw [hd, hsub]
    unfold couponDiscountWith
    have hnp : ¬ k.discountType = "percentage" := by rw [hf]; decide
    rw [if_neg hnp]
    split_ifs with hgt
    · exact (min_eq_right (le_of_lt hgt)).symm
    · exact (min_eq_left (not_lt.mp hgt)).symm

/-- `ValidateCouponWith` differs from `ValidateCoupon` in the discount only, which is the
rounded coupon formula of the coupon it returns. -/
theorem ValidateCouponWith_fields (fl : ℚ → ℚ) (s : Store) (req : ValidateRequest)
    (now : Int) :
    (ValidateCouponWith fl s req now).status = (ValidateCoupon s req now).status ∧
    (ValidateCouponWith fl s req now).message = (ValidateCoupon s req now).message ∧
    (ValidateCouponWith fl s req now).valid = (ValidateCoupon s req now).valid ∧
    (ValidateCouponWith fl s req now).coupon = (ValidateCoupon s req now).coupon ∧
    (ValidateCouponWith fl s req now).discount = (ValidateCoupon s req now).coupon.map
      (fun k => couponDiscountWith fl k req.cartTotal) := by
  unfold ValidateCouponWith ValidateCoupon
  by_cases h1 : req.code = ""
  · rw [if_pos h1, if_pos h1]
    exact ⟨rfl, rfl, rfl, rfl, rfl⟩
  · rw [if_neg h1, if_neg h1]
    cases hk : findActiveCoupon s req.code with
    | none => exact ⟨rfl, rfl, rfl, rfl, rfl⟩
    | some k =>
      simp only
      by_cases h2 : k.expiresAt.any (fun t => decide (t < now)) = true
      · rw [if_pos h2, if_pos h2]
        exact ⟨rfl, rfl, rfl, rfl, rfl⟩
      · rw [if_neg h2, if_neg h2]
        by_cases h3 : k.maxUses.any (fun m => decide (k.timesUsed ≥ m)) = true
        · rw [if_pos h3, if_pos h3]
          exact ⟨rfl, rfl, rfl, rfl, rfl⟩
        · rw [if_neg h3, if_neg h3]
          by_cases h4 : req.cartTotal < k.minPurchase
          · rw [if_pos h4, if_pos h4]
            exact ⟨rfl, rfl, rfl, rfl, rfl⟩
          · rw [if_neg h4, if_neg h4]
            exact ⟨rfl, rfl, rfl, rfl, rfl⟩

/-! ## Properties of the specification -/

/-- C1. After a successful `AddToCart`, `UpdateCartItem` or `RemoveCartItem`, on any
store (a stale stored subtotal included), the caller's cart as stored has
`subtotal` equal to the sum of `price × quantity` over the line items that cart
holds after the operation. -/
theorem subtotal_after_item_mutation (s : Store) (userId : String) (now : Int) :
    (∀ req newCartId newItemId,
      (AddToCart s userId req newCartId newItemId now).1.status = 201 →
      ∃ c, findCartByUser (AddToCart s userId req newCartId newItemId now).2 userId = some c ∧
        c.subtotal = lineSum (cartItemsOf (AddToCart s userId req newCartId newItemId now).2 c.id)) ∧
    (∀ itemId req,
      (UpdateCartItem s userId itemId req now).1.status = 200 →
      ∃ c, findCartByUser (UpdateCartItem s userId itemId req now).2 userId = some c ∧
        c.subtotal = lineSum (cartItemsOf (UpdateCartItem s userId itemId req now).2 c.id)) ∧
    (∀ itemId,
      (RemoveCartItem s userId itemId now).1.status = 200 →
      ∃ c, findCartByUser (RemoveCartItem s userId itemId now).2 userId = some c ∧
        c.subtotal = lineSum (cartItemsOf (RemoveCartItem s userId itemId now).2 c.id)) := by
  refine ⟨?_, ?_, ?_⟩
  · intro req newCartId newItemId hs
    rcases hr : AddToCart s userId req newCartId newItemId now with ⟨r, s'⟩
    rw [hr] at hs
    simp only at hs ⊢
    obtain ⟨prod, cartObj, s1, item, s2, c', _, hc, hi, hu, _⟩ := AddToCart_created hr hs
    have hf : findCartByUser s2 userId = some cartObj := by
      rw [findCartByUser_congr (saveCartItem_some hi).1]
      exact (getOrCreateCart_some hc).1
    obtain ⟨co, _, hid, _, hs', hfind⟩ := updateCartTotals_stored hf hu
    refine ⟨_, hfind, ?_⟩
    rw [recomputed_subtotal, recomputed_id, hid]
    subst hs'
    rfl
  · intro itemId req hs
    rcases hr : UpdateCartItem s userId itemId req now with ⟨r, s'⟩
    rw [hr] at hs
    simp only at hs ⊢
    obtain ⟨cartObj, item, c', hc, _, hu, _⟩ := UpdateCartItem_ok hr hs
    have hf : findCartByUser (updateCartItemRows s item.id
        (fun r => { r with quantity := req.quantity, updatedAt := now })) userId
        = some cartObj := hc
    obtain ⟨co, _, hid, _, hs', hfind⟩ := updateCartTotals_stored hf hu
    refine ⟨_, hfind, ?_⟩
    rw [recomputed_subtotal, recomputed_id, hid]
    subst hs'
    rfl
  · intro itemId hs
    rcases hr : RemoveCartItem s userId itemId now with ⟨r, s'⟩
    rw [hr] at hs
    simp only at hs ⊢
    obtain ⟨cartObj, c', hc, _, hu, _⟩ := RemoveCartItem_ok hr hs
    have hf : findCartByUser (deleteCartItem s itemId) userId = some cartObj := hc
    obtain ⟨co, _, hid, _, hs', hfind⟩ := updateCartTotals_stored hf hu
    refine ⟨_, hfind, ?_⟩
    rw [recomputed_subtotal, recomputed_id, hid]
    subst hs'
    rfl

/-- Witness for C1: removing the quantity-1 item from a cart whose stored subtotal is
stale (999) leaves the stored subtotal equal to the sum over the remaining item. -/
theorem subtotal_after_item_mutation_witness :
    (RemoveCartItem storeStale "u1" "i2" 7).1.status = 200 ∧
    ∃ c, findCartByUser (RemoveCartItem storeStale "u1" "i2" 7).2 "u1" = some c ∧
      c.subtotal = lineSum (cartItemsOf (RemoveCartItem storeStale "u1" "i2" 7).2 c.id) :=
  ⟨by decide, (subtotal_after_item_mutation storeStale "u1" 7).2.2 "i2" (by decide)⟩

/-- C2. The cart reset of `CreateOrder` breaks the pricing rule on a cart with shipping:
on the store whose cart has subtotal 25, shipping 5 and total 30, a successful checkout
stores subtotal 0, discount 0 and total 0 and keeps shipping 5, so the stored cart has
`total ≠ subtotal - discount + shipping` although `shipping > 0`. `ClearCart`, the other
handler that resets the cart, stores total 5 on the same store and keeps the rule. -/
theorem createOrder_reset_breaks_total_rule :
    (CreateOrder storeShipping "u1" reqPickup "o1" sampleItemIds 7).1.status = 201 ∧
    (∃ c, findCartByUser (CreateOrder storeShipping "u1" reqPickup "o1" sampleItemIds 7).2 "u1"
        = some c ∧ c.shipping = 5 ∧ c.subtotal = 0 ∧ c.discount = 0 ∧ c.total = 0 ∧
        ¬ TotalRule c) ∧
    (ClearCart storeShipping "u1" 7).1.status = 200 ∧
    (∃ c, findCartByUser (ClearCart storeShipping "u1" 7).2 "u1" = some c ∧
        c.shipping = 5 ∧ c.subtotal = 0 ∧ c.discount = 0 ∧ c.total = 5 ∧ TotalRule c) := by
  refine ⟨by decide, ⟨cartReset 7 cartShipping, by decide, rfl, rfl, rfl, rfl, ?_⟩, by decide,
    ⟨cartCleared cartShipping 7 cartShipping, by decide, rfl, rfl, rfl, rfl, ?_⟩⟩
  · norm_num [TotalRule, cartReset, cartShipping]
  · norm_num [TotalRule, cartCleared, cartShipping]

/-- The pricing rule after the handlers that write the cart, on a store with unique cart
ids: after a successful `AddToCart`, `UpdateCartItem` or `RemoveCartItem` the caller's
stored cart has `total = subtotal - discount + shipping` when `shipping > 0` and
`total = subtotal - discount` otherwise; after a successful `ApplyCoupon`,
`RemoveCoupon` or `ClearCart` it has `total = subtotal - discount + shipping`, which is
the rule whenever `shipping ≥ 0`; the cart reset of a successful `CreateOrder` stores
subtotal, discount and total 0 and leaves shipping as it was, which is the rule only
when `shipping ≤ 0`. -/
theorem total_rule_cart_writers (s : Store) (hu : CartIdsUnique s) (userId : String) (now : Int) :
    (∀ req newCartId newItemId,
      (AddToCart s userId req newCartId newItemId now).1.status = 201 →
      ∃ c, findCartByUser (AddToCart s userId req newCartId newItemId now).2 userId = some c ∧
        TotalRule c) ∧
    (∀ itemId req,
      (UpdateCartItem s userId itemId req now).1.status = 200 →
      ∃ c, findCartByUser (UpdateCartItem s userId itemId req now).2 userId = some c ∧
        TotalRule c) ∧
    (∀ itemId,
      (RemoveCartItem s userId itemId now).1.status = 200 →
      ∃ c, findCartByUser (RemoveCartItem s userId itemId now).2 userId = some c ∧
        TotalRule c) ∧
    (∀ req,
      (ApplyCoupon s userId req now).1.status = 200 →
      ∃ c, findCartByUser (ApplyCoupon s userId req now).2 userId = some c ∧
        c.total = c.subtotal - c.discount + c.shipping ∧ (0 ≤ c.shipping → TotalRule c)) ∧
    ((RemoveCoupon s userId now).1.status = 200 →
      ∃ c, findCartByUser (RemoveCoupon s userId now).2 userId = some c ∧
        c.total = c.subtotal - c.discount + c.shipping ∧ (0 ≤ c.shipping → TotalRule c)) ∧
    ((ClearCart s userId now).1.status = 200 →
      ∃ c, findCartByUser (ClearCart s userId now).2 userId = some c ∧
        c.total = c.subtotal - c.discount + c.shipping ∧ (0 ≤ c.shipping → TotalRule c)) ∧
    (∀ req orderId itemId,
      (CreateOrder s userId req orderId itemId now).1.status = 201 →
      ∃ c0 c, findCartByUser s userId = some c0 ∧
        findCartByUser (CreateOrder s userId req orderId itemId now).2 userId = some c ∧
        c.subtotal = 0 ∧ c.discount = 0 ∧ c.total = 0 ∧ c.shipping = c0.shipping ∧
        (TotalRule c ↔ c.shipping ≤ 0)) := by
  have plus : ∀ c : Cart, c.total = c.subtotal - c.discount + c.shipping →
      0 ≤ c.shipping → TotalRule c := by
    intro c h h0
    unfold TotalRule
    split_ifs with hp
    · exact h
    · have : c.shipping = 0 := le_antisymm (not_lt.mp hp) h0
      rw [h, this, add_zero]
  refine ⟨?_, ?_, ?_, ?_, ?_, ?_, ?_⟩
  · intro req newCartId newItemId hs
    rcases hr : AddToCart s userId req newCartId newItemId now with ⟨r, s'⟩
    rw [hr] at hs
    simp only at hs ⊢
    obtain ⟨prod, cartObj, s1, item, s2, c', _, hc, hi, hut, _⟩ := AddToCart_created hr hs
    have hf : findCartByUser s2 userId = some cartObj := by
      rw [findCartByUser_congr (saveCartItem_some hi).1]
      exact (getOrCreateCart_some hc).1
    have hu2 : CartIdsUnique s2 :=
      CartIdsUnique_congr (saveCartItem_some hi).1 (getOrCreateCart_unique hu hc)
    obtain ⟨_, _, hfind⟩ := updateCartTotals_stored_unique hu2 hf hut
    exact ⟨_, hfind, TotalRule_recomputed _ _ _⟩
  · intro itemId req hs
    rcases hr : UpdateCartItem s userId itemId req now with ⟨r, s'⟩
    rw [hr] at hs
    simp only at hs ⊢
    obtain ⟨cartObj, item, c', hc, _, hut, _⟩ := UpdateCartItem_ok hr hs
    have hf : findCartByUser (updateCartItemRows s item.id
        (fun r => { r with quantity := req.quantity, updatedAt := now })) userId
        = some cartObj := hc
    have hu2 : CartIdsUnique (updateCartItemRows s item.id
        (fun r => { r with quantity := req.quantity, updatedAt := now })) := hu
    obtain ⟨_, _, hfind⟩ := updateCartTotals_stored_unique hu2 hf hut
    exact ⟨_, hfind, TotalRule_recomputed _ _ _⟩
  · intro itemId hs
    rcases hr : RemoveCartItem s userId itemId now with ⟨r, s'⟩
    rw [hr] at hs
    simp only at hs ⊢
    obtain ⟨cartObj, c', hc, _, hut, _⟩ := RemoveCartItem_ok hr hs
    have hf : findCartByUser (deleteCartItem s itemId) userId = some cartObj := hc
    have hu2 : CartIdsUnique (deleteCartItem s itemId) := hu
    obtain ⟨_, _, hfind⟩ := updateCartTotals_stored_unique hu2 hf hut
    exact ⟨_, hfind, TotalRule_recomputed _ _ _⟩
  · intro req hs
    rcases hr : ApplyCoupon s userId req now with ⟨r, s'⟩
    rw [hr] at hs
    simp only at hs ⊢
    obtain ⟨couponObj, cartObj, _, _, _, _, hc, _, hs', _⟩ := ApplyCoupon_ok hr hs
    have hfind : findCartByUser s' userId
        = some (couponApplied cartObj couponObj req.code now cartObj) := by
      rw [hs']
      exact findCartByUser_updateCartRows _ (fun _ => rfl) hc
    have ht : (couponApplied cartObj couponObj req.code now cartObj).total =
        (couponApplied cartObj couponObj req.code now cartObj).subtotal
          - (couponApplied cartObj couponObj req.code now cartObj).discount
          + (couponApplied cartObj couponObj req.code now cartObj).shipping := rfl
    exact ⟨_, hfind, ht, plus _ ht⟩
  · intro hs
    rcases hr : RemoveCoupon s userId now with ⟨r, s'⟩
    rw [hr] at hs
    simp only at hs ⊢
    obtain ⟨cartObj, hc, _, hs', _⟩ := RemoveCoupon_ok hr hs
    have hfind : findCartByUser s' userId = some (couponRemoved cartObj now cartObj) := by
      rw [hs', findCartByUser_congr (releaseCoupon_carts _ _ _)]
      exact findCartByUser_updateCartRows _ (fun _ => rfl) hc
    have ht : (couponRemoved cartObj now cartObj).total =
        (couponRemoved cartObj now cartObj).subtotal
          - (couponRemoved cartObj now cartObj).discount
          + (couponRemoved cartObj now cartObj).shipping := by
      simp [couponRemoved]
    exact ⟨_, hfind, ht, plus _ ht⟩
  · intro hs
    rcases hr : ClearCart s userId now with ⟨r, s'⟩
    rw [hr] at hs
    simp only at hs ⊢
    obtain ⟨cartObj, hc, hs', _⟩ := ClearCart_ok hr hs
    have hfind : findCartByUser s' userId = some (cartCleared cartObj now cartObj) := by
      rw [hs', findCartByUser_congr (releaseCoupon_carts _ _ _)]
      have hc1 : findCartByUser (deleteCartItemsOf s cartObj.id) userId = some cartObj := hc
      exact findCartByUser_updateCartRows _ (fun _ => rfl) hc1
    have ht : (cartCleared cartObj now cartObj).total =
        (cartCleared cartObj now cartObj).subtotal
          - (cartCleared cartObj now cartObj).discount
          + (cartCleared cartObj now cartObj).shipping := by
      simp [cartCleared]
    exact ⟨_, hfind, ht, plus _ ht⟩
  · intro req orderId itemId hs
    rcases hr : CreateOrder s userId req orderId itemId now with ⟨r, s'⟩
    rw [hr] at hs
    simp only at hs ⊢
    obtain ⟨cartObj, s1, hc, _, ho, hs', _⟩ := CreateOrder_created hr hs
    have hfind : findCartByUser s' userId = some (cartReset now cartObj) := by
      unfold findCartByUser
      rw [hs', finishCheckout_carts, saveOrder_carts ho]
      exact find_user_map_update s.carts userId cartObj.id (cartReset now) (fun _ => rfl) cartObj hc rfl
    refine ⟨cartObj, _, hc, hfind, rfl, rfl, rfl, rfl, ?_⟩
    simp only [TotalRule, cartReset]
    constructor
    · intro h
      by_contra hn
      rw [if_pos (not_le.mp hn)] at h
      simp at h
      exact hn (le_of_eq h.symm)
    · intro h
      rw [if_neg (not_lt.mpr h)]
      simp

/-- C3, as stated, fails: `CreateCoupon` accepts a percentage coupon of value 150, and
`ApplyCoupon` then stores discount `25 × 150/100 = 37.5` on a cart whose subtotal is 25. -/
theorem discount_bound_counterexample :
    (CreateCoupon storePlain true reqBig "k9" 1).1.status = 201 ∧
    (ApplyCoupon (CreateCoupon storePlain true reqBig "k9" 1).2 "u1" ⟨"BIG"⟩ 2).1.status = 200 ∧
    ∃ c, findCartByUser
        (ApplyCoupon (CreateCoupon storePlain true reqBig "k9" 1).2 "u1" ⟨"BIG"⟩ 2).2 "u1"
        = some c ∧ c.subtotal = 25 ∧ c.discount = 75 / 2 ∧ ¬ c.discount ≤ c.subtotal := by
  refine ⟨by decide, by decide, couponApplied cartPlain couponBig "BIG" 2 cartPlain, by rfl, ?_⟩
  norm_num [couponApplied, couponDiscount, cartPlain, couponBig]
/-- C3, amended. For a coupon with `discount_value > 0` and a non-negative subtotal,
the discount stored by `ApplyCoupon` (computed on the cart's stored subtotal) and by
`updateCartTotals` (computed on the recomputed subtotal) is `≥ 0`, and it is
`≤ subtotal` when the coupon is `fixed` or its value is at most 100. A percentage
coupon above 100 is not capped. -/
theorem discount_bounds_amended (s : Store) (userId : String) (now : Int) :
    (∀ req k c0, findActiveCoupon s req.code = some k → findCartByUser s userId = some c0 →
      0 < k.discountValue → 0 ≤ c0.subtotal →
      (ApplyCoupon s userId req now).1.status = 200 →
      ∃ c, findCartByUser (ApplyCoupon s userId req now).2 userId = some c ∧
        c.subtotal = c0.subtotal ∧ 0 ≤ c.discount ∧
        (k.discountType = "fixed" ∨ k.discountValue ≤ 100 → c.discount ≤ c.subtotal)) ∧
    (∀ cartId cartObj k c' s', getCart s cartId = some cartObj →
      cartObj.appliedCoupon = true → cartObj.couponCode ≠ "" →
      findCouponByCode s cartObj.couponCode = some k → 0 < k.discountValue →
      updateCartTotals s cartId now = some (c', s') → 0 ≤ c'.subtotal →
      c' ∈ s'.carts ∧ 0 ≤ c'.discount ∧
        (k.discountType = "fixed" ∨ k.discountValue ≤ 100 → c'.discount ≤ c'.subtotal)) := by
  constructor
  · intro req k c0 hk hc hv hsub hs
    rcases hr : ApplyCoupon s userId req now with ⟨r, s'⟩
    rw [hr] at hs
    simp only at hs ⊢
    obtain ⟨couponObj, cartObj, _, hk', _, _, hc', _, hs', _⟩ := ApplyCoupon_ok hr hs
    rw [hk] at hk'
    rw [hc] at hc'
    obtain rfl := Option.some.inj hk'
    obtain rfl := Option.some.inj hc'
    have hfind : findCartByUser s' userId = some (couponApplied c0 k req.code now c0) := by
      rw [hs']
      exact findCartByUser_updateCartRows _ (fun _ => rfl) hc
    refine ⟨_, hfind, rfl, ?_, ?_⟩
    · exact couponDiscount_nonneg k c0.subtotal hv hsub
    · intro h
      exact couponDiscount_le k c0.subtotal hsub h
  · intro cartId cartObj k c' s' hg ha hcode hk hv ht hsub
    obtain ⟨co, hg', hc', _, hmem⟩ := updateCartTotals_eq ht
    rw [hg] at hg'
    obtain rfl := Option.some.inj hg'
    have hd : c'.discount = couponDiscount k c'.subtotal := by
      rw [hc', recomputed_discount now cartObj ha hcode hk, recomputed_subtotal]
    refine ⟨hmem, ?_, ?_⟩
    · rw [hd]; exact couponDiscount_nonneg k _ hv hsub
    · intro h
      rw [hd]; exact couponDiscount_le k _ hsub h

/-- Witness for C3 amended: a fixed coupon of 100 applied to the sample cart
(subtotal 25) stores a discount within `[0, 25]`. -/
theorem discount_bounds_amended_witness :
    (ApplyCoupon storePlain "u1" ⟨"HUNDRED"⟩ 2).1.status = 200 ∧
    ∃ c, findCartByUser (ApplyCoupon storePlain "u1" ⟨"HUNDRED"⟩ 2).2 "u1" = some c ∧
      c.subtotal = cartPlain.subtotal ∧ 0 ≤ c.discount ∧
      (couponHundred.discountType = "fixed" ∨ couponHundred.discountValue ≤ 100 →
        c.discount ≤ c.subtotal) :=
  ⟨by decide,
   (discount_bounds_amended storePlain "u1" 2).1 ⟨"HUNDRED"⟩ couponHundred cartPlain
     (by decide) (by decide) (by norm_num [couponHundred]) (by norm_num [cartPlain])
     (by decide)⟩

/-- With amounts taken as exact rationals, on a store with unique cart ids and for a
caller whose cart has an applied coupon `k` present in the store: after a successful
`AddToCart`, `UpdateCartItem` or `RemoveCartItem` the stored subtotal is the sum over
the items the cart then holds, and the stored discount is `subtotal × value/100` for a
percentage coupon and `min value subtotal` for a fixed coupon. -/
theorem discount_follows_exact (s : Store) (hu : CartIdsUnique s) (userId : String)
    (now : Int) (c0 : Cart) (k : Coupon) (hc : findCartByUser s userId = some c0)
    (ha : c0.appliedCoupon = true) (hcode : c0.couponCode ≠ "")
    (hk : findCouponByCode s c0.couponCode = some k) :
    (∀ req newCartId newItemId,
      (AddToCart s userId req newCartId newItemId now).1.status = 201 →
      DiscountFollows k (AddToCart s userId req newCartId newItemId now).2 userId) ∧
    (∀ itemId req,
      (UpdateCartItem s userId itemId req now).1.status = 200 →
      DiscountFollows k (UpdateCartItem s userId itemId req now).2 userId) ∧
    (∀ itemId,
      (RemoveCartItem s userId itemId now).1.status = 200 →
      DiscountFollows k (RemoveCartItem s userId itemId now).2 userId) := by
  refine ⟨?_, ?_, ?_⟩
  · intro req newCartId newItemId hs
    rcases hr : AddToCart s userId req newCartId newItemId now with ⟨r, s'⟩
    rw [hr] at hs
    simp only at hs ⊢
    obtain ⟨prod, cartObj, s1, item, s2, c', _, hg, hi, hut, _⟩ := AddToCart_created hr hs
    rw [getOrCreateCart_of_found newCartId now hc] at hg
    simp only [Option.some.injEq, Prod.mk.injEq] at hg
    obtain ⟨rfl, rfl⟩ := hg
    have hcarts := (saveCartItem_some hi).1
    have hcoupons := (saveCartItem_some hi).2
    exact recompute_with_coupon s2 (CartIdsUnique_congr hcarts hu)
      (by rw [findCartByUser_congr hcarts]; exact hc) ha hcode
      (by rw [findCouponByCode_congr hcoupons]; exact hk) hut
  · intro itemId req hs
    rcases hr : UpdateCartItem s userId itemId req now with ⟨r, s'⟩
    rw [hr] at hs
    simp only at hs ⊢
    obtain ⟨cartObj, item, c', hc', _, hut, _⟩ := UpdateCartItem_ok hr hs
    rw [hc] at hc'
    obtain rfl := Option.some.inj hc'
    exact recompute_with_coupon (updateCartItemRows s item.id
      (fun r => { r with quantity := req.quantity, updatedAt := now })) hu hc ha hcode hk hut
  · intro itemId hs
    rcases hr : RemoveCartItem s userId itemId now with ⟨r, s'⟩
    rw [hr] at hs
    simp only at hs ⊢
    obtain ⟨cartObj, c', hc', _, hut, _⟩ := RemoveCartItem_ok hr hs
    rw [hc] at hc'
    obtain rfl := Option.some.inj hc'
    exact recompute_with_coupon (deleteCartItem s itemId) hu hc ha hcode hk hut

/-- C4, as stated, fails on `float64`: the cart of `u1` carries the 10 percent coupon and
one line item of price 3; setting its quantity to 1 stores subtotal 3 and the discount
`3 * (10 / 100)` as Go computes it, `1351079888211149 / 2^52` (printed
`0.30000000000000004`), which is not `subtotal × value / 100 = 3 / 10`, the value the
exact computation stores. -/
theorem discount_float_counterexample :
    (UpdateCartItemWith roundF64 storeThree "u1" "i4" ⟨"", 1⟩ 7).1.status = 200 ∧
    (∃ c, findCartByUser (UpdateCartItemWith roundF64 storeThree "u1" "i4" ⟨"", 1⟩ 7).2 "u1"
        = some c ∧ c.subtotal = 3 ∧
      c.discount = 1351079888211149 / 4503599627370496 ∧
      c.discount ≠ c.subtotal * couponTen.discountValue / 100) ∧
    (∃ c, findCartByUser (UpdateCartItem storeThree "u1" "i4" ⟨"", 1⟩ 7).2 "u1" = some c ∧
      c.subtotal = 3 ∧ c.discount = 3 / 10) := by
  have hitems : cartItemsOf (updateCartItemRows storeThree "i4"
      (fun r => { r with quantity := 1, updatedAt := 7 })) "c1"
      = [{ itemThree with quantity := 1, updatedAt := 7 }] := by decide
  have hsub : subtotalOfWith roundF64 [{ itemThree with quantity := 1, updatedAt := 7 }]
      = 3 := by
    show roundF64 (0 + roundF64 (3 * roundF64 ((1 : ℤ) : ℚ))) = 3
    rw [Int.cast_one, roundF64_one, mul_one, roundF64_three, zero_add, roundF64_three]
  have hfind : findCouponByCode (updateCartItemRows storeThree "i4"
      (fun r => { r with quantity := 1, updatedAt := 7 })) "TEN" = some couponTen := by
    decide
  have hid : cartTen.id = "c1" := rfl
  have hcode : cartTen.couponCode = "TEN" := rfl
  have hflag : cartTen.appliedCoupon = true ∧ cartTen.couponCode ≠ "" := by decide
  have hs3 : (recomputedWith roundF64 (updateCartItemRows storeThree "i4"
      (fun r => { r with quantity := 1, updatedAt := 7 })) cartTen 7 cartTen).subtotal
      = 3 := by
    show subtotalOfWith roundF64 (cartItemsOf _ cartTen.id) = 3
    rw [hid, hitems, hsub]
  have hd3 : (recomputedWith roundF64 (updateCartItemRows storeThree "i4"
      (fun r => { r with quantity := 1, updatedAt := 7 })) cartTen 7 cartTen).discount
      = 1351079888211149 / 4503599627370496 := by
    unfold recomputedWith
    simp only [hid, hitems, hsub, hcode, hfind, couponDiscountWith_ten_three]
    rw [if_pos (by decide)]
  refine ⟨by decide, ⟨_, (by rfl : findCartByUser (UpdateCartItemWith roundF64 storeThree
      "u1" "i4" ⟨"", 1⟩ 7).2 "u1" = some (recomputedWith roundF64 (updateCartItemRows storeThree
      "i4" (fun r => { r with quantity := 1, updatedAt := 7 })) cartTen 7 cartTen)), hs3, hd3,
      ?_⟩,
    ⟨recomputed (updateCartItemRows storeThree "i4"
      (fun r => { r with quantity := 1, updatedAt := 7 })) cartTen 7 cartTen, by rfl, ?_, ?_⟩⟩
  · rw [hs3, hd3]
    norm_num [couponTen]
  · have h : ¬ "TEN" = "" := by decide
    norm_num [recomputed, subtotalOf, cartItemsOf, updateCartItemRows, storeThree, itemThree,
      cartTen, List.filter, h]
  · have h : ¬ "TEN" = "" := by decide
    norm_num [recomputed, subtotalOf, cartItemsOf, updateCartItemRows, storeThree, itemThree,
      cartTen, findCouponByCode, couponTen, couponHundred, couponDiscount, List.filter, h]

/-- C4, amended. On a store with unique cart ids, for a caller whose cart has an applied
coupon `k` present in the store, after a successful `AddToCart`, `UpdateCartItem` or
`RemoveCartItem`: with amounts taken as exact rationals the stored subtotal is the sum
over the items the cart then holds and the stored discount is `subtotal × value/100` for
a percentage coupon and `min value subtotal` for a fixed coupon; with every arithmetic
result rounded by `fl` (Go's `float64` for `fl := roundF64`) the stored subtotal is the
rounded subtotal loop over those items and the stored discount is
`fl (subtotal * fl (value / 100))` for a percentage coupon and `min value subtotal` for a
fixed coupon. In both readings the discount is recomputed from the new subtotal. -/
theorem discount_follows_subtotal (s : Store) (hu : CartIdsUnique s) (userId : String)
    (now : Int) (c0 : Cart) (k : Coupon) (hc : findCartByUser s userId = some c0)
    (ha : c0.appliedCoupon = true) (hcode : c0.couponCode ≠ "")
    (hk : findCouponByCode s c0.couponCode = some k) :
    ((∀ req newCartId newItemId,
        (AddToCart s userId req newCartId newItemId now).1.status = 201 →
        DiscountFollows k (AddToCart s userId req newCartId newItemId now).2 userId) ∧
      (∀ itemId req,
        (UpdateCartItem s userId itemId req now).1.status = 200 →
        DiscountFollows k (UpdateCartItem s userId itemId req now).2 userId) ∧
      (∀ itemId,
        (RemoveCartItem s userId itemId now).1.status = 200 →
        DiscountFollows k (RemoveCartItem s userId itemId now).2 userId)) ∧
    (∀ fl : ℚ → ℚ,
      (∀ req newCartId newItemId,
        (AddToCartWith fl s userId req newCartId newItemId now).1.status = 201 →
        DiscountFollowsWith fl k
          (AddToCartWith fl s userId req newCartId newItemId now).2 userId) ∧
      (∀ itemId req,
        (UpdateCartItemWith fl s userId itemId req now).1.status = 200 →
        DiscountFollowsWith fl k (UpdateCartItemWith fl s userId itemId req now).2 userId) ∧
      (∀ itemId,
        (RemoveCartItemWith fl s userId itemId now).1.status = 200 →
        DiscountFollowsWith fl k (RemoveCartItemWith fl s userId itemId now).2 userId)) := by
  refine ⟨discount_follows_exact s hu userId now c0 k hc ha hcode hk, fun fl => ⟨?_, ?_, ?_⟩⟩
  · intro req newCartId newItemId hs
    rcases hr : AddToCartWith fl s userId req newCartId newItemId now with ⟨r, s'⟩
    rw [hr] at hs
    simp only at hs ⊢
    obtain ⟨prod, cartObj, s1, item, s2, c', _, hg, hi, hut, _⟩ := AddToCartWith_created hr hs
    rw [getOrCreateCart_of_found newCartId now hc] at hg
    simp only [Option.some.injEq, Prod.mk.injEq] at hg
    obtain ⟨rfl, rfl⟩ := hg
    have hcarts := (saveCartItem_some hi).1
    have hcoupons := (saveCartItem_some hi).2
    exact recompute_with_coupon_fl fl s2 (CartIdsUnique_congr hcarts hu)
      (by rw [findCartByUser_congr hcarts]; exact hc) ha hcode
      (by rw [findCouponByCode_congr hcoupons]; exact hk) hut
  · intro itemId req hs
    rcases hr : UpdateCartItemWith fl s userId itemId req now with ⟨r, s'⟩
    rw [hr] at hs
    simp only at hs ⊢
    obtain ⟨cartObj, item, c', hc', _, hut, _⟩ := UpdateCartItemWith_ok hr hs
    rw [hc] at hc'
    obtain rfl := Option.some.inj hc'
    exact recompute_with_coupon_fl fl (updateCartItemRows s item.id
      (fun r => { r with quantity := req.quantity, updatedAt := now })) hu hc ha hcode hk hut
  · intro itemId hs
    rcases hr : RemoveCartItemWith fl s userId itemId now with ⟨r, s'⟩
    rw [hr] at hs
    simp only at hs ⊢
    obtain ⟨cartObj, c', hc', _, hut, _⟩ := RemoveCartItemWith_ok hr hs
    rw [hc] at hc'
    obtain rfl := Option.some.inj hc'
    exact recompute_with_coupon_fl fl (deleteCartItem s itemId) hu hc ha hcode hk hut

/-- Witness for C4 amended: items `[{10,2},{5,1}]` with the 10 percent coupon applied;
removing the quantity-1 item stores subtotal 20, discount 2, total 18. On `float64`,
setting the quantity of the item of price 3 to 1 stores the rounded discount of the
coupon on the subtotal 3. -/
theorem discount_follows_subtotal_witness :
    (RemoveCartItem storeTen "u1" "i2" 7).1.status = 200 ∧
    DiscountFollows couponTen (RemoveCartItem storeTen "u1" "i2" 7).2 "u1" ∧
    (∃ c, findCartByUser (RemoveCartItem storeTen "u1" "i2" 7).2 "u1" = some c ∧
      c.subtotal = 20 ∧ c.discount = 2 ∧ c.total = 18) ∧
    (UpdateCartItemWith roundF64 storeThree "u1" "i4" ⟨"", 1⟩ 7).1.status = 200 ∧
    DiscountFollowsWith roundF64 couponTen
      (UpdateCartItemWith roundF64 storeThree "u1" "i4" ⟨"", 1⟩ 7).2 "u1" :=
  ⟨by decide,
   (discount_follows_subtotal storeTen (by decide) "u1" 7 cartTen couponTen (by rfl)
     (by decide) (by decide) (by decide)).1.2.2 "i2" (by decide),
   ⟨recomputed (deleteCartItem storeTen "i2") cartTen 7 cartTen, by rfl,
    by
      have h : ¬ "TEN" = "" := by decide
      norm_num [recomputed, subtotalOf, cartItemsOf, deleteCartItem, storeTen, itemA, itemB,
        cartTen, findCouponByCode, couponTen, couponHundred, couponDiscount, List.filter, h]⟩,
   by decide,
   ((discount_follows_subtotal storeThree (by decide) "u1" 7 cartTen couponTen (by rfl)
     (by decide) (by decide) (by decide)).2 roundF64).2.1 "i4" ⟨"", 1⟩ (by decide)⟩

/-- C5. For a fixed coupon and `shipping ≥ 0`, the total stored by `ApplyCoupon` and by
`updateCartTotals` is `≥ 0`, the stored discount being `min value subtotal`; no
assumption on the line items is needed. -/
theorem fixed_coupon_total_nonneg (s : Store) (userId : String) (now : Int) :
    (∀ req k c0, findActiveCoupon s req.code = some k → k.discountType = "fixed" →
      findCartByUser s userId = some c0 → 0 ≤ c0.shipping →
      (ApplyCoupon s userId req now).1.status = 200 →
      ∃ c, findCartByUser (ApplyCoupon s userId req now).2 userId = some c ∧
        c.discount = min k.discountValue c.subtotal ∧ 0 ≤ c.total) ∧
    (∀ cartId cartObj k c' s', getCart s cartId = some cartObj →
      cartObj.appliedCoupon = true → cartObj.couponCode ≠ "" →
      findCouponByCode s cartObj.couponCode = some k → k.discountType = "fixed" →
      0 ≤ cartObj.shipping → updateCartTotals s cartId now = some (c', s') →
      c' ∈ s'.carts ∧ c'.discount = min k.discountValue c'.subtotal ∧ 0 ≤ c'.total) := by
  constructor
  · intro req k c0 hk hf hc hship hs
    rcases hr : ApplyCoupon s userId req now with ⟨r, s'⟩
    rw [hr] at hs
    simp only at hs ⊢
    obtain ⟨couponObj, cartObj, _, hk', _, _, hc', _, hs', _⟩ := ApplyCoupon_ok hr hs
    rw [hk] at hk'
    rw [hc] at hc'
    obtain rfl := Option.some.inj hk'
    obtain rfl := Option.some.inj hc'
    have hfind : findCartByUser s' userId = some (couponApplied c0 k req.code now c0) := by
      rw [hs']
      exact findCartByUser_updateCartRows _ (fun _ => rfl) hc
    refine ⟨_, hfind, couponDiscount_fixed k c0.subtotal hf, ?_⟩
    have hle : couponDiscount k c0.subtotal ≤ c0.subtotal :=
      couponDiscount_fixed k c0.subtotal hf ▸ min_le_right _ _
    show 0 ≤ c0.subtotal - couponDiscount k c0.subtotal + c0.shipping
    linarith
  · intro cartId cartObj k c' s' hg ha hcode hk hf hship ht
    obtain ⟨co, hg', hc', _, hmem⟩ := updateCartTotals_eq ht
    rw [hg] at hg'
    obtain rfl := Option.some.inj hg'
    have hd : c'.discount = couponDiscount k c'.subtotal := by
      rw [hc', recomputed_discount now cartObj ha hcode hk, recomputed_subtotal]
    have hle : c'.discount ≤ c'.subtotal := by
      rw [hd, couponDiscount_fixed k _ hf]; exact min_le_right _ _
    refine ⟨hmem, by rw [hd, couponDiscount_fixed k _ hf], ?_⟩
    have hrule : TotalRule c' := hc' ▸ TotalRule_recomputed s cartObj now
    have hship' : c'.shipping = cartObj.shipping := by rw [hc']; rfl
    unfold TotalRule at hrule
    rw [hrule]
    split_ifs <;> linarith

/-- Witness for C5: subtotal 25 with the fixed coupon of 100 gives discount 25 and
total 0. -/
theorem fixed_coupon_total_nonneg_witness :
    (ApplyCoupon storePlain "u1" ⟨"HUNDRED"⟩ 2).1.status = 200 ∧
    (∃ c, findCartByUser (ApplyCoupon storePlain "u1" ⟨"HUNDRED"⟩ 2).2 "u1" = some c ∧
      c.discount = min couponHundred.discountValue c.subtotal ∧ 0 ≤ c.total) ∧
    ∃ c, findCartByUser (ApplyCoupon storePlain "u1" ⟨"HUNDRED"⟩ 2).2 "u1" = some c ∧
      c.subtotal = 25 ∧ c.discount = 25 ∧ c.total = 0 :=
  ⟨by decide,
   (fixed_coupon_total_nonneg storePlain "u1" 2).1 ⟨"HUNDRED"⟩ couponHundred cartPlain
     (by decide) (by decide) (by decide) (by norm_num [cartPlain]) (by decide),
   couponApplied cartPlain couponHundred "HUNDRED" 2 cartPlain, by rfl,
   by norm_num [couponApplied, couponDiscount, cartPlain, couponHundred]⟩

/-- C6. A successful `ApplyCoupon` leaves the coupon named in the request with
`times_used` exactly one above its value before the call, whatever coupon the cart
carried (no assumption is made on the cart); the counter is a Go `int` below the
largest one, so the increment does not wrap. -/
theorem applyCoupon_increments (s : Store) (userId : String) (req : CartCouponRequest)
    (now : Int) (k : Coupon) (hk : findActiveCoupon s req.code = some k)
    (hint : IsGoInt k.timesUsed) (hmax : k.timesUsed < maxInt)
    (hs : (ApplyCoupon s userId req now).1.status = 200) :
    ∃ k', findActiveCoupon (ApplyCoupon s userId req now).2 req.code = some k' ∧
      k'.id = k.id ∧ k'.timesUsed = k.timesUsed + 1 := by
  rcases hr : ApplyCoupon s userId req now with ⟨r, s'⟩
  rw [hr] at hs
  simp only at hs ⊢
  obtain ⟨couponObj, cartObj, _, hk', _, _, _, _, hs', _⟩ := ApplyCoupon_ok hr hs
  rw [hk] at hk'
  obtain rfl := Option.some.inj hk'
  refine ⟨{ k with timesUsed := wrapInt (k.timesUsed + 1), updatedAt := now }, ?_, rfl, ?_⟩
  · rw [hs']
    unfold findActiveCoupon updateCouponRows updateCartRows
    exact find_map_rewrite s.coupons (fun r => decide (r.code = req.code) && r.isActive)
      (fun r => { r with timesUsed := wrapInt (k.timesUsed + 1), updatedAt := now })
      (fun _ => rfl) (fun r => r.id = k.id) k hk rfl
  · show wrapInt (k.timesUsed + 1) = k.timesUsed + 1
    unfold IsGoInt at hint
    unfold maxInt at hmax
    exact wrapInt_of_range (by linarith [hint.1]) (by linarith)

/-- Witness for C6: the sample cart already carries the coupon `TEN` (used once);
applying `TEN` again succeeds and the counter becomes 2. -/
theorem applyCoupon_increments_witness :
    ∃ k', findActiveCoupon (ApplyCoupon storeTen "u1" ⟨"TEN"⟩ 3).2 "TEN" = some k' ∧
      k'.id = couponTen.id ∧ k'.timesUsed = couponTen.timesUsed + 1 :=
  applyCoupon_increments storeTen "u1" ⟨"TEN"⟩ 3 couponTen (by decide) (by decide) (by decide)
    (by decide)

/-- C7. For a caller whose cart carries an applied coupon present in the store (counter
a non-negative Go `int`), a successful `RemoveCoupon` and a successful `ClearCart` each
leave that coupon's `times_used` at `max (before - 1) 0`; `ClearCart` on a cart with no
applied coupon leaves the coupons as they were. -/
theorem release_decrements (s : Store) (userId : String) (now : Int) :
    (∀ c0 k, findCartByUser s userId = some c0 → c0.appliedCoupon = true →
      c0.couponCode ≠ "" → findCouponByCode s c0.couponCode = some k →
      0 ≤ k.timesUsed → k.timesUsed ≤ maxInt →
      ((RemoveCoupon s userId now).1.status = 200 →
        ∃ k', findCouponByCode (RemoveCoupon s userId now).2 c0.couponCode = some k' ∧
          k'.id = k.id ∧ k'.timesUsed = max (k.timesUsed - 1) 0) ∧
      ((ClearCart s userId now).1.status = 200 →
        ∃ k', findCouponByCode (ClearCart s userId now).2 c0.couponCode = some k' ∧
          k'.id = k.id ∧ k'.timesUsed = max (k.timesUsed - 1) 0)) ∧
    (∀ c0, findCartByUser s userId = some c0 → c0.appliedCoupon = false →
      (ClearCart s userId now).2.coupons = s.coupons) := by
  have key : ∀ (t : Store) (c0 : Cart) (k : Coupon), t.coupons = s.coupons →
      c0.couponCode ≠ "" → findCouponByCode s c0.couponCode = some k →
      0 ≤ k.timesUsed → k.timesUsed ≤ maxInt →
      ∃ k', findCouponByCode (releaseCoupon t c0.couponCode now) c0.couponCode = some k' ∧
        k'.id = k.id ∧ k'.timesUsed = max (k.timesUsed - 1) 0 := by
    intro t c0 k ht hcode hk h0 h1
    have hk' : findCouponByCode t c0.couponCode = some k := by
      rw [findCouponByCode_congr ht]; exact hk
    obtain ⟨k', hf, hid, htu⟩ := releaseCoupon_find now hcode hk'
    refine ⟨k', hf, hid, ?_⟩
    rw [htu]
    unfold maxInt at h1
    split_ifs with hpos
    · rw [wrapInt_of_range (by linarith) (by linarith)]
      exact (max_eq_left (by linarith)).symm
    · have : k.timesUsed = 0 := le_antisymm (not_lt.mp hpos) h0
      rw [this]; rfl
  constructor
  · intro c0 k hc ha hcode hk h0 h1
    constructor
    · intro hs
      rcases hr : RemoveCoupon s userId now with ⟨r, s'⟩
      rw [hr] at hs
      simp only at hs ⊢
      obtain ⟨cartObj, hc', _, hs', _⟩ := RemoveCoupon_ok hr hs
      rw [hc] at hc'
      obtain rfl := Option.some.inj hc'
      rw [hs']
      exact key _ c0 k rfl hcode hk h0 h1
    · intro hs
      rcases hr : ClearCart s userId now with ⟨r, s'⟩
      rw [hr] at hs
      simp only at hs ⊢
      obtain ⟨cartObj, hc', hs', _⟩ := ClearCart_ok hr hs
      rw [hc] at hc'
      obtain rfl := Option.some.inj hc'
      rw [hs', if_pos ha]
      exact key _ c0 k rfl hcode hk h0 h1
  · intro c0 hc ha
    unfold ClearCart
    split_ifs with hu
    · rfl
    · rw [hc]
      simp [ha, releaseCoupon_empty, updateCartRows, deleteCartItemsOf]

/-- Witness for C7: the sample cart carries `TEN` (used once); `RemoveCoupon` and
`ClearCart` both succeed and leave the counter at `max (1 - 1) 0 = 0`. -/
theorem release_decrements_witness :
    ((RemoveCoupon storeTen "u1" 3).1.status = 200 ∧
      ∃ k', findCouponByCode (RemoveCoupon storeTen "u1" 3).2 cartTen.couponCode = some k' ∧
        k'.id = couponTen.id ∧ k'.timesUsed = max (couponTen.timesUsed - 1) 0) ∧
    ((ClearCart storeTen "u1" 3).1.status = 200 ∧
      ∃ k', findCouponByCode (ClearCart storeTen "u1" 3).2 cartTen.couponCode = some k' ∧
        k'.id = couponTen.id ∧ k'.timesUsed = max (couponTen.timesUsed - 1) 0) ∧
    (ClearCart storePlain "u1" 3).2.coupons = storePlain.coupons :=
  ⟨⟨by decide,
    ((release_decrements storeTen "u1" 3).1 cartTen couponTen (by rfl) (by decide) (by decide)
      (by decide) (by decide) (by decide)).1 (by decide)⟩,
   ⟨by decide,
    ((release_decrements storeTen "u1" 3).1 cartTen couponTen (by rfl) (by decide) (by decide)
      (by decide) (by decide) (by decide)).2 (by decide)⟩,
   (release_decrements storePlain "u1" 3).2 cartPlain (by rfl) (by decide)⟩

/-- C8, as stated, fails: from the empty store, one `CreateCoupon` whose request carries
`max_uses = -1` leaves a coupon with `times_used = 0 > max_uses`. The second part shows
the same through `UpdateCoupon` on a store that has a cart: a coupon capped at one use
is applied once and its cap is then lowered to 0. -/
theorem cap_counterexample :
    ¬ CapRespected (runCalls Store.empty [.createCoupon true reqNegativeCap "k1" 0]) ∧
    ¬ CapRespected (runCalls storePlain
        [.createCoupon true reqOnce "k5" 0, .applyCoupon "u1" ⟨"ONCE"⟩ 1,
         .updateCoupon true "k5" reqCapZero 2]) := by
  constructor
  · intro h
    have := h { id := "k1", code := "NEG", discountType := "fixed", discountValue := 5,
                minPurchase := 0, expiresAt := none, isActive := true, maxUses := some (-1),
                timesUsed := 0, createdAt := 0, updatedAt := 0 } (by decide) (-1) rfl
    exact absurd this (by decide)
  · intro h
    have := h { id := "k5", code := "ONCE", discountType := "fixed", discountValue := 5,
                minPurchase := 0, expiresAt := none, isActive := true, maxUses := some 0,
                timesUsed := 1, createdAt := 0, updatedAt := 2 } (by decide) 0 rfl
    exact absurd this (by decide)

/-- C8, amended. Starting from the empty store, or from any store whose coupons have
unique ids and are within their caps, every sequence of `CreateCoupon`, `UpdateCoupon`,
`ApplyCoupon`, `RemoveCoupon` and `ClearCart` calls in which each `CreateCoupon`
carries `max_uses` unset or non-negative and each `UpdateCoupon` carries `max_uses`
unset or not below the targeted coupon's `times_used` ends in a store where every
coupon whose `max_uses` is set has `times_used ≤ max_uses`. -/
theorem cap_respected_amended :
    (∀ calls, GuardedRun Store.empty calls → CapRespected (runCalls Store.empty calls)) ∧
    (∀ s0 calls, CapInv s0 → GuardedRun s0 calls → CapRespected (runCalls s0 calls)) := by
  have main : ∀ s0 calls, CapInv s0 → GuardedRun s0 calls →
      CapRespected (runCalls s0 calls) := by
    intro s0 calls h0 hg k hk m hm
    exact (((CapInv_runCalls calls s0 h0 hg).2 k hk).2 m hm).1
  exact ⟨fun calls hg => main Store.empty calls CapInv_empty hg, main⟩

/-- Witness for C8 amended: on the sample store a coupon capped at one use is created,
applied, applied again (refused) and removed; the run is guarded and the cap holds. -/
theorem cap_respected_amended_witness :
    CapRespected (runCalls storePlain
      [.createCoupon true reqOnce "k5" 0, .applyCoupon "u1" ⟨"ONCE"⟩ 1,
       .applyCoupon "u1" ⟨"ONCE"⟩ 2, .removeCoupon "u1" 3]) :=
  cap_respected_amended.2 storePlain _
    ⟨by decide, by
      intro k hk
      simp only [storePlain, List.mem_cons, List.mem_singleton, List.not_mem_nil,
        or_false] at hk
      rcases hk with rfl | rfl
      · exact ⟨by decide, by intro m hm; simp [couponTen] at hm⟩
      · exact ⟨by decide, by intro m hm; simp [couponHundred] at hm⟩⟩
    ⟨by
      intro m hm
      have : m = 1 := by simpa [reqOnce] using hm.symm
      subst this
      decide, trivial, trivial, trivial, trivial⟩

/-- On a store whose coupon codes are non-empty and unique, `ValidateCoupon` reports
`valid = true` exactly when a coupon with the requested code exists, is active, is not
expired, is below its cap and has `min_purchase ≤ base`. The rejections are decided in
the order not found or inactive, expired, usage exceeded, minimum purchase: each one is
reported whenever the earlier ones pass, whatever the later ones would say. On success
the coupon is returned with, amounts taken as exact rationals, the discount
`base × value/100` for `percentage` and `min value base` for `fixed`. -/
theorem validateCoupon_exact (s : Store) (hs : CouponCodesOk s) (req : ValidateRequest)
    (now : Int) :
    ((ValidateCoupon s req now).valid = some true ↔
      ∃ k ∈ s.coupons, k.code = req.code ∧ Eligible k req.cartTotal now) ∧
    (req.code ≠ "" → (∀ k ∈ s.coupons, k.code = req.code → k.isActive = false) →
      (ValidateCoupon s req now).status = 404 ∧
      (ValidateCoupon s req now).message = "Cupom não encontrado ou inativo" ∧
      (ValidateCoupon s req now).valid = some false) ∧
    (∀ k ∈ s.coupons, k.code = req.code → k.isActive = true →
      (Expired k now →
        (ValidateCoupon s req now).message = "Cupom expirado" ∧
        (ValidateCoupon s req now).valid = some false) ∧
      (¬ Expired k now → UsageExceeded k →
        (ValidateCoupon s req now).message = "Cupom atingiu o limite máximo de usos" ∧
        (ValidateCoupon s req now).valid = some false) ∧
      (¬ Expired k now → ¬ UsageExceeded k → req.cartTotal < k.minPurchase →
        (ValidateCoupon s req now).message = "Valor mínimo para uso do cupom não atingido" ∧
        (ValidateCoupon s req now).valid = some false) ∧
      (¬ Expired k now → ¬ UsageExceeded k → k.minPurchase ≤ req.cartTotal →
        (ValidateCoupon s req now).valid = some true ∧
        (ValidateCoupon s req now).coupon = some k ∧
        (k.discountType = "percentage" →
          (ValidateCoupon s req now).discount = some (req.cartTotal * k.discountValue / 100)) ∧
        (k.discountType = "fixed" →
          (ValidateCoupon s req now).discount = some (min k.discountValue req.cartTotal)))) := by
  have found : ∀ k ∈ s.coupons, k.code = req.code → k.isActive = true →
      req.code ≠ "" ∧ findActiveCoupon s req.code = some k := by
    intro k hk hcode ha
    refine ⟨hcode ▸ hs.1 k hk, ?_⟩
    rw [← hcode]
    exact findActiveCoupon_of_mem hs hk ha
  refine ⟨⟨?_, ?_⟩, ?_, ?_⟩
  · intro hv
    by_cases hne : req.code = ""
    · simp [ValidateCoupon, hne] at hv
    · cases hf : findActiveCoupon s req.code with
      | none => simp [ValidateCoupon, hne, hf] at hv
      | some k =>
        obtain ⟨hmem, hcode, hact⟩ := findActiveCoupon_some hf
        obtain ⟨h1, h2, h3, _⟩ := ValidateCoupon_found now hne hf
        by_cases he : Expired k now
        · rw [h1 he] at hv; simp at hv
        by_cases hu : UsageExceeded k
        · rw [h2 he hu] at hv; simp at hv
        by_cases hm : req.cartTotal < k.minPurchase
        · rw [h3 he hu hm] at hv; simp at hv
        exact ⟨k, hmem, hcode, hact, (not_expired_iff k now).mp he,
          (not_usageExceeded_iff k).mp hu, not_lt.mp hm⟩
  · rintro ⟨k, hmem, hcode, hact, he, hu, hm⟩
    obtain ⟨hne, hf⟩ := found k hmem hcode hact
    rw [(ValidateCoupon_found now hne hf).2.2.2 ((not_expired_iff k now).mpr he)
      ((not_usageExceeded_iff k).mpr hu) hm]
  · intro hne hall
    have hf : findActiveCoupon s req.code = none := by
      unfold findActiveCoupon
      rw [List.find?_eq_none]
      intro k hk
      by_cases hc : k.code = req.code
      · simp [hall k hk hc]
      · simp [hc]
    simp [ValidateCoupon, hne, hf]
  · intro k hmem hcode hact
    obtain ⟨hne, hf⟩ := found k hmem hcode hact
    obtain ⟨h1, h2, h3, h4⟩ := ValidateCoupon_found now hne hf
    refine ⟨?_, ?_, ?_, ?_⟩
    · intro he
      rw [h1 he]; exact ⟨rfl, rfl⟩
    · intro he hu
      rw [h2 he hu]; exact ⟨rfl, rfl⟩
    · intro he hu hm
      rw [h3 he hu hm]; exact ⟨rfl, rfl⟩
    · intro he hu hm
      rw [h4 he hu hm]
      refine ⟨rfl, rfl, ?_, ?_⟩
      · intro hp
        show some (couponDiscount k req.cartTotal) = _
        rw [couponDiscount_percentage _ _ hp]
      · intro hfx
        show some (couponDiscount k req.cartTotal) = _
        rw [couponDiscount_fixed _ _ hfx]

/-- C9, as stated, fails on `float64`: for the active 10 percent coupon `TEN` and a
`cart_total` of 3, `ValidateCoupon` reports the coupon valid and returns the discount
`3 * (10 / 100)` as Go computes it, `1351079888211149 / 2^52` (printed
`0.30000000000000004`), which is not `base × value / 100 = 3 / 10`, the value the exact
computation returns. -/
theorem validate_float_counterexample :
    (ValidateCouponWith roundF64 storePlain ⟨"TEN", 3⟩ 2).valid = some true ∧
    (ValidateCouponWith roundF64 storePlain ⟨"TEN", 3⟩ 2).discount
      = some (1351079888211149 / 4503599627370496) ∧
    (ValidateCouponWith roundF64 storePlain ⟨"TEN", 3⟩ 2).discount
      ≠ some (3 * couponTen.discountValue / 100) ∧
    (ValidateCoupon storePlain ⟨"TEN", 3⟩ 2).discount = some (3 / 10) := by
  have hd : (ValidateCouponWith roundF64 storePlain ⟨"TEN", 3⟩ 2).discount
      = some (couponDiscountWith roundF64 couponTen 3) := by rfl
  have he : (ValidateCoupon storePlain ⟨"TEN", 3⟩ 2).discount
      = some (couponDiscount couponTen 3) := by rfl
  refine ⟨by decide, ?_, ?_, ?_⟩
  · rw [hd, couponDiscountWith_ten_three]
  · rw [hd, couponDiscountWith_ten_three]
    norm_num [couponTen]
  · rw [he]
    norm_num [couponDiscount, couponTen]

/-- C9, amended. On a store whose coupon codes are non-empty and unique, `ValidateCoupon`
reports `valid = true` exactly when a coupon with the requested code exists, is active,
is not expired, is below its cap and has `min_purchase ≤ base`; the rejections are
decided in the order not found or inactive, expired, usage exceeded, minimum purchase;
and on success, with amounts taken as exact rationals, the discount is
`base × value/100` for `percentage` and `min value base` for `fixed`. With every
arithmetic result rounded by `fl` (Go's `float64` for `fl := roundF64`) the status, the
message, the validity and the coupon returned are the same, and the discount returned
with the coupon `k` is `fl (base * fl (value / 100))` for `percentage` and
`min value base` for `fixed`. -/
theorem validateCoupon_spec (s : Store) (hs : CouponCodesOk s) (req : ValidateRequest)
    (now : Int) :
    (((ValidateCoupon s req now).valid = some true ↔
        ∃ k ∈ s.coupons, k.code = req.code ∧ Eligible k req.cartTotal now) ∧
      (req.code ≠ "" → (∀ k ∈ s.coupons, k.code = req.code → k.isActive = false) →
        (ValidateCoupon s req now).status = 404 ∧
        (ValidateCoupon s req now).message = "Cupom não encontrado ou inativo" ∧
        (ValidateCoupon s req now).valid = some false) ∧
      (∀ k ∈ s.coupons, k.code = req.code → k.isActive = true →
        (Expired k now →
          (ValidateCoupon s req now).message = "Cupom expirado" ∧
          (ValidateCoupon s req now).valid = some false) ∧
        (¬ Expired k now → UsageExceeded k →
          (ValidateCoupon s req now).message = "Cupom atingiu o limite máximo de usos" ∧
          (ValidateCoupon s req now).valid = some false) ∧
        (¬ Expired k now → ¬ UsageExceeded k → req.cartTotal < k.minPurchase →
          (ValidateCoupon s req now).message = "Valor mínimo para uso do cupom não atingido" ∧
          (ValidateCoupon s req now).valid = some false) ∧
        (¬ Expired k now → ¬ UsageExceeded k → k.minPurchase ≤ req.cartTotal →
          (ValidateCoupon s req now).valid = some true ∧
          (ValidateCoupon s req now).coupon = some k ∧
          (k.discountType = "percentage" →
            (ValidateCoupon s req now).discount
              = some (req.cartTotal * k.discountValue / 100)) ∧
          (k.discountType = "fixed" →
            (ValidateCoupon s req now).discount
              = some (min k.discountValue req.cartTotal))))) ∧
    (∀ fl : ℚ → ℚ,
      (ValidateCouponWith fl s req now).status = (ValidateCoupon s req now).status ∧
      (ValidateCouponWith fl s req now).message = (ValidateCoupon s req now).message ∧
      (ValidateCouponWith fl s req now).valid = (ValidateCoupon s req now).valid ∧
      (ValidateCouponWith fl s req now).coupon = (ValidateCoupon s req now).coupon ∧
      (∀ k, (ValidateCouponWith fl s req now).coupon = some k →
        (k.discountType = "percentage" →
          (ValidateCouponWith fl s req now).discount
            = some (fl (req.cartTotal * fl (k.discountValue / 100)))) ∧
        (k.discountType = "fixed" →
          (ValidateCouponWith fl s req now).discount
            = some (min k.discountValue req.cartTotal)))) := by
  refine ⟨validateCoupon_exact s hs req now, fun fl => ?_⟩
  obtain ⟨h1, h2, h3, h4, h5⟩ := ValidateCouponWith_fields fl s req now
  refine ⟨h1, h2, h3, h4, ?_⟩
  intro k hk
  rw [h4] at hk
  rw [h5, hk]
  constructor
  · intro hp
    show some (couponDiscountWith fl k req.cartTotal) = _
    unfold couponDiscountWith
    rw [if_pos hp]
  · intro hf
    show some (couponDiscountWith fl k req.cartTotal) = _
    unfold couponDiscountWith
    have hnp : ¬ k.discountType = "percentage" := by rw [hf]; decide
    rw [if_neg hnp]
    split_ifs with hgt
    · rw [min_eq_right (le_of_lt hgt)]
    · rw [min_eq_left (not_lt.mp hgt)]

/-- Witness for C9 amended: the 10 percent coupon is valid for a base of 25, a coupon
that is expired, at its cap and above the base in `min_purchase` is reported as expired,
and on `float64` the discount returned for the base 3 is the rounded `3 * (10 / 100)`. -/
theorem validateCoupon_spec_witness :
    (ValidateCoupon storeCoupons ⟨"TEN", 25⟩ 10).valid = some true ∧
    ((ValidateCoupon storeCoupons ⟨"OLD", 25⟩ 10).message = "Cupom expirado" ∧
      (ValidateCoupon storeCoupons ⟨"OLD", 25⟩ 10).valid = some false) ∧
    (ValidateCouponWith roundF64 storeCoupons ⟨"TEN", 3⟩ 10).discount
      = some (roundF64 (3 * roundF64 (couponTen.discountValue / 100))) :=
  have hs : CouponCodesOk storeCoupons := ⟨by
    intro k hk
    simp only [storeCoupons, List.mem_cons, List.mem_singleton, List.not_mem_nil,
      or_false] at hk
    rcases hk with rfl | rfl | rfl <;> decide, by decide⟩
  ⟨(validateCoupon_spec storeCoupons hs ⟨"TEN", 25⟩ 10).1.1.mpr
      ⟨couponTen, by decide, rfl, rfl, by intro t ht; simp [couponTen] at ht,
        by intro m hm; simp [couponTen] at hm, by norm_num [couponTen]⟩,
   ((validateCoupon_spec storeCoupons hs ⟨"OLD", 25⟩ 10).1.2.2 couponOld (by decide) rfl
      rfl).1 ⟨5, rfl, by decide⟩,
   (((validateCoupon_spec storeCoupons hs ⟨"TEN", 3⟩ 10).2 roundF64).2.2.2.2 couponTen
      (by rfl)).1 (by decide)⟩

/-- C10. For an authenticated caller, `AddToCart` with `quantity ≤ 0` answers 400
(validation) and `AddToCart` with `quantity > 0` for a product id that no product has
answers 404 (not found); in both cases the store is returned as it was: no cart is
created, no line item is created or changed, no totals are rewritten. -/
theorem addToCart_rejections (s : Store) (userId : String) (hu : userId ≠ "")
    (req : CartItemRequest) (newCartId newItemId : String) (now : Int) :
    (req.quantity ≤ 0 →
      (AddToCart s userId req newCartId newItemId now).1.status = 400 ∧
      (AddToCart s userId req newCartId newItemId now).1.message
        = "A quantidade deve ser maior que zero" ∧
      (AddToCart s userId req newCartId newItemId now).2 = s) ∧
    (0 < req.quantity → (∀ p ∈ s.products, p.id ≠ req.productId) →
      (AddToCart s userId req newCartId newItemId now).1.status = 404 ∧
      (AddToCart s userId req newCartId newItemId now).1.message = "Produto não encontrado" ∧
      (AddToCart s userId req newCartId newItemId now).2 = s) := by
  constructor
  · intro hq
    simp [AddToCart, hu, hq]
  · intro hq hp
    have hnone : getProduct s req.productId = none := by
      unfold getProduct
      rw [List.find?_eq_none]
      intro p hmem
      simp [hp p hmem]
    simp [AddToCart, hu, not_le.mpr hq, hnone]

/-- Witness for C10: on the sample store, quantity 0 is refused with 400 and the unknown
product `p9` with 404, the store being unchanged. -/
theorem addToCart_rejections_witness :
    ((AddToCart storePlain "u2" ⟨"p1", 0⟩ "c2" "i9" 7).1.status = 400 ∧
      (AddToCart storePlain "u2" ⟨"p1", 0⟩ "c2" "i9" 7).1.message
        = "A quantidade deve ser maior que zero" ∧
      (AddToCart storePlain "u2" ⟨"p1", 0⟩ "c2" "i9" 7).2 = storePlain) ∧
    ((AddToCart storePlain "u2" ⟨"p9", 1⟩ "c2" "i9" 7).1.status = 404 ∧
      (AddToCart storePlain "u2" ⟨"p9", 1⟩ "c2" "i9" 7).1.message = "Produto não encontrado" ∧
      (AddToCart storePlain "u2" ⟨"p9", 1⟩ "c2" "i9" 7).2 = storePlain) :=
  ⟨(addToCart_rejections storePlain "u2" (by decide) ⟨"p1", 0⟩ "c2" "i9" 7).1 (by decide),
   (addToCart_rejections storePlain "u2" (by decide) ⟨"p9", 1⟩ "c2" "i9" 7).2 (by decide)
     (by decide)⟩

/-- C11. `AddToCart` keeps "at most one line item per (cart, product)", whatever its
outcome. When it succeeds and the caller's cart already holds the product, no row is
added: the rows with the id of the existing line get quantity `old + requested` (the
quantities being Go ints) and keep their name, price and image. When it succeeds and the
cart does not hold the product, exactly one row is appended, with the requested quantity
and the product's current name, price and image. -/
theorem addToCart_one_line_per_product (s : Store) (userId : String) (req : CartItemRequest)
    (newCartId newItemId : String) (now : Int) :
    (PairUnique s → PairUnique (AddToCart s userId req newCartId newItemId now).2) ∧
    (∀ e, existingLine s (callerCartId s userId newCartId) req.productId = some e →
      IsGoInt e.quantity → IsGoInt req.quantity →
      (AddToCart s userId req newCartId newItemId now).1.status = 201 →
      (AddToCart s userId req newCartId newItemId now).2.cartItems =
        s.cartItems.map (fun i => if i.id = e.id then
          { i with quantity := e.quantity + req.quantity, updatedAt := now } else i) ∧
      (AddToCart s userId req newCartId newItemId now).1.item =
        some { e with quantity := e.quantity + req.quantity, updatedAt := now }) ∧
    (∀ prod, getProduct s req.productId = some prod →
      existingLine s (callerCartId s userId newCartId) req.productId = none →
      (AddToCart s userId req newCartId newItemId now).1.status = 201 →
      (AddToCart s userId req newCartId newItemId now).2.cartItems = s.cartItems ++
        [{ id := newItemId, cartId := callerCartId s userId newCartId,
           productId := req.productId, name := prod.name, price := prod.price,
           image := prod.image, quantity := req.quantity, createdAt := now,
           updatedAt := now }]) := by
  have succ : ∀ r s', AddToCart s userId req newCartId newItemId now = (r, s') →
      r.status = 201 → ∃ prod cartObj s1 item s2, getProduct s req.productId = some prod ∧
        cartObj.id = callerCartId s userId newCartId ∧ s1.cartItems = s.cartItems ∧
        saveCartItem s1 cartObj prod req newItemId now = some (item, s2) ∧
        s'.cartItems = s2.cartItems ∧ r.item = some item ∧ 0 < req.quantity := by
    intro r s' hr hs
    unfold AddToCart at hr
    split_ifs at hr with h1 h2
    · cases hr; simp at hs
    · cases hr; simp at hs
    · split at hr
      · cases hr; simp at hs
      · rename_i prod hp
        split at hr
        · cases hr; simp at hs
        · rename_i cartObj s1 hc
          split at hr
          · cases hr; simp at hs
          · rename_i item s2 hi
            split at hr
            · cases hr; simp at hs
            · rename_i c' s3 hut
              cases hr
              exact ⟨prod, cartObj, s1, item, s2, hp, getOrCreateCart_id hc,
                (getOrCreateCart_some hc).2.1, hi, updateCartTotals_cartItems hut, rfl,
                not_le.mp h2⟩
  refine ⟨?_, ?_, ?_⟩
  · intro hp
    unfold AddToCart
    split_ifs with h1 h2
    · exact hp
    · exact hp
    · split
      · exact hp
      · split
        · exact hp
        · rename_i cartObj s1 hc
          have hp1 : PairUnique s1 := PairUnique_congr (getOrCreateCart_some hc).2.1 hp
          split
          · exact hp1
          · rename_i item s2 hi
            have hp2 : PairUnique s2 := saveCartItem_pairUnique hp1 hi
            split
            · exact hp2
            · rename_i c' s3 hut
              exact PairUnique_congr (updateCartTotals_cartItems hut) hp2
  · intro e he hge hgr hs
    rcases hr : AddToCart s userId req newCartId newItemId now with ⟨r, s'⟩
    rw [hr] at hs
    simp only at hs ⊢
    obtain ⟨prod, cartObj, s1, item, s2, _, hid, h1, hi, h2, hitem, hpos⟩ := succ r s' hr hs
    have hex : existingLine s1 cartObj.id req.productId = some e := by
      unfold existingLine at he ⊢
      rw [h1, hid]; exact he
    rcases saveCartItem_cases hi with ⟨e', he', hq, hit, hs2⟩ | ⟨hnone, _, _⟩
    · rw [hex] at he'
      obtain rfl := Option.some.inj he'
      have hw := wrapInt_add_pos hge hgr hpos hq
      rw [hw] at hit hs2
      refine ⟨?_, ?_⟩
      · rw [h2, hs2, h1]
      · rw [hitem, hit]
    · rw [hex] at hnone
      cases hnone
  · intro prod hp he hs
    rcases hr : AddToCart s userId req newCartId newItemId now with ⟨r, s'⟩
    rw [hr] at hs
    simp only at hs ⊢
    obtain ⟨prod', cartObj, s1, item, s2, hp', hid, h1, hi, h2, _, _⟩ := succ r s' hr hs
    rw [hp] at hp'
    obtain rfl := Option.some.inj hp'
    have hex : existingLine s1 cartObj.id req.productId = none := by
      unfold existingLine at he ⊢
      rw [h1, hid]; exact he
    rcases saveCartItem_cases hi with ⟨e', he', _, _, _⟩ | ⟨_, hit, hs2⟩
    · rw [hex] at he'
      cases he'
    · rw [h2, hs2, h1, hit, hid]

/-- Witness for C11: on the sample store (one line per product) adding 3 of product `p1`
raises the existing line of user `u1` from 2 to 5 and adds no row; user `u2`, whose new
cart does not hold `p1`, gets exactly one new row. -/
theorem addToCart_one_line_per_product_witness :
    PairUnique (AddToCart storePlain "u1" ⟨"p1", 3⟩ "cX" "iX" 7).2 ∧
    ((AddToCart storePlain "u1" ⟨"p1", 3⟩ "cX" "iX" 7).2.cartItems =
        storePlain.cartItems.map (fun i => if i.id = itemA.id then
          { i with quantity := itemA.quantity + 3, updatedAt := 7 } else i) ∧
      (AddToCart storePlain "u1" ⟨"p1", 3⟩ "cX" "iX" 7).1.item =
        some { itemA with quantity := itemA.quantity + 3, updatedAt := 7 }) ∧
    (AddToCart storePlain "u2" ⟨"p1", 1⟩ "c2" "i9" 7).2.cartItems = storePlain.cartItems ++
      [{ id := "i9", cartId := callerCartId storePlain "u2" "c2", productId := "p1",
         name := prodA.name, price := prodA.price, image := prodA.image, quantity := 1,
         createdAt := 7, updatedAt := 7 }] :=
  ⟨(addToCart_one_line_per_product storePlain "u1" ⟨"p1", 3⟩ "cX" "iX" 7).1 (by decide),
   (addToCart_one_line_per_product storePlain "u1" ⟨"p1", 3⟩ "cX" "iX" 7).2.1 itemA
     (by decide) (by decide) (by decide) (by decide),
   (addToCart_one_line_per_product storePlain "u2" ⟨"p1", 1⟩ "c2" "i9" 7).2.2 prodA
     (by decide) (by decide) (by decide)⟩

/-- C12. For an authenticated caller, `UpdateCartItem` (with a positive quantity) and
`RemoveCartItem` on an item id that is unknown or whose row is in another user's cart
answer 404 and return the store as it was; `UpdateCartItem` with `quantity ≤ 0` answers
400 and returns the store as it was. -/
theorem item_rejections (s : Store) (userId : String) (hu : userId ≠ "") (itemId : String)
    (now : Int) :
    (∀ req, 0 < req.quantity → NotCallersItem s userId itemId →
      (UpdateCartItem s userId itemId req now).1.status = 404 ∧
      (UpdateCartItem s userId itemId req now).2 = s) ∧
    (NotCallersItem s userId itemId →
      (RemoveCartItem s userId itemId now).1.status = 404 ∧
      (RemoveCartItem s userId itemId now).2 = s) ∧
    (∀ req, req.quantity ≤ 0 →
      (UpdateCartItem s userId itemId req now).1.status = 400 ∧
      (UpdateCartItem s userId itemId req now).2 = s) := by
  refine ⟨?_, ?_, ?_⟩
  · intro req hq hn
    unfold UpdateCartItem
    rw [if_neg hu, if_neg (not_le.mpr hq)]
    cases hc : findCartByUser s userId with
    | none => exact ⟨rfl, rfl⟩
    | some c =>
      have hnone : s.cartItems.find?
          (fun i => decide (i.id = itemId) && decide (i.cartId = c.id)) = none := by
        rw [List.find?_eq_none]
        intro i hi
        by_cases hid : i.id = itemId
        · simp [hn c hc i hi hid]
        · simp [hid]
      simp [hnone]
  · intro hn
    unfold RemoveCartItem
    rw [if_neg hu]
    cases hc : findCartByUser s userId with
    | none => exact ⟨rfl, rfl⟩
    | some c =>
      have hnone : s.cartItems.any
          (fun i => decide (i.id = itemId) && decide (i.cartId = c.id)) = false := by
        rw [List.any_eq_false]
        intro i hi
        by_cases hid : i.id = itemId
        · simp [hn c hc i hi hid]
        · simp [hid]
      simp [hnone]
  · intro req hq
    unfold UpdateCartItem
    rw [if_neg hu, if_pos hq]
    exact ⟨rfl, rfl⟩

/-- Witness for C12: user `u1` cannot update or remove the line `i3` of user `u2`, nor
remove an unknown id, and a quantity of 0 is refused; the store stays as it was. -/
theorem item_rejections_witness :
    ((UpdateCartItem storeTwoUsers "u1" "i3" ⟨"", 4⟩ 7).1.status = 404 ∧
      (UpdateCartItem storeTwoUsers "u1" "i3" ⟨"", 4⟩ 7).2 = storeTwoUsers) ∧
    ((RemoveCartItem storeTwoUsers "u1" "i3" 7).1.status = 404 ∧
      (RemoveCartItem storeTwoUsers "u1" "i3" 7).2 = storeTwoUsers) ∧
    ((UpdateCartItem storeTwoUsers "u1" "i1" ⟨"", 0⟩ 7).1.status = 400 ∧
      (UpdateCartItem storeTwoUsers "u1" "i1" ⟨"", 0⟩ 7).2 = storeTwoUsers) :=
  have hn : NotCallersItem storeTwoUsers "u1" "i3" := by
    intro c hc i hi hid
    have hc' : c = cartTen := (Option.some.inj hc).symm
    subst hc'
    simp only [storeTwoUsers, List.mem_cons, List.mem_singleton, List.not_mem_nil,
      or_false] at hi
    rcases hi with rfl | rfl | rfl
    · exact absurd hid (by decide)
    · exact absurd hid (by decide)
    · decide
  ⟨(item_rejections storeTwoUsers "u1" (by decide) "i3" 7).1 ⟨"", 4⟩ (by decide) hn,
   (item_rejections storeTwoUsers "u1" (by decide) "i3" 7).2.1 hn,
   (item_rejections storeTwoUsers "u1" (by decide) "i1" 7).2.2 ⟨"", 0⟩ (by decide)⟩

/-- C13. After a successful `ClearCart` the caller's stored cart has no line items,
subtotal 0, discount 0, total equal to its shipping value (which the call leaves as it
was), applied-coupon flag false and an empty coupon code; the line items of every other
cart are as before. -/
theorem clearCart_result (s : Store) (userId : String) (now : Int)
    (hs : (ClearCart s userId now).1.status = 200) :
    ∃ c0 c, findCartByUser s userId = some c0 ∧
      findCartByUser (ClearCart s userId now).2 userId = some c ∧ c.id = c0.id ∧
      cartItemsOf (ClearCart s userId now).2 c.id = [] ∧
      c.subtotal = 0 ∧ c.discount = 0 ∧ c.total = c.shipping ∧ c.shipping = c0.shipping ∧
      c.appliedCoupon = false ∧ c.couponCode = "" ∧
      ∀ cid, cid ≠ c0.id →
        cartItemsOf (ClearCart s userId now).2 cid = cartItemsOf s cid := by
  rcases hr : ClearCart s userId now with ⟨r, s'⟩
  rw [hr] at hs
  simp only at hs ⊢
  obtain ⟨c0, hc, hs', _⟩ := ClearCart_ok hr hs
  have hfind : findCartByUser s' userId = some (cartCleared c0 now c0) := by
    rw [hs', findCartByUser_congr (releaseCoupon_carts _ _ _)]
    have hc1 : findCartByUser (deleteCartItemsOf s c0.id) userId = some c0 := hc
    exact findCartByUser_updateCartRows _ (fun _ => rfl) hc1
  have hitems : s'.cartItems = s.cartItems.filter (fun i => !decide (i.cartId = c0.id)) := by
    rw [hs', releaseCoupon_cartItems]
    rfl
  refine ⟨c0, _, hc, hfind, rfl, ?_, rfl, rfl, rfl, rfl, rfl, rfl, ?_⟩
  · show cartItemsOf s' c0.id = []
    unfold cartItemsOf
    rw [hitems, List.filter_filter, List.filter_eq_nil_iff]
    intro i _
    simp
  · intro cid hne
    unfold cartItemsOf
    rw [hitems, List.filter_filter]
    apply List.filter_congr
    intro i _
    by_cases h : i.cartId = cid
    · simp [h, hne]
    · simp [h]

/-- Witness for C13: user `u1` clears the cart in the two-user store; the cart of user
`u2` keeps its line item. -/
theorem clearCart_result_witness :
    ∃ c0 c, findCartByUser storeTwoUsers "u1" = some c0 ∧
      findCartByUser (ClearCart storeTwoUsers "u1" 7).2 "u1" = some c ∧ c.id = c0.id ∧
      cartItemsOf (ClearCart storeTwoUsers "u1" 7).2 c.id = [] ∧
      c.subtotal = 0 ∧ c.discount = 0 ∧ c.total = c.shipping ∧ c.shipping = c0.shipping ∧
      c.appliedCoupon = false ∧ c.couponCode = "" ∧
      ∀ cid, cid ≠ c0.id →
        cartItemsOf (ClearCart storeTwoUsers "u1" 7).2 cid = cartItemsOf storeTwoUsers cid :=
  clearCart_result storeTwoUsers "u1" 7 (by decide)

/-- C14. For an authenticated caller, `RemoveCoupon` on a cart with no coupon applied
answers 400 and returns the store as it was; on a cart with a coupon applied it succeeds
and stores applied-coupon false, an empty code, discount 0, the subtotal and shipping as
they were, and total `subtotal + shipping`, which is the total of the pricing rule for
discount 0 when shipping is not negative. -/
theorem removeCoupon_result (s : Store) (userId : String) (hu : userId ≠ "") (now : Int)
    (c0 : Cart) (hc : findCartByUser s userId = some c0) :
    (c0.appliedCoupon = false →
      (RemoveCoupon s userId now).1.status = 400 ∧ (RemoveCoupon s userId now).2 = s) ∧
    (c0.appliedCoupon = true →
      (RemoveCoupon s userId now).1.status = 200 ∧
      ∃ c, findCartByUser (RemoveCoupon s userId now).2 userId = some c ∧
        c.appliedCoupon = false ∧ c.couponCode = "" ∧ c.discount = 0 ∧
        c.subtotal = c0.subtotal ∧ c.shipping = c0.shipping ∧
        c.total = c.subtotal + c.shipping ∧ (0 ≤ c.shipping → TotalRule c)) := by
  constructor
  · intro ha
    simp [RemoveCoupon, hu, hc, ha]
  · intro ha
    have hst : (RemoveCoupon s userId now).1.status = 200 := by
      simp [RemoveCoupon, hu, hc, ha]
    refine ⟨hst, ?_⟩
    rcases hr : RemoveCoupon s userId now with ⟨r, s'⟩
    rw [hr] at hst
    simp only at hst ⊢
    obtain ⟨c1, hc', _, hs', _⟩ := RemoveCoupon_ok hr hst
    rw [hc] at hc'
    obtain rfl := Option.some.inj hc'
    have hfind : findCartByUser s' userId = some (couponRemoved c0 now c0) := by
      rw [hs', findCartByUser_congr (releaseCoupon_carts _ _ _)]
      exact findCartByUser_updateCartRows _ (fun _ => rfl) hc
    refine ⟨_, hfind, rfl, rfl, rfl, rfl, rfl, rfl, ?_⟩
    intro h0
    unfold TotalRule
    show c0.subtotal + c0.shipping
      = if c0.shipping > 0 then c0.subtotal - 0 + c0.shipping else c0.subtotal - 0
    split_ifs with hp
    · ring
    · have : c0.shipping = 0 := le_antisymm (not_lt.mp hp) h0
      rw [this]; ring

/-- Witness for C14: with no coupon applied the call is refused and the store kept; with
the coupon `TEN` applied the coupon fields are cleared and the total is the subtotal. -/
theorem removeCoupon_result_witness :
    ((RemoveCoupon storePlain "u1" 7).1.status = 400 ∧
      (RemoveCoupon storePlain "u1" 7).2 = storePlain) ∧
    ((RemoveCoupon storeTen "u1" 7).1.status = 200 ∧
      ∃ c, findCartByUser (RemoveCoupon storeTen "u1" 7).2 "u1" = some c ∧
        c.appliedCoupon = false ∧ c.couponCode = "" ∧ c.discount = 0 ∧
        c.subtotal = cartTen.subtotal ∧ c.shipping = cartTen.shipping ∧
        c.total = c.subtotal + c.shipping ∧ (0 ≤ c.shipping → TotalRule c)) :=
  ⟨(removeCoupon_result storePlain "u1" (by decide) 7 cartPlain (by rfl)).1 (by decide),
   (removeCoupon_result storeTen "u1" (by decide) 7 cartTen (by rfl)).2 (by decide)⟩

/-- C15. For an authenticated caller whose cart has no line item, `CreateOrder` returns
the store as it was, so no order and no order item is created and the cart is not
modified; when the request passes the checks made before the cart is read, the answer
is 400 with the empty-cart message. -/
theorem createOrder_empty_cart (s : Store) (userId : String) (hu : userId ≠ "")
    (req : OrderRequest) (orderId : String) (itemId : Nat → String) (now : Int) (c0 : Cart)
    (hc : findCartByUser s userId = some c0) (hempty : cartItemsOf s c0.id = []) :
    (CreateOrder s userId req orderId itemId now).2 = s ∧
    (CreateOrder s userId req orderId itemId now).1.order = none ∧
    (RequestOk s userId req →
      (CreateOrder s userId req orderId itemId now).1.status = 400 ∧
      (CreateOrder s userId req orderId itemId now).1.message
        = "Não há itens no carrinho para criar o pedido") := by
  refine ⟨?_, ?_, ?_⟩
  · unfold CreateOrder
    split_ifs <;> try rfl
    rw [hc]
    simp [hempty]
  · unfold CreateOrder
    split_ifs <;> try rfl
    rw [hc]
    simp [hempty]
  · rintro ⟨hd, hpm, hps, hadr⟩
    unfold CreateOrder
    rw [if_neg hu, if_neg (by
      rintro ⟨h1, h2⟩
      rcases hd with h | h
      · exact h1 h
      · exact h2 h), if_neg hpm, if_neg hps, if_neg (by
      rintro ⟨h1, h2⟩
      exact (hadr h1).1 h2), if_neg (by
      rintro ⟨h1, h2⟩
      rw [(hadr h1).2] at h2
      cases h2), hc]
    simp [hempty]

/-- Witness for C15: user `u3` has an empty cart; a valid pickup request is answered 400
and the store is as before. -/
theorem createOrder_empty_cart_witness :
    (CreateOrder storeEmptyCart "u3" reqPickup "o1" sampleItemIds 7).2 = storeEmptyCart ∧
    (CreateOrder storeEmptyCart "u3" reqPickup "o1" sampleItemIds 7).1.order = none ∧
    (CreateOrder storeEmptyCart "u3" reqPickup "o1" sampleItemIds 7).1.status = 400 ∧
    (CreateOrder storeEmptyCart "u3" reqPickup "o1" sampleItemIds 7).1.message
      = "Não há itens no carrinho para criar o pedido" :=
  ⟨(createOrder_empty_cart storeEmptyCart "u3" (by decide) reqPickup "o1" sampleItemIds 7
      cartEmpty (by rfl) (by decide)).1,
   (createOrder_empty_cart storeEmptyCart "u3" (by decide) reqPickup "o1" sampleItemIds 7
      cartEmpty (by rfl) (by decide)).2.1,
   (createOrder_empty_cart storeEmptyCart "u3" (by decide) reqPickup "o1" sampleItemIds 7
      cartEmpty (by rfl) (by decide)).2.2 (by decide)⟩

/-- C16. The order a successful `CreateOrder` appends to the store (and returns) has
total, shipping and discount copied from the cart's stored fields, status `pending`, the
caller as owner, the cart's coupon code when the cart has a coupon applied and no code
otherwise, and an address exactly when the delivery type is `delivery`: a pickup request
yields no address even if it supplies an address id. -/
theorem createOrder_snapshot (s : Store) (userId : String) (req : OrderRequest)
    (orderId : String) (itemId : Nat → String) (now : Int)
    (hs : (CreateOrder s userId req orderId itemId now).1.status = 201) :
    ∃ c0 o, findCartByUser s userId = some c0 ∧
      (CreateOrder s userId req orderId itemId now).1.order = some o ∧
      (CreateOrder s userId req orderId itemId now).2.orders = s.orders ++ [o] ∧
      o.id = orderId ∧ o.userId = userId ∧ o.status = "pending" ∧
      o.total = c0.total ∧ o.shipping = c0.shipping ∧ o.discount = c0.discount ∧
      (c0.appliedCoupon = true → c0.couponCode ≠ "" → o.couponCode = some c0.couponCode) ∧
      (c0.appliedCoupon = true → o.couponCode.getD "" = c0.couponCode) ∧
      (c0.appliedCoupon = false → o.couponCode = none) ∧
      (req.deliveryType = "delivery" → o.addressId = some req.addressId) ∧
      (req.deliveryType ≠ "delivery" → o.addressId = none) := by
  obtain ⟨_, hok⟩ := CreateOrder_requestOk hs
  rcases hr : CreateOrder s userId req orderId itemId now with ⟨r, s'⟩
  rw [hr] at hs
  simp only at hs ⊢
  obtain ⟨c0, hc, _, _, hord, hs'⟩ := CreateOrder_store hr hs
  refine ⟨c0, orderOf c0 userId req orderId now, hc, hord, ?_, rfl, rfl, rfl, rfl, rfl, rfl,
    ?_, ?_, ?_, ?_, ?_⟩
  · rw [hs']; rfl
  · intro ha hcode
    simp [orderOf, ha, hcode]
  · intro ha
    by_cases hcode : c0.couponCode = ""
    · simp [orderOf, ha, hcode]
    · simp [orderOf, ha, hcode]
  · intro ha
    simp [orderOf, ha]
  · intro hd
    have := (hok.2.2.2 hd).1
    simp [orderOf, hd, this]
  · intro hd
    simp [orderOf, hd]

/-- Witness for C16: a pickup checkout of the sample cart that supplies an address id
stores an order with the cart's money fields and no address. -/
theorem createOrder_snapshot_witness :
    ∃ c0 o, findCartByUser storePlain "u1" = some c0 ∧
      (CreateOrder storePlain "u1" reqPickupWithAddress "o1" sampleItemIds 7).1.order = some o ∧
      (CreateOrder storePlain "u1" reqPickupWithAddress "o1" sampleItemIds 7).2.orders
        = storePlain.orders ++ [o] ∧
      o.id = "o1" ∧ o.userId = "u1" ∧ o.status = "pending" ∧
      o.total = c0.total ∧ o.shipping = c0.shipping ∧ o.discount = c0.discount ∧
      (c0.appliedCoupon = true → c0.couponCode ≠ "" → o.couponCode = some c0.couponCode) ∧
      (c0.appliedCoupon = true → o.couponCode.getD "" = c0.couponCode) ∧
      (c0.appliedCoupon = false → o.couponCode = none) ∧
      (reqPickupWithAddress.deliveryType = "delivery" →
        o.addressId = some reqPickupWithAddress.addressId) ∧
      (reqPickupWithAddress.deliveryType ≠ "delivery" → o.addressId = none) :=
  createOrder_snapshot storePlain "u1" reqPickupWithAddress "o1" sampleItemIds 7 (by decide)

/-- C18. After a `CreateOrder` that answers 201 the caller's stored cart has no line
items, subtotal 0, discount 0, total 0, applied-coupon flag false and an empty coupon
code, whatever its shipping value, which is left as it was. -/
theorem createOrder_resets_cart (s : Store) (userId : String) (req : OrderRequest)
    (orderId : String) (itemId : Nat → String) (now : Int)
    (hs : (CreateOrder s userId req orderId itemId now).1.status = 201) :
    ∃ c0 c, findCartByUser s userId = some c0 ∧
      findCartByUser (CreateOrder s userId req orderId itemId now).2 userId = some c ∧
      c.id = c0.id ∧
      cartItemsOf (CreateOrder s userId req orderId itemId now).2 c.id = [] ∧
      c.subtotal = 0 ∧ c.discount = 0 ∧ c.total = 0 ∧ c.appliedCoupon = false ∧
      c.couponCode = "" ∧ c.shipping = c0.shipping := by
  rcases hr : CreateOrder s userId req orderId itemId now with ⟨r, s'⟩
  rw [hr] at hs
  simp only at hs ⊢
  obtain ⟨c0, hc, _, _, _, hs'⟩ := CreateOrder_store hr hs
  have hfind : findCartByUser s' userId = some (cartReset now c0) := by
    rw [hs']
    have hc1 : findCartByUser (deleteCartItemsOf
        { s with orders := s.orders ++ [orderOf c0 userId req orderId now] } c0.id) userId
        = some c0 := hc
    exact findCartByUser_updateCartRows _ (fun _ => rfl) hc1
  refine ⟨c0, _, hc, hfind, rfl, ?_, rfl, rfl, rfl, rfl, rfl, rfl⟩
  show cartItemsOf s' c0.id = []
  have hitems : s'.cartItems = s.cartItems.filter (fun i => !decide (i.cartId = c0.id)) := by
    rw [hs']; rfl
  unfold cartItemsOf
  rw [hitems, List.filter_filter, List.filter_eq_nil_iff]
  intro i _
  simp

/-- Witness for C18: the checkout of a cart with shipping 5 leaves that cart empty with
total 0. -/
theorem createOrder_resets_cart_witness :
    ∃ c0 c, findCartByUser storeShipping "u1" = some c0 ∧
      findCartByUser (CreateOrder storeShipping "u1" reqPickup "o1" sampleItemIds 7).2 "u1"
        = some c ∧ c.id = c0.id ∧
      cartItemsOf (CreateOrder storeShipping "u1" reqPickup "o1" sampleItemIds 7).2 c.id = [] ∧
      c.subtotal = 0 ∧ c.discount = 0 ∧ c.total = 0 ∧ c.appliedCoupon = false ∧
      c.couponCode = "" ∧ c.shipping = c0.shipping :=
  createOrder_resets_cart storeShipping "u1" reqPickup "o1" sampleItemIds 7 (by decide)

/-- C19. `CreateOrder` leaves the coupon rows exactly as they were, whatever its
outcome: no counter and no other coupon field is written, also when the checkout clears
an applied coupon from the cart. -/
theorem createOrder_keeps_coupons (s : Store) (userId : String) (req : OrderRequest)
    (orderId : String) (itemId : Nat → String) (now : Int) :
    (CreateOrder s userId req orderId itemId now).2.coupons = s.coupons := by
  by_cases hs : (CreateOrder s userId req orderId itemId now).1.status = 201
  · rcases hr : CreateOrder s userId req orderId itemId now with ⟨r, s'⟩
    rw [hr] at hs
    simp only at hs ⊢
    obtain ⟨c0, _, _, _, _, hs'⟩ := CreateOrder_store hr hs
    rw [hs']; rfl
  · unfold CreateOrder at hs ⊢
    split_ifs with h1 h2 h3 h4 h5 h6 <;> try rfl
    rw [if_neg h1, if_neg h2, if_neg h3, if_neg h4, if_neg h5, if_neg h6] at hs
    split
    · rfl
    · rename_i cartObj hc
      rw [hc] at hs
      dsimp only at hs ⊢
      split_ifs with h7
      · rfl
      · rw [if_neg h7] at hs
        split
        · rfl
        · rename_i s1 ho
          rw [ho] at hs
          exact absurd rfl hs

/-- C17 at a failing input: the checkout of the sample cart, which holds two line items,
answers 201 and stores no order item. The loop builds each order item without the
`image` that `ent/schema/order_item.go` requires, every save is refused, and the refusal
is skipped. -/
theorem createOrder_stores_no_order_item :
    (CreateOrder storePlain "u1" reqPickup "o1" sampleItemIds 7).1.status = 201 ∧
    (cartItemsOf storePlain "c1").length = 2 ∧
    (∃ o ∈ (CreateOrder storePlain "u1" reqPickup "o1" sampleItemIds 7).2.orders,
      o.id = "o1") ∧
    (CreateOrder storePlain "u1" reqPickup "o1" sampleItemIds 7).2.orderItems = [] := by
  refine ⟨by decide, by decide, ⟨orderOf cartPlain "u1" reqPickup "o1" 7, by decide, rfl⟩, ?_⟩
  exact CreateOrder_orderItems storePlain "u1" reqPickup "o1" sampleItemIds 7

/-- C20 at a failing input: the order of the sample cart is saved, then the product
lookup of the first line fails; the handler answers 500 without the order, although the
order is in the store and the cart still holds its line items. -/
theorem createOrder_lookup_failure :
    (CreateOrderF faultFirstLookup storePlain "u1" reqPickup "o1" sampleItemIds 7).1.status
      = 500 ∧
    (CreateOrderF faultFirstLookup storePlain "u1" reqPickup "o1" sampleItemIds 7).1.order
      = none ∧
    (∃ o ∈ (CreateOrderF faultFirstLookup storePlain "u1" reqPickup "o1" sampleItemIds 7).2.orders,
      o.id = "o1") ∧
    (CreateOrderF faultFirstLookup storePlain "u1" reqPickup "o1" sampleItemIds 7).2.cartItems
      = storePlain.cartItems := by
  refine ⟨by decide, by decide, ⟨orderOf cartPlain "u1" reqPickup "o1" 7, by decide, rfl⟩,
    by decide⟩

/-- C21. On a store with unique order ids and for an authenticated caller: `CancelOrder`
on an own order whose status is `delivered` or `cancelled` answers 400 and returns the
store as it was; on an own order in any other status it answers 200 and rewrites that
order alone, to status `cancelled` with every other field kept (the `updated_at` stamp
of the update apart); on an order of another user it answers 404 and returns the store
as it was. -/
theorem cancelOrder_spec (s : Store) (hu : OrderIdsUnique s) (userId : String)
    (hne : userId ≠ "") (now : Int) (o : Order) (ho : o ∈ s.orders) :
    (o.userId = userId → (o.status = "delivered" ∨ o.status = "cancelled") →
      (CancelOrder s userId o.id now).1.status = 400 ∧ (CancelOrder s userId o.id now).2 = s) ∧
    (o.userId = userId → o.status ≠ "delivered" → o.status ≠ "cancelled" →
      (CancelOrder s userId o.id now).1.status = 200 ∧
      (CancelOrder s userId o.id now).1.order
        = some { o with status := "cancelled", updatedAt := now } ∧
      (CancelOrder s userId o.id now).2 = { s with orders := s.orders.map (fun r =>
        if r = o then { o with status := "cancelled", updatedAt := now } else r) }) ∧
    (o.userId ≠ userId →
      (CancelOrder s userId o.id now).1.status = 404 ∧ (CancelOrder s userId o.id now).2 = s) := by
  refine ⟨?_, ?_, ?_⟩
  · intro hown hst
    have hf : s.orders.find? (fun r => decide (r.id = o.id) && decide (r.userId = userId))
        = some o :=
      find_order_of_mem hu ho _ (by simp [hown]) (by intro r hr; simp at hr; exact hr.1)
    simp [CancelOrder, hne, hf, hst]
  · intro hown h1 h2
    have hf : s.orders.find? (fun r => decide (r.id = o.id) && decide (r.userId = userId))
        = some o :=
      find_order_of_mem hu ho _ (by simp [hown]) (by intro r hr; simp at hr; exact hr.1)
    have hmap : s.orders.map (fun r => if r.id = o.id then statusSet "cancelled" now r else r)
        = s.orders.map (fun r =>
          if r = o then { o with status := "cancelled", updatedAt := now } else r) := by
      apply List.map_congr_left
      intro r hr
      by_cases hid : r.id = o.id
      · have : r = o := List.inj_on_of_nodup_map hu hr ho hid
        subst this
        simp [statusSet]
      · have : r ≠ o := fun h => hid (by rw [h])
        simp [hid, this]
    have h : CancelOrder s userId o.id now =
        ({ status := 200, message := "Pedido cancelado com sucesso",
           order := some (statusSet "cancelled" now o) },
          updateOrderRows s o.id (statusSet "cancelled" now)) := by
      simp [CancelOrder, hne, hf, h1, h2]
    rw [h]
    exact ⟨rfl, rfl, by simp only [updateOrderRows, hmap]⟩
  · intro hother
    have hf : s.orders.find? (fun r => decide (r.id = o.id) && decide (r.userId = userId))
        = none := by
      rw [List.find?_eq_none]
      intro r hr
      by_cases hid : r.id = o.id
      · have : r = o := List.inj_on_of_nodup_map hu hr ho hid
        subst this
        simp [hother]
      · simp [hid]
    simp [CancelOrder, hne, hf]

/-- Witness for C21: user `u1` cannot cancel the delivered order `o1`, cancels the
pending order `o2`, and does not see the order `o3` of user `u2`. -/
theorem cancelOrder_spec_witness :
    ((CancelOrder storeOrders "u1" "o1" 9).1.status = 400 ∧
      (CancelOrder storeOrders "u1" "o1" 9).2 = storeOrders) ∧
    ((CancelOrder storeOrders "u1" "o2" 9).1.status = 200 ∧
      (CancelOrder storeOrders "u1" "o2" 9).1.order
        = some { orderPending with status := "cancelled", updatedAt := 9 } ∧
      (CancelOrder storeOrders "u1" "o2" 9).2 = { storeOrders with
        orders := storeOrders.orders.map (fun r =>
          if r = orderPending then { orderPending with status := "cancelled", updatedAt := 9 }
          else r) }) ∧
    ((CancelOrder storeOrders "u1" "o3" 9).1.status = 404 ∧
      (CancelOrder storeOrders "u1" "o3" 9).2 = storeOrders) :=
  ⟨(cancelOrder_spec storeOrders (by decide) "u1" (by decide) 9 orderDelivered
      (by decide)).1 rfl (Or.inl rfl),
   (cancelOrder_spec storeOrders (by decide) "u1" (by decide) 9 orderPending
      (by decide)).2.1 rfl (by decide) (by decide),
   (cancelOrder_spec storeOrders (by decide) "u1" (by decide) 9 orderShipped
      (by decide)).2.2 (by decide)⟩

/-- C22. For an admin and an existing order, `UpdateOrderStatus` answers 200 exactly when
the requested status is in the fixed set, whatever the current status of the order; it
then rewrites the rows of that id with the requested status. Any other value answers 400
and returns the store as it was. Hence, if every stored status is in the fixed set
before the call, so it is after, for every caller. -/
theorem updateOrderStatus_spec (s : Store) (id : String) (req : OrderStatusUpdate) (now : Int)
    (hex : ∃ o ∈ s.orders, o.id = id) :
    ((UpdateOrderStatus s true id req now).1.status = 200 ↔ req.status ∈ fixedStatuses) ∧
    (req.status ∈ fixedStatuses →
      (UpdateOrderStatus s true id req now).2
        = updateOrderRows s id (statusSet req.status now) ∧
      ∀ o ∈ (UpdateOrderStatus s true id req now).2.orders, o.id = id →
        o.status = req.status) ∧
    (req.status ∉ fixedStatuses →
      (UpdateOrderStatus s true id req now).1.status = 400 ∧
      (UpdateOrderStatus s true id req now).2 = s) ∧
    ((∀ o ∈ s.orders, o.status ∈ fixedStatuses) → ∀ isAdmin,
      ∀ o ∈ (UpdateOrderStatus s isAdmin id req now).2.orders, o.status ∈ fixedStatuses) := by
  obtain ⟨o0, ho0, hid0⟩ := hex
  have hfind : ∃ o1, s.orders.find? (fun o => decide (o.id = id)) = some o1 := by
    cases hf : s.orders.find? (fun o => decide (o.id = id)) with
    | some o1 => exact ⟨o1, rfl⟩
    | none =>
      have := List.find?_eq_none.mp hf o0 ho0
      simp [hid0] at this
  obtain ⟨o1, hf⟩ := hfind
  have hok : req.status ∈ fixedStatuses → UpdateOrderStatus s true id req now =
      ({ status := 200, message := "Status do pedido atualizado com sucesso",
         order := some (statusSet req.status now o1) },
        updateOrderRows s id (statusSet req.status now)) := by
    intro hv
    have := (validStatus_iff req.status).mpr hv
    simp [UpdateOrderStatus, this, hf]
  have hbad : req.status ∉ fixedStatuses → UpdateOrderStatus s true id req now =
      ({ status := 400, message := "Status inválido" }, s) := by
    intro hv
    have : validStatus req.status = false := by
      cases h : validStatus req.status with
      | false => rfl
      | true => exact absurd ((validStatus_iff req.status).mp h) hv
    simp [UpdateOrderStatus, this]
  refine ⟨⟨?_, ?_⟩, ?_, ?_, ?_⟩
  · intro hst
    by_contra hv
    rw [hbad hv] at hst
    simp at hst
  · intro hv
    rw [hok hv]
  · intro hv
    rw [hok hv]
    refine ⟨rfl, ?_⟩
    intro o ho hid
    simp only [updateOrderRows, List.mem_map] at ho
    obtain ⟨r, _, rfl⟩ := ho
    split
    · rfl
    · rename_i hne
      split at hid
      · rename_i h; exact absurd h hne
      · exact absurd hid hne
  · intro hv
    rw [hbad hv]
    exact ⟨rfl, rfl⟩
  · intro hall isAdmin o ho
    unfold UpdateOrderStatus at ho
    split_ifs at ho with h1 h2
    · exact hall o ho
    · exact hall o ho
    · rw [hf] at ho
      simp only [updateOrderRows, List.mem_map] at ho
      obtain ⟨r, hr, rfl⟩ := ho
      split
      · show req.status ∈ fixedStatuses
        apply (validStatus_iff req.status).mp
        cases h : validStatus req.status with
        | true => rfl
        | false => exact absurd h h2
      · exact hall r hr

/-- Witness for C22: an admin moves the delivered order `o1` back to `pending`, and the
value `lost` is refused. -/
theorem updateOrderStatus_spec_witness :
    ((UpdateOrderStatus storeOrders true "o1" ⟨"pending"⟩ 9).2
        = updateOrderRows storeOrders "o1" (statusSet "pending" 9) ∧
      ∀ o ∈ (UpdateOrderStatus storeOrders true "o1" ⟨"pending"⟩ 9).2.orders, o.id = "o1" →
        o.status = "pending") ∧
    ((UpdateOrderStatus storeOrders true "o1" ⟨"lost"⟩ 9).1.status = 400 ∧
      (UpdateOrderStatus storeOrders true "o1" ⟨"lost"⟩ 9).2 = storeOrders) :=
  ⟨(updateOrderStatus_spec storeOrders "o1" ⟨"pending"⟩ 9
      ⟨orderDelivered, by decide, rfl⟩).2.1 (by decide),
   (updateOrderStatus_spec storeOrders "o1" ⟨"lost"⟩ 9
      ⟨orderDelivered, by decide, rfl⟩).2.2.1 (by decide)⟩

/-- C23. No cart handler and no product update or delete writes an order or an order
item: after `AddToCart`, `UpdateCartItem`, `RemoveCartItem`, `ApplyCoupon`,
`RemoveCoupon`, `ClearCart`, `UpdateProduct` and `DeleteProduct`, whatever the outcome,
the order rows and the order item rows are those of the store before. -/
theorem orders_frozen (s : Store) (userId : String) (now : Int) :
    (∀ req newCartId newItemId,
      (AddToCart s userId req newCartId newItemId now).2.orders = s.orders ∧
      (AddToCart s userId req newCartId newItemId now).2.orderItems = s.orderItems) ∧
    (∀ itemId req,
      (UpdateCartItem s userId itemId req now).2.orders = s.orders ∧
      (UpdateCartItem s userId itemId req now).2.orderItems = s.orderItems) ∧
    (∀ itemId,
      (RemoveCartItem s userId itemId now).2.orders = s.orders ∧
      (RemoveCartItem s userId itemId now).2.orderItems = s.orderItems) ∧
    (∀ req,
      (ApplyCoupon s userId req now).2.orders = s.orders ∧
      (ApplyCoupon s userId req now).2.orderItems = s.orderItems) ∧
    ((RemoveCoupon s userId now).2.orders = s.orders ∧
      (RemoveCoupon s userId now).2.orderItems = s.orderItems) ∧
    ((ClearCart s userId now).2.orders = s.orders ∧
      (ClearCart s userId now).2.orderItems = s.orderItems) ∧
    (∀ id req categoryFound,
      (UpdateProduct s id req categoryFound).2.orders = s.orders ∧
      (UpdateProduct s id req categoryFound).2.orderItems = s.orderItems) ∧
    (∀ id,
      (DeleteProduct s id).2.orders = s.orders ∧
      (DeleteProduct s id).2.orderItems = s.orderItems) := by
  have totals : ∀ (t t' : Store) (cid : String) (c' : Cart),
      updateCartTotals t cid now = some (c', t') →
      t'.orders = t.orders ∧ t'.orderItems = t.orderItems := by
    intro t t' cid c' h
    obtain ⟨_, _, _, ht', _⟩ := updateCartTotals_eq h
    rw [ht']
    exact ⟨rfl, rfl⟩
  have release : ∀ (t : Store) (code : String),
      (releaseCoupon t code now).orders = t.orders ∧
      (releaseCoupon t code now).orderItems = t.orderItems := by
    intro t code
    unfold releaseCoupon
    split_ifs
    · split
      · split_ifs <;> exact ⟨rfl, rfl⟩
      · exact ⟨rfl, rfl⟩
    · exact ⟨rfl, rfl⟩
  refine ⟨?_, ?_, ?_, ?_, ?_, ?_, ?_, ?_⟩
  · intro req newCartId newItemId
    unfold AddToCart
    split_ifs
    · exact ⟨rfl, rfl⟩
    · exact ⟨rfl, rfl⟩
    · split
      · exact ⟨rfl, rfl⟩
      · split
        · exact ⟨rfl, rfl⟩
        · rename_i cartObj s1 hc
          obtain ⟨_, _, _, _, h1, h2, _⟩ := getOrCreateCart_some hc
          split
          · exact ⟨h1, h2⟩
          · rename_i item s2 hi
            have h3 : s2.orders = s1.orders ∧ s2.orderItems = s1.orderItems := by
              unfold saveCartItem at hi
              split at hi
              · dsimp only at hi
                split_ifs at hi
                simp only [Option.some.injEq, Prod.mk.injEq] at hi
                obtain ⟨_, rfl⟩ := hi
                exact ⟨rfl, rfl⟩
              · dsimp only at hi
                split_ifs at hi
                simp only [Option.some.injEq, Prod.mk.injEq] at hi
                obtain ⟨_, rfl⟩ := hi
                exact ⟨rfl, rfl⟩
            split
            · exact ⟨h3.1.trans h1, h3.2.trans h2⟩
            · rename_i c' s3 hut
              have h4 := totals _ _ _ _ hut
              exact ⟨h4.1.trans (h3.1.trans h1), h4.2.trans (h3.2.trans h2)⟩
  · intro itemId req
    unfold UpdateCartItem
    split_ifs
    · exact ⟨rfl, rfl⟩
    · exact ⟨rfl, rfl⟩
    · split
      · exact ⟨rfl, rfl⟩
      · split
        · exact ⟨rfl, rfl⟩
        · dsimp only
          split
          · exact ⟨rfl, rfl⟩
          · rename_i c' s2 hut
            have h4 := totals _ _ _ _ hut
            exact ⟨h4.1, h4.2⟩
  · intro itemId
    unfold RemoveCartItem
    split_ifs
    · exact ⟨rfl, rfl⟩
    · split
      · exact ⟨rfl, rfl⟩
      · split_ifs
        · exact ⟨rfl, rfl⟩
        · dsimp only
          split
          · exact ⟨rfl, rfl⟩
          · rename_i c' s2 hut
            have h4 := totals _ _ _ _ hut
            exact ⟨h4.1, h4.2⟩
  · intro req
    unfold ApplyCoupon
    split_ifs
    · exact ⟨rfl, rfl⟩
    · exact ⟨rfl, rfl⟩
    · split
      · exact ⟨rfl, rfl⟩
      · split_ifs
        · exact ⟨rfl, rfl⟩
        · exact ⟨rfl, rfl⟩
        · split
          · exact ⟨rfl, rfl⟩
          · split_ifs <;> exact ⟨rfl, rfl⟩
  · unfold RemoveCoupon
    split_ifs
    · exact ⟨rfl, rfl⟩
    · split
      · exact ⟨rfl, rfl⟩
      · split_ifs
        · exact ⟨rfl, rfl⟩
        · exact release _ _
  · unfold ClearCart
    split_ifs
    · exact ⟨rfl, rfl⟩
    · split
      · exact ⟨rfl, rfl⟩
      · exact release _ _
  · intro id req categoryFound
    unfold UpdateProduct
    split_ifs <;> exact ⟨rfl, rfl⟩
  · intro id
    unfold DeleteProduct
    split_ifs <;> exact ⟨rfl, rfl⟩

/-- C24. From a store with unique address ids in which every user has at most one
default address, every sequence of `CreateAddress`, `UpdateAddress`, `SetDefaultAddress`
and `DeleteAddress` calls ends in a store where every user still has at most one default
address. After a `SetDefaultAddress` that answers 200 the target is stored as a default
address of the caller, every default address of the caller is the target, and the
addresses of the other users are the rows they were. -/
theorem defaults_preserved (s : Store) (hu : AddressIdsUnique s) (hd : AtMostOneDefault s) :
    (∀ calls : List AddressCall, AtMostOneDefault (runAddressCalls s calls)) ∧
    (∀ (userId id : String) (now : Int),
      (SetDefaultAddress s userId id now).1.status = 200 →
      (∃ a ∈ (SetDefaultAddress s userId id now).2.addresses,
        a.id = id ∧ a.userId = userId ∧ a.isDefault = true) ∧
      (∀ a ∈ (SetDefaultAddress s userId id now).2.addresses,
        a.userId = userId → a.isDefault = true → a.id = id) ∧
      (SetDefaultAddress s userId id now).2.addresses.filter
          (fun a => !decide (a.userId = userId))
        = s.addresses.filter (fun a => !decide (a.userId = userId))) := by
  refine ⟨fun calls => (runAddressCalls_inv calls s hu hd).2, ?_⟩
  intro userId id now h200
  obtain ⟨_, hex, hrows⟩ := SetDefaultAddress_ok h200
  have hown := address_owner hu hex
  rw [hrows]
  refine ⟨?_, ?_, ?_⟩
  · have hex2 := hex
    unfold addressOfUser at hex2
    simp only [List.any_eq_true, Bool.and_eq_true, decide_eq_true_eq] at hex2
    obtain ⟨a0, ha0, hid0, hu0⟩ := hex2
    refine ⟨madeDefault now a0, ?_, hid0, hu0, rfl⟩
    simp only [List.mem_map]
    exact ⟨a0, ha0, by rw [if_pos hid0]⟩
  · intro a' ha' hua hda
    simp only [List.mem_map] at ha'
    obtain ⟨a, _, rfl⟩ := ha'
    by_cases hid : a.id = id
    · rw [if_pos hid]; exact hid
    · rw [if_neg hid] at hua hda ⊢
      by_cases hc : a.userId = userId ∧ a.isDefault = true
      · rw [if_pos hc] at hda
        simp at hda
      · rw [if_neg hc] at hua hda
        exact absurd ⟨hua, hda⟩ hc
  · rw [List.filter_map]
    have hcongr : s.addresses.filter ((fun a => !decide (a.userId = userId)) ∘ (fun a =>
          if a.id = id then madeDefault now a
          else if a.userId = userId ∧ a.isDefault = true then
            { a with isDefault := false, updatedAt := now } else a))
        = s.addresses.filter (fun a => !decide (a.userId = userId)) := by
      apply List.filter_congr
      intro a _
      simp only [Function.comp]
      congr 2
      split
      · rfl
      · split <;> rfl
    rw [hcongr]
    conv_rhs => rw [← List.map_id (s.addresses.filter (fun a => !decide (a.userId = userId)))]
    apply List.map_congr_left
    intro a ha
    simp only [List.mem_filter, Bool.not_eq_true', decide_eq_false_iff_not] at ha
    have hid : a.id ≠ id := fun h => ha.2 (hown a ha.1 h)
    rw [if_neg hid, if_neg (fun h => ha.2 h.1)]
    rfl

/-- Witness for C24 on the store with the addresses `a1` (default) and `a2` of user `u1`
and `a3` (default) of user `u2`: a run of the four handlers, and `u1` making `a2` the
default address. -/
theorem defaults_preserved_witness :
    AtMostOneDefault (runAddressCalls storeAddresses
      [.createAddress "u1" reqNewDefault "a4" 1, .updateAddress "u1" "a2" reqNewDefault 2,
       .setDefaultAddress "u2" "a3" 3, .deleteAddress "u1" "a2" false 4]) ∧
    (∃ a ∈ (SetDefaultAddress storeAddresses "u1" "a2" 5).2.addresses,
        a.id = "a2" ∧ a.userId = "u1" ∧ a.isDefault = true) ∧
    (∀ a ∈ (SetDefaultAddress storeAddresses "u1" "a2" 5).2.addresses,
        a.userId = "u1" → a.isDefault = true → a.id = "a2") ∧
    (SetDefaultAddress storeAddresses "u1" "a2" 5).2.addresses.filter
        (fun a => !decide (a.userId = "u1")) = [addrOther] :=
  ⟨(defaults_preserved storeAddresses (by decide) (by decide)).1 _,
   ((defaults_preserved storeAddresses (by decide) (by decide)).2 "u1" "a2" 5 (by decide)).1,
   ((defaults_preserved storeAddresses (by decide) (by decide)).2 "u1" "a2" 5 (by decide)).2.1,
   ((defaults_preserved storeAddresses (by decide) (by decide)).2 "u1" "a2" 5
      (by decide)).2.2.trans (by decide)⟩

/-- C25. In a store with unique address ids and at most one default address per user,
`DeleteAddress` of the caller's default address, with no cart and no order using it,
answers 200 and removes exactly the rows of that id. If the caller has another address,
the first remaining address of the caller is promoted and is then the only default
address of the caller; if the caller has no other address, the remaining rows are
untouched and none of them is an address of the caller. -/
theorem deleteAddress_default (s : Store) (hu : AddressIdsUnique s) (hd : AtMostOneDefault s)
    (userId id : String) (now : Int) (hauth : userId ≠ "")
    (hex : addressOfUser s id userId = true)
    (hdef : s.addresses.any (fun a => decide (a.id = id) && a.isDefault) = true)
    (hno : s.orders.any (fun o => decide (o.addressId = some id)) = false) :
    (DeleteAddress s userId id false now).1.status = 200 ∧
    (∀ a ∈ (DeleteAddress s userId id false now).2.addresses, a.id ≠ id) ∧
    (DeleteAddress s userId id false now).2.addresses.map (fun a => a.id)
      = (s.addresses.filter (fun a => !decide (a.id = id))).map (fun a => a.id) ∧
    ((∃ a ∈ s.addresses, a.userId = userId ∧ a.id ≠ id) →
      ∃ other, (s.addresses.filter (fun a => !decide (a.id = id))).find?
          (fun a => decide (a.userId = userId)) = some other ∧
        madeDefault now other ∈ (DeleteAddress s userId id false now).2.addresses ∧
        (madeDefault now other).userId = userId ∧
        (madeDefault now other).isDefault = true ∧
        ∀ c ∈ (DeleteAddress s userId id false now).2.addresses,
          c.userId = userId → c.isDefault = true → c = madeDefault now other) ∧
    ((∀ a ∈ s.addresses, a.userId = userId → a.id = id) →
      (DeleteAddress s userId id false now).2.addresses
        = s.addresses.filter (fun a => !decide (a.id = id)) ∧
      ∀ c ∈ (DeleteAddress s userId id false now).2.addresses, c.userId ≠ userId) := by
  obtain ⟨hst, hrows⟩ := DeleteAddress_ok s userId id now hauth hex hno
  obtain ⟨hu2, hd2⟩ := DeleteAddress_inv hu hd userId id false now
  rw [if_pos hdef] at hrows
  have hfilt : ∀ a ∈ s.addresses.filter (fun a => !decide (a.id = id)),
      a ∈ s.addresses ∧ a.id ≠ id := by
    intro a ha
    simpa using ha
  cases hf : (s.addresses.filter (fun a => !decide (a.id = id))).find?
      (fun a => decide (a.userId = userId)) with
  | none =>
    rw [hf] at hrows
    have hnone : ∀ a ∈ s.addresses.filter (fun a => !decide (a.id = id)),
        a.userId ≠ userId := by
      intro a ha
      simpa using List.find?_eq_none.mp hf a ha
    refine ⟨hst, ?_, ?_, ?_, ?_⟩
    · intro a ha
      rw [hrows] at ha
      exact (hfilt a ha).2
    · rw [hrows]
    · rintro ⟨a, ha, hau, hid⟩
      exact absurd hau (hnone a (by simpa using ⟨ha, hid⟩))
    · intro _
      refine ⟨hrows, ?_⟩
      intro c hc
      rw [hrows] at hc
      exact hnone c hc
  | some other =>
    rw [hf] at hrows
    have hmem := List.mem_of_find?_eq_some hf
    have hou : other.userId = userId := by simpa using List.find?_some hf
    have hin : madeDefault now other ∈ (DeleteAddress s userId id false now).2.addresses := by
      rw [hrows]
      simp only [List.mem_map]
      exact ⟨other, hmem, by rw [if_pos rfl]⟩
    refine ⟨hst, ?_, ?_, ?_, ?_⟩
    · intro a' ha'
      rw [hrows] at ha'
      simp only [List.mem_map] at ha'
      obtain ⟨a, ha, rfl⟩ := ha'
      have := (hfilt a ha).2
      split <;> exact this
    · rw [hrows]
      apply ids_map_eq
      intro a
      split <;> rfl
    · intro _
      refine ⟨other, rfl, hin, hou, rfl, ?_⟩
      intro c hc hcu hcd
      exact List.inj_on_of_nodup_map hu2 hc hin
        (hd2 c hc (madeDefault now other) hin (hcu.trans hou.symm) hcd rfl)
    · intro hall
      exact absurd (hall other (hfilt other hmem).1 hou) (hfilt other hmem).2

/-- Witness for C25: user `u1` has the default address `a1` and the address `a2`;
deleting `a1` succeeds and `a2` becomes the default, the address of `u2` staying as it
was. -/
theorem deleteAddress_default_witness :
    (DeleteAddress storeAddresses "u1" "a1" false 7).1.status = 200 ∧
    (DeleteAddress storeAddresses "u1" "a1" false 7).2.addresses
      = [{ addrWork with isDefault := true, updatedAt := 7 }, addrOther] ∧
    ∃ other, (storeAddresses.addresses.filter (fun a => !decide (a.id = "a1"))).find?
          (fun a => decide (a.userId = "u1")) = some other ∧
        madeDefault 7 other ∈ (DeleteAddress storeAddresses "u1" "a1" false 7).2.addresses ∧
        (madeDefault 7 other).userId = "u1" ∧
        (madeDefault 7 other).isDefault = true ∧
        ∀ c ∈ (DeleteAddress storeAddresses "u1" "a1" false 7).2.addresses,
          c.userId = "u1" → c.isDefault = true → c = madeDefault 7 other :=
  ⟨(deleteAddress_default storeAddresses (by decide) (by decide) "u1" "a1" 7 (by decide)
      (by decide) (by decide) (by decide)).1,
   by decide,
   (deleteAddress_default storeAddresses (by decide) (by decide) "u1" "a1" 7 (by decide)
      (by decide) (by decide) (by decide)).2.2.2.1 ⟨addrWork, by decide, by decide, by decide⟩⟩

/-- C26, as stated, fails: the fixed coupon of 100 applied to the cart of 25 leaves the
stored total 0; the request passes every check, the cart exists and has line items, and
yet `CreateOrder` answers 500 and creates no order, because the save of an order with
total 0 is refused by the `Positive` validator of the `total` field. -/
theorem createOrder_free_cart_refused :
    (ApplyCoupon storePlain "u1" ⟨"HUNDRED"⟩ 2).2 = storeFree ∧
    RequestOk storeFree "u1" reqPickup ∧ findCartByUser storeFree "u1" = some cartFree ∧
    cartItemsOf storeFree cartFree.id ≠ [] ∧ cartFree.total = 0 ∧
    (CreateOrder storeFree "u1" reqPickup "o1" sampleItemIds 3).1.status = 500 ∧
    (CreateOrder storeFree "u1" reqPickup "o1" sampleItemIds 3).2.orders = [] := by
  refine ⟨?_, by decide, by decide, by decide, rfl, by decide, by decide⟩
  rw [@ApplyCoupon_accepts storePlain "u1" ⟨"HUNDRED"⟩ 2 couponHundred cartPlain
    (by decide) (by decide) (by decide) (by decide) (by decide) (by decide) (by decide)]
  norm_num [updateCouponRows, updateCartRows, couponApplied, couponDiscount, storePlain,
    storeFree, cartPlain, cartFree, couponTen, couponHundred, wrapInt]
  decide

/-- C26, amended. Once the caller is authenticated, `CreateOrder` answers 400 or 404
exactly when the request fails a check, the caller has no cart, or the cart has no line
items. When all of these pass, the outcome depends on the stored total of the cart: with
a total of at least 0.000001 (what the `Positive` validator of the `total` field accepts)
and a new order id the call answers 201 and appends exactly one order; with a total
below 0.000001, in particular 0, the save of the order is refused, the call answers 500
and the store is left as it was. -/
theorem createOrder_outcomes (s : Store) (userId : String) (req : OrderRequest)
    (orderId : String) (itemId : Nat → String) (now : Int) (hauth : userId ≠ "") :
    (((CreateOrder s userId req orderId itemId now).1.status = 400 ∨
        (CreateOrder s userId req orderId itemId now).1.status = 404) ↔
      (¬ RequestOk s userId req ∨ findCartByUser s userId = none ∨
        ∃ c, findCartByUser s userId = some c ∧ cartItemsOf s c.id = [])) ∧
    (∀ c, RequestOk s userId req → findCartByUser s userId = some c →
      cartItemsOf s c.id ≠ [] →
      (1 / 1000000 ≤ c.total → s.orders.any (fun o => decide (o.id = orderId)) = false →
        (CreateOrder s userId req orderId itemId now).1.status = 201 ∧
        (CreateOrder s userId req orderId itemId now).2.orders
          = s.orders ++ [orderOf c userId req orderId now]) ∧
      (c.total < 1 / 1000000 →
        (CreateOrder s userId req orderId itemId now).1.status = 500 ∧
        (CreateOrder s userId req orderId itemId now).2 = s)) := by
  refine ⟨CreateOrder_rejects_iff s userId req orderId itemId now hauth, ?_⟩
  intro c hreq hc hne
  rw [CreateOrder_past_checks orderId itemId now hauth hreq hc hne]
  constructor
  · intro hpos hfresh
    have hsv : saveOrder s (orderOf c userId req orderId now)
        = some { s with orders := s.orders ++ [orderOf c userId req orderId now] } := by
      unfold saveOrder
      rw [if_pos ⟨by rw [minPositive_eq]; exact hpos, hfresh⟩]
    rw [hsv]
    refine ⟨rfl, ?_⟩
    show (finishCheckout _ c (cartItemsOf s c.id) orderId itemId now).orders = _
    rw [finishCheckout_eq]
    rfl
  · intro hlt
    have hsv : saveOrder s (orderOf c userId req orderId now) = none := by
      unfold saveOrder
      rw [if_neg (fun h => absurd (minPositive_eq ▸ h.1) (not_le.mpr hlt))]
    rw [hsv]
    exact ⟨rfl, rfl⟩

/-- Witness for C26: a valid pickup request on the cart of 25 without coupon answers 201
and appends one order; the same request on the cart whose stored total is 0.0000005
(a fixed coupon of 24.9999995 on the subtotal 25) answers 500 and leaves the store as it
was. -/
theorem createOrder_outcomes_witness :
    ((CreateOrder storePlain "u1" reqPickup "o1" sampleItemIds 3).1.status = 201 ∧
      (CreateOrder storePlain "u1" reqPickup "o1" sampleItemIds 3).2.orders
        = storePlain.orders ++ [orderOf cartPlain "u1" reqPickup "o1" 3]) ∧
    ((CreateOrder storeTiny "u1" reqPickup "o1" sampleItemIds 3).1.status = 500 ∧
      (CreateOrder storeTiny "u1" reqPickup "o1" sampleItemIds 3).2 = storeTiny) :=
  ⟨((createOrder_outcomes storePlain "u1" reqPickup "o1" sampleItemIds 3 (by decide)).2
      cartPlain (by decide) (by decide) (by decide)).1 (by norm_num [cartPlain]) (by decide),
   ((createOrder_outcomes storeTiny "u1" reqPickup "o1" sampleItemIds 3 (by decide)).2
      cartTiny (by decide) (by decide) (by decide)).2 (by norm_num [cartTiny])⟩

/-- C27. On a store with unique coupon ids, an `ApplyCoupon` that does not answer 200
leaves the store as it was, and one that answers 200 rewrites exactly one coupon row,
the coupon found under the requested code, whose `times_used` becomes the old value
plus one; every other coupon row is the row it was. The caller's cart then carries the
requested code, and the coupon the cart carried before, when its code differs from the
requested one, is found unchanged under its code: its use is not released. -/
theorem applyCoupon_counts_named_only (s : Store)
    (hu : (s.coupons.map (fun k => k.id)).Nodup) (userId : String) (req : CartCouponRequest)
    (now : Int) :
    ((ApplyCoupon s userId req now).1.status ≠ 200 → (ApplyCoupon s userId req now).2 = s) ∧
    ((ApplyCoupon s userId req now).1.status = 200 →
      ∃ k c, findActiveCoupon s req.code = some k ∧ k.code = req.code ∧
        findCartByUser s userId = some c ∧
        (ApplyCoupon s userId req now).2.coupons = s.coupons.map (fun x =>
          if x = k then { k with timesUsed := wrapInt (k.timesUsed + 1), updatedAt := now }
          else x) ∧
        (ApplyCoupon s userId req now).2.carts = s.carts.map (fun y =>
          if y.id = c.id then couponApplied c k req.code now y else y) ∧
        (couponApplied c k req.code now c).couponCode = req.code ∧
        (∀ p, c.couponCode ≠ req.code → findCouponByCode s c.couponCode = some p →
          findCouponByCode (ApplyCoupon s userId req now).2 c.couponCode = some p)) := by
  constructor
  · intro hne
    exact (ApplyCoupon_same_or_ok s userId req now).resolve_right hne
  · intro h200
    obtain ⟨k, c, _, hk, _, _, hc, _, hs', _⟩ :=
      @ApplyCoupon_ok s (ApplyCoupon s userId req now).2 userId req now
        (ApplyCoupon s userId req now).1 rfl h200
    obtain ⟨hkmem, hkcode, _⟩ := findActiveCoupon_some hk
    refine ⟨k, c, hk, hkcode, hc, ?_, ?_, rfl, ?_⟩
    · rw [hs']
      unfold updateCouponRows updateCartRows
      apply List.map_congr_left
      intro x hx
      by_cases hxk : x = k
      · rw [if_pos hxk, if_pos (by rw [hxk])]
        rw [hxk]
      · rw [if_neg hxk, if_neg (fun hid => hxk (List.inj_on_of_nodup_map hu hx hkmem hid))]
    · rw [hs']
      rfl
    · intro p hpc hp
      have hpk : ¬ p.id = k.id := by
        intro hid
        obtain ⟨hpmem, hpcode⟩ := findCouponByCode_some hp
        have : p = k := List.inj_on_of_nodup_map hu hpmem hkmem hid
        rw [this, hkcode] at hpcode
        exact hpc hpcode.symm
      rw [hs']
      unfold findCouponByCode updateCouponRows updateCartRows
      exact find_map_keep s.coupons (fun r => decide (r.code = c.couponCode))
        (fun r => { r with timesUsed := wrapInt (k.timesUsed + 1), updatedAt := now })
        (fun _ => rfl) (fun r => r.id = k.id) p hp hpk

/-- Witness for C27: the cart of `u1` carries the coupon `TEN` (used once); applying
`HUNDRED` raises the counter of `HUNDRED` only, the cart then carries `HUNDRED`, and
`TEN` still counts one use. -/
theorem applyCoupon_counts_named_only_witness :
    (ApplyCoupon storeTen "u1" ⟨"HUNDRED"⟩ 2).1.status = 200 ∧
    (ApplyCoupon storeTen "u1" ⟨"HUNDRED"⟩ 2).2.coupons
      = [couponTen, { couponHundred with timesUsed := 1, updatedAt := 2 }] ∧
    ∃ k c, findActiveCoupon storeTen "HUNDRED" = some k ∧ k.code = "HUNDRED" ∧
      findCartByUser storeTen "u1" = some c ∧
      (ApplyCoupon storeTen "u1" ⟨"HUNDRED"⟩ 2).2.coupons = storeTen.coupons.map (fun x =>
        if x = k then { k with timesUsed := wrapInt (k.timesUsed + 1), updatedAt := 2 }
        else x) ∧
      (ApplyCoupon storeTen "u1" ⟨"HUNDRED"⟩ 2).2.carts = storeTen.carts.map (fun y =>
        if y.id = c.id then couponApplied c k "HUNDRED" 2 y else y) ∧
      (couponApplied c k "HUNDRED" 2 c).couponCode = "HUNDRED" ∧
      (∀ p, c.couponCode ≠ "HUNDRED" → findCouponByCode storeTen c.couponCode = some p →
        findCouponByCode (ApplyCoupon storeTen "u1" ⟨"HUNDRED"⟩ 2).2 c.couponCode = some p) :=
  ⟨by decide, by decide,
   (applyCoupon_counts_named_only storeTen (by decide) "u1" ⟨"HUNDRED"⟩ 2).2 (by decide)⟩

/-- C28. On two stores with the same carts and line items whose coupons agree row by
row on code, discount type and discount value (so they may differ in `is_active`,
`expires_at`, `min_purchase`, `max_uses` and `times_used`), `updateCartTotals` returns
the same cart and stores the same cart rows. In particular, for a cart that carries a
coupon code, the recomputed discount is the discount of the coupon found under that code
in the first store, whatever the eligibility fields of the coupon in the second. -/
theorem totals_ignore_eligibility (s t : Store) (hcarts : t.carts = s.carts)
    (hitems : t.cartItems = s.cartItems)
    (hcoupons : List.Forall₂ SamePricing s.coupons t.coupons) (cartId : String) (now : Int) :
    (updateCartTotals t cartId now).map Prod.fst
      = (updateCartTotals s cartId now).map Prod.fst ∧
    (updateCartTotals t cartId now).map (fun r => r.2.carts)
      = (updateCartTotals s cartId now).map (fun r => r.2.carts) ∧
    (∀ c k, getCart s cartId = some c → c.appliedCoupon = true → c.couponCode ≠ "" →
      findCouponByCode s c.couponCode = some k →
      ∃ c' t', updateCartTotals t cartId now = some (c', t') ∧
        c'.subtotal = subtotalOf (cartItemsOf s c.id) ∧
        c'.discount = couponDiscount k (subtotalOf (cartItemsOf s c.id)) ∧
        c'.total = if c.shipping > 0 then c'.subtotal - c'.discount + c.shipping
          else c'.subtotal - c'.discount) := by
  have hget : getCart t cartId = getCart s cartId := by
    unfold getCart
    rw [hcarts]
  have hrec := recomputed_samePricing hitems hcoupons
  refine ⟨?_, ?_, ?_⟩
  · unfold updateCartTotals
    rw [hget]
    cases getCart s cartId with
    | none => rfl
    | some c => simp only [Option.map_some', hrec]
  · unfold updateCartTotals
    rw [hget]
    cases getCart s cartId with
    | none => rfl
    | some c => simp only [Option.map_some', hrec, updateCartRows, hcarts]
  · intro c k hc ha hcode hk
    refine ⟨recomputed t c now c, updateCartRows t c.id (recomputed t c now), ?_, ?_⟩
    · unfold updateCartTotals
      rw [hget, hc]
    · rw [hrec]
      unfold recomputed
      simp only [hk, ha, hcode, ne_eq, not_false_eq_true, and_self, if_true]

/-- Witness for C28: the cart of `u1` carries the 10 percent coupon `TEN`; after the
coupon was deactivated, expired, capped at 0 uses and given a minimum purchase of 1000,
the recomputation returns the same cart, with the discount of 5/2 on the subtotal 25. -/
theorem totals_ignore_eligibility_witness :
    ((updateCartTotals storeTenOff "c1" 3).map Prod.fst
      = (updateCartTotals storeTen "c1" 3).map Prod.fst ∧
    (updateCartTotals storeTenOff "c1" 3).map (fun r => r.2.carts)
      = (updateCartTotals storeTen "c1" 3).map (fun r => r.2.carts)) ∧
    (∃ c' t', updateCartTotals storeTenOff "c1" 3 = some (c', t') ∧
        c'.subtotal = subtotalOf (cartItemsOf storeTen cartTen.id) ∧
        c'.discount = couponDiscount couponTen (subtotalOf (cartItemsOf storeTen cartTen.id)) ∧
        c'.total = if cartTen.shipping > 0 then c'.subtotal - c'.discount + cartTen.shipping
          else c'.subtotal - c'.discount) ∧
    couponDiscount couponTen (subtotalOf (cartItemsOf storeTen cartTen.id)) = 5 / 2 ∧
    findActiveCoupon storeTenOff "TEN" = none :=
  ⟨⟨(totals_ignore_eligibility storeTen storeTenOff rfl rfl
      (List.Forall₂.cons ⟨rfl, rfl, rfl⟩ (List.Forall₂.cons ⟨rfl, rfl, rfl⟩ List.Forall₂.nil))
      "c1" 3).1,
    (totals_ignore_eligibility storeTen storeTenOff rfl rfl
      (List.Forall₂.cons ⟨rfl, rfl, rfl⟩ (List.Forall₂.cons ⟨rfl, rfl, rfl⟩ List.Forall₂.nil))
      "c1" 3).2.1⟩,
   (totals_ignore_eligibility storeTen storeTenOff rfl rfl
      (List.Forall₂.cons ⟨rfl, rfl, rfl⟩ (List.Forall₂.cons ⟨rfl, rfl, rfl⟩ List.Forall₂.nil))
      "c1" 3).2.2 cartTen couponTen rfl rfl (by decide) (by decide),
   by norm_num [couponDiscount, couponTen, subtotalOf, cartItemsOf, storeTen, cartTen, itemA,
     itemB],
   by decide⟩

/-- C29. On a store with unique coupon codes, let the caller's cart have no coupon
applied, discount 0 and `total = subtotal + shipping`, and let the coupon found under the
requested code have `0 ≤ times_used < maxInt`. If `ApplyCoupon` answers 200, the
`RemoveCoupon` that follows answers 200 as well, the caller's cart is then the cart before
the apply with an empty coupon code (and the new `updated_at`), and the coupon found
under the code has its id and the `times_used` it had before the apply. -/
theorem apply_remove_round_trip (s : Store)
    (hcodes : (s.coupons.map (fun k => k.code)).Nodup) (userId : String)
    (req : CartCouponRequest) (now1 now2 : Int) (c : Cart) (k : Coupon)
    (hc : findCartByUser s userId = some c) (hflag : c.appliedCoupon = false)
    (hdisc : c.discount = 0) (htot : c.total = c.subtotal + c.shipping)
    (hk : findActiveCoupon s req.code = some k)
    (hrange : 0 ≤ k.timesUsed ∧ k.timesUsed < maxInt)
    (h1 : (ApplyCoupon s userId req now1).1.status = 200) :
    (RemoveCoupon (ApplyCoupon s userId req now1).2 userId now2).1.status = 200 ∧
    findCartByUser (RemoveCoupon (ApplyCoupon s userId req now1).2 userId now2).2 userId
      = some { c with couponCode := "", updatedAt := now2 } ∧
    ∃ k', findCouponByCode (RemoveCoupon (ApplyCoupon s userId req now1).2 userId now2).2
        req.code = some k' ∧ k'.id = k.id ∧ k'.timesUsed = k.timesUsed := by
  have hauth : userId ≠ "" := by
    intro h
    unfold ApplyCoupon at h1
    rw [if_pos h] at h1
    simp at h1
  obtain ⟨k0, c0, hcode, hk0, _, _, hc0, _, hs1, _⟩ :=
    @ApplyCoupon_ok s (ApplyCoupon s userId req now1).2 userId req now1
      (ApplyCoupon s userId req now1).1 rfl h1
  rw [hk] at hk0
  rw [hc] at hc0
  cases hk0
  cases hc0
  obtain ⟨hkmem, hkcode, _⟩ := findActiveCoupon_some hk
  -- the cart read back after the apply
  have hfind1 : findCartByUser (ApplyCoupon s userId req now1).2 userId
      = some (couponApplied c k req.code now1 c) := by
    rw [hs1]
    have h := findCartByUser_updateCartRows (couponApplied c k req.code now1)
      (fun _ => rfl) hc
    rw [← h]
    exact findCartByUser_congr rfl userId
  -- the coupon read back by code after the apply
  have hfc : findCouponByCode s req.code = some k := by
    unfold findCouponByCode
    cases hf : s.coupons.find? (fun r => decide (r.code = req.code)) with
    | none =>
      have := List.find?_eq_none.mp hf k hkmem
      simp [hkcode] at this
    | some k' =>
      have hp := List.find?_some hf
      simp only [decide_eq_true_eq] at hp
      have : k' = k := List.inj_on_of_nodup_map hcodes (List.mem_of_find?_eq_some hf) hkmem
        (hp.trans hkcode.symm)
      rw [this]
  -- the remove
  have hrem : RemoveCoupon (ApplyCoupon s userId req now1).2 userId now2 =
      ({ status := 200, message := "Cupom removido com sucesso",
         cart := some (couponRemoved (couponApplied c k req.code now1 c) now2
           (couponApplied c k req.code now1 c)) },
        releaseCoupon (updateCartRows (ApplyCoupon s userId req now1).2 c.id
          (couponRemoved (couponApplied c k req.code now1 c) now2)) req.code now2) := by
    unfold RemoveCoupon
    rw [if_neg hauth]
    simp only [hfind1]
    rw [if_neg (by simp [couponApplied])]
    rfl
  rw [hrem]
  refine ⟨rfl, ?_, ?_⟩
  · show findCartByUser (releaseCoupon _ req.code now2) userId = _
    rw [findCartByUser_congr (releaseCoupon_carts _ _ _) userId]
    have h := findCartByUser_updateCartRows
      (couponRemoved (couponApplied c k req.code now1 c) now2) (fun _ => rfl) hfind1
    have hid : (couponApplied c k req.code now1 c).id = c.id := rfl
    rw [hid] at h
    rw [h]
    cases c
    simp only [couponRemoved, couponApplied] at hflag hdisc htot ⊢
    simp only [hflag, hdisc, htot]
  · have hfind2 : findCouponByCode (updateCartRows (ApplyCoupon s userId req now1).2 c.id
        (couponRemoved (couponApplied c k req.code now1 c) now2)) req.code
        = some { k with timesUsed := wrapInt (k.timesUsed + 1), updatedAt := now1 } := by
      rw [hs1]
      unfold findCouponByCode updateCartRows updateCouponRows
      exact find_map_rewrite s.coupons (fun r => decide (r.code = req.code))
        (fun r => { r with timesUsed := wrapInt (k.timesUsed + 1), updatedAt := now1 })
        (fun _ => rfl) (fun r => r.id = k.id) k hfc rfl
    obtain ⟨k', hk', hid, htu⟩ := releaseCoupon_find now2 hcode hfind2
    refine ⟨k', hk', hid, ?_⟩
    rw [htu]
    have hw : wrapInt (k.timesUsed + 1) = k.timesUsed + 1 := by
      apply wrapInt_of_range
      · have := hrange.1; norm_num; omega
      · have := hrange.2; unfold maxInt at this; norm_num at this ⊢; omega
    show (if wrapInt (k.timesUsed + 1) > 0 then wrapInt (wrapInt (k.timesUsed + 1) - 1)
      else wrapInt (k.timesUsed + 1)) = k.timesUsed
    rw [hw, if_pos (by have := hrange.1; omega)]
    have : k.timesUsed + 1 - 1 = k.timesUsed := by omega
    rw [this]
    apply wrapInt_of_range
    · have := hrange.1; norm_num; omega
    · have := hrange.2; unfold maxInt at this; norm_num at this ⊢; omega

/-- Witness for C29: user `u1` applies the coupon `TEN` (used once) to the cart of 25
without coupon and removes it again; the cart is as before and `TEN` counts one use. -/
theorem apply_remove_round_trip_witness :
    (RemoveCoupon (ApplyCoupon storePlain "u1" ⟨"TEN"⟩ 2).2 "u1" 3).1.status = 200 ∧
    findCartByUser (RemoveCoupon (ApplyCoupon storePlain "u1" ⟨"TEN"⟩ 2).2 "u1" 3).2 "u1"
      = some { cartPlain with couponCode := "", updatedAt := 3 } ∧
    ∃ k', findCouponByCode (RemoveCoupon (ApplyCoupon storePlain "u1" ⟨"TEN"⟩ 2).2 "u1" 3).2
        "TEN" = some k' ∧ k'.id = couponTen.id ∧ k'.timesUsed = couponTen.timesUsed :=
  apply_remove_round_trip storePlain (by decide) "u1" ⟨"TEN"⟩ 2 3 cartPlain couponTen
    (by rfl) (by rfl) (by rfl) (by norm_num [cartPlain]) (by rfl) (by decide) (by decide)

/-- C30. For an authenticated caller with a cart, `ValidateCoupon` called with the code
and with `cart_total` equal to the stored subtotal of the cart reports `valid = true`
exactly when `ApplyCoupon` accepts the same code for that cart at the same time; and
when they do, the discount `ValidateCoupon` returns is the discount of the cart that
`ApplyCoupon` returns and of the cart it stores. -/
theorem validate_agrees_with_apply (s : Store) (userId code : String) (now : Int) (c : Cart)
    (hauth : userId ≠ "") (hc : findCartByUser s userId = some c) :
    ((ValidateCoupon s ⟨code, c.subtotal⟩ now).valid = some true ↔
      (ApplyCoupon s userId ⟨code⟩ now).1.status = 200) ∧
    ((ApplyCoupon s userId ⟨code⟩ now).1.status = 200 →
      ∃ d, (ValidateCoupon s ⟨code, c.subtotal⟩ now).discount = some d ∧
        (∃ c1, (ApplyCoupon s userId ⟨code⟩ now).1.cart = some c1 ∧ c1.discount = d) ∧
        ∃ c2, findCartByUser (ApplyCoupon s userId ⟨code⟩ now).2 userId = some c2 ∧
          c2.discount = d) := by
  have hfwd : (ValidateCoupon s ⟨code, c.subtotal⟩ now).valid = some true →
      ∃ k, ApplyCoupon s userId ⟨code⟩ now =
        ({ status := 200, message := "Cupom aplicado com sucesso",
           cart := some (couponApplied c k code now c) },
          updateCouponRows (updateCartRows s c.id (couponApplied c k code now)) k.id
            (fun r => { r with timesUsed := wrapInt (k.timesUsed + 1), updatedAt := now })) ∧
        (ValidateCoupon s ⟨code, c.subtotal⟩ now).discount
          = some (couponDiscount k c.subtotal) := by
    intro h
    obtain ⟨hcode, k, hk, hexp, hmax, hmin, hd⟩ := ValidateCoupon_valid h
    exact ⟨k, @ApplyCoupon_accepts s userId ⟨code⟩ now k c hauth hcode hk hexp hmax hc hmin,
      hd⟩
  have hbwd : (ApplyCoupon s userId ⟨code⟩ now).1.status = 200 →
      (ValidateCoupon s ⟨code, c.subtotal⟩ now).valid = some true := by
    intro h200
    obtain ⟨k, c0, hcode, hk, hexp, hmax, hc0, hmin, _, _⟩ :=
      @ApplyCoupon_ok s (ApplyCoupon s userId ⟨code⟩ now).2 userId ⟨code⟩ now
        (ApplyCoupon s userId ⟨code⟩ now).1 rfl h200
    rw [hc] at hc0
    cases hc0
    have hne : ¬ Expired k now := by
      rw [← expired_iff]
      simp only [hexp]
      decide
    have hnu : ¬ UsageExceeded k := by
      rintro ⟨m, hm, hle⟩
      rw [hm] at hmax
      simp at hmax
      omega
    have hv := (@ValidateCoupon_found s ⟨code, c.subtotal⟩ k now hcode hk).2.2.2 hne hnu
      (not_lt.mp hmin)
    rw [hv]
  refine ⟨⟨fun h => ?_, hbwd⟩, fun h200 => ?_⟩
  · obtain ⟨k, hk, _⟩ := hfwd h
    rw [hk]
  · obtain ⟨k, hk, hd⟩ := hfwd (hbwd h200)
    refine ⟨couponDiscount k c.subtotal, hd, ?_, ?_⟩
    · rw [hk]
      exact ⟨_, rfl, rfl⟩
    · rw [hk]
      refine ⟨couponApplied c k code now c, ?_, rfl⟩
      have h := findCartByUser_updateCartRows (couponApplied c k code now) (fun _ => rfl) hc
      rw [← h]
      exact findCartByUser_congr rfl userId

/-- Witness for C30: for the cart of `u1` (subtotal 25) the coupon `TEN` is valid and is
accepted, and the discount reported is the discount returned and stored with the cart. -/
theorem validate_agrees_with_apply_witness :
    (ValidateCoupon storePlain ⟨"TEN", cartPlain.subtotal⟩ 2).valid = some true ∧
    (ApplyCoupon storePlain "u1" ⟨"TEN"⟩ 2).1.status = 200 ∧
    ∃ d, (ValidateCoupon storePlain ⟨"TEN", cartPlain.subtotal⟩ 2).discount = some d ∧
      (∃ c1, (ApplyCoupon storePlain "u1" ⟨"TEN"⟩ 2).1.cart = some c1 ∧ c1.discount = d) ∧
      ∃ c2, findCartByUser (ApplyCoupon storePlain "u1" ⟨"TEN"⟩ 2).2 "u1" = some c2 ∧
        c2.discount = d :=
  ⟨(validate_agrees_with_apply storePlain "u1" "TEN" 2 cartPlain (by decide) (by rfl)).1.mpr
      (by decide),
   by decide,
   (validate_agrees_with_apply storePlain "u1" "TEN" 2 cartPlain (by decide) (by rfl)).2
      (by decide)⟩

end Veecomm
